import Mathlib

/-!
T5DecodingSampling (fastertransformer/t5_sampling.h)

A shallow embedding of the constructor and of `forward` of the class
`T5DecodingSampling<OpType_>`.

Conventions of the embedding.

* C++ integers are integers (`Int`).  The constructor computes its sizes in
  `int` and in `size_t`: each result is reduced to the range of its type, see
  `wrapInt` (32 bits, two's complement) and `toSizeT` (64 bits), and each
  address to a signed 64-bit offset from `buf_`, see `wrapPtr`.  Where C++
  leaves a result undefined (overflow in `int`, a negative `double` converted
  to `size_t`, an address outside the allocation) this is the value the
  two's-complement machine computes.  A division by zero, a `new[]` of
  negative length and the read of an array entry that was never assigned end
  the constructor without an object.
* In `forward` the offsets `(step - 1) * batch_size_` into `output_ids` and
  `layer * cache_size` into the two self-attention caches are the exact
  products.  The conversions the compiler inserts when the `uint` loop counter
  `step` is compared with an `int` are kept: see `toUnsigned`, `ugt`, `ule`.
* A `float` is a `FloatVal`: only its comparisons with constants are used.
* Device kernels are not interpreted.  A launch is a `Call`; a `Device`
  gives each launch its effect on an abstract device memory.  `forward`
  threads the device memory through the launches in program order and keeps
  the list of launches, each tagged with the step that issued it.
* What the class takes from headers that are not part of this file
  (`CUBLAS_WORKSPACE_SIZE`, `sizeof(curandState_t)`, the workspace sizes the
  decoder and the sampling kernels report, the default value of the argument
  block, the parallel parameters) is a field of `Env`.
-/

namespace T5Sampling

/-! ## Scalars -/

/-- The template parameter `OpType_`; `DataType_` is `float` for `FP32` and
`half` for `FP16`. -/
inductive OperationType
  | FP32
  | FP16
  deriving DecidableEq

/-- The value of `sizeof(DataType_)`. -/
def sizeofDataType : OperationType → Int
  | .FP32 => 4
  | .FP16 => 2

/-- A C++ `float` as comparisons see it: not-a-number, an infinity, or the
finite value `m / 2^e` (both signed zeros are `finite 0 e`). -/
inductive FloatVal
  | nan
  | inf (negative : Bool)
  | finite (m : Int) (e : Nat)
  deriving DecidableEq

namespace FloatVal

/-- The comparison `x == 0.0`. -/
def eqZero : FloatVal → Bool
  | finite m _ => m == 0
  | _ => false

/-- The comparison `x != 0.0`, the negation of `==` (true for a NaN). -/
def neZero (x : FloatVal) : Bool := !x.eqZero

/-- The comparison `x > 0.0`. -/
def gtZero : FloatVal → Bool
  | finite m _ => decide (0 < m)
  | inf negative => !negative
  | nan => false

/-- The comparison `x != 1.0`. -/
def neOne : FloatVal → Bool
  | finite m e => !(m == (2 : Int) ^ e)
  | _ => true

end FloatVal

/-- The value of an `int` converted to `unsigned int`. -/
def toUnsigned (x : Int) : Nat := (x % 4294967296).toNat

/-- The comparison `step > x` of the `uint` loop counter with an `int`. -/
def ugt (step : Nat) (x : Int) : Bool := decide (toUnsigned x < step)

/-- The comparison `step <= x` of the `uint` loop counter with an `int`. -/
def ule (step : Nat) (x : Int) : Bool := decide (step ≤ toUnsigned x)

/-- The value of `ceil(x / d.)` for integers `x` and `d > 0`. -/
def ceilDiv (x d : Int) : Int := -((-x) / d)

/-- The value an operation on `int` leaves when its exact result is `x`: the
representative of `x` modulo 2^32 between -2^31 and 2^31 - 1. -/
def wrapInt (x : Int) : Int := (x + 2147483648) % 4294967296 - 2147483648

/-- The value of an integer converted to `size_t`, and the value an operation
on `size_t` leaves when its exact result is `x`: `x` modulo 2^64. -/
def toSizeT (x : Int) : Int := x % 18446744073709551616

/-- The byte offset of an address from `buf_`, as a signed 64-bit difference:
the representative of `x` modulo 2^64 between -2^63 and 2^63 - 1. -/
def wrapPtr (x : Int) : Int :=
  (x + 9223372036854775808) % 18446744073709551616 - 9223372036854775808

/-- The spacing of the `double` values at `x`, for `0 ≤ x < 2^64`: the least
power of two `u`, from `u` on, with `x < 2^53 * u`. -/
def doubleSpacing : Nat → Int → Int → Int
  | 0, _, u => u
  | fuel + 1, x, u =>
    if x < 9007199254740992 * u then u else doubleSpacing fuel x (2 * u)

/-- The `double` a `size_t` value `x` converts to: `x` rounded to the nearest
multiple of the spacing, a tie to the even multiple.  It is `x` itself below
2^53. -/
def toDouble (x : Int) : Int :=
  let u := doubleSpacing 11 x 1
  let q := x / u
  let r := x % u
  if 2 * r < u ∨ (2 * r = u ∧ q % 2 = 0) then q * u else (q + 1) * u

/-- The value of `(size_t)(ceil(x / n.)) * n` for a `size_t` value `x`. -/
def roundUpSizeT (x n : Int) : Int := toSizeT (ceilDiv (toDouble x) n * n)

/-- The value of `(size_t)(ceil(x / n.)) * n`, stored in an `int`, for an
`int` value `x`. -/
def roundUpInt (x n : Int) : Int := wrapInt (toSizeT (ceilDiv x n * n))

/-! ## The argument block and the constructor -/

/-- The fields of `struct T5SamplingArguments` this class reads or writes. -/
structure T5SamplingArguments where
  batch_size_ : Int
  seq_len_ : Int
  memory_max_seq_len_ : Int
  head_num_ : Int
  size_per_head_ : Int
  hidden_units_ : Int
  decoder_layers_ : Int
  vocab_size_ : Int
  vocab_size_padded_ : Int
  candidate_num_ : Int
  probability_threshold_ : FloatVal
  start_id_ : Int
  end_id_ : Int
  normalization_before_ : Bool
  temperature_ : FloatVal
  repeat_penalty_ : FloatVal
  min_length_ : Int
  seed_ : Int
  num_bucket_ : Int
  max_distance_ : Int
  tie_word_embeddings_ : Bool

/-- The parameters of the constructor (the allocator and the activation type
apart). -/
structure CtorParams where
  batch_size : Int
  seq_len : Int
  head_num : Int
  size_per_head : Int
  vocab_size : Int
  decoder_layers : Int
  memory_hidden_units : Int
  memory_max_seq_len : Int
  start_id : Int
  end_id : Int
  candidate_num : Int := 0
  probability_threshold : FloatVal := .finite 0 0
  is_fuse_qkv : Int := 0
  normalization_before : Bool := true
  temperature : FloatVal := .finite 1 0
  repeat_penalty : FloatVal := .finite 1 0
  min_length : Int := 0
  inner_coeff : Int := 4
  inner_size : Int := -1
  seed : Int := -1
  tensor_para_size : Int := 1
  layer_para_size : Int := 1
  num_bucket : Int := -1
  max_distance : Int := 128
  tie_word_embeddings : Bool := true
  use_gated : Bool := false

/-- The members of `TensorParallelParam` this class reads. -/
structure TensorParallelParam where
  local_hidden_units_ : Int

/-- The members of `LayerParallelParam` this class reads. -/
structure LayerParallelParam where
  layers_per_group : Int
  local_batch_size : Int

/-- The values of the cuBLAS algorithm enumerators the constructor compares
with. -/
structure CublasGemmAlgo where
  CUBLAS_GEMM_DEFAULT : Int
  CUBLAS_GEMM_ALGO23 : Int
  CUBLAS_GEMM_DEFAULT_TENSOR_OP : Int
  CUBLAS_GEMM_ALGO15_TENSOR_OP : Int

/-- What the class takes from the headers it includes and from its
collaborators. -/
structure Env where
  /-- The member `args_` as it is before the constructor body runs. -/
  args_init : T5SamplingArguments
  /-- The member `t_parallel_param_` before the constructor body runs. -/
  t_parallel_param_init : TensorParallelParam
  /-- The member `l_parallel_param_` before the constructor body runs. -/
  l_parallel_param_init : LayerParallelParam
  /-- The method `LayerParallelParam::is_valid`. -/
  is_valid : LayerParallelParam → Int → Bool
  /-- The constant `CUBLAS_WORKSPACE_SIZE`, in bytes. -/
  CUBLAS_WORKSPACE_SIZE : Nat
  /-- The value of `sizeof(curandState_t)`. -/
  sizeof_curandState_t : Nat
  /-- The result of `decoder_->getWorkspaceSize()`. -/
  decoder_workspace_size : Nat
  /-- The size the top-p launcher stores in `topp_workspace_size_`. -/
  topp_workspace_size_ : Nat
  /-- The size the top-k launcher stores in `topk_workspace_size_`. -/
  topk_workspace_size_ : Nat
  /-- The entries `(algoId, stages)` that `readAlgoFromConfig` loads, when the
  file `decoding_gemm_config.in` exists. -/
  gemm_config : Option (List (Int × Int))
  /-- The cuBLAS enumerators. -/
  algo : CublasGemmAlgo

/-- The ways the constructor ends without an object: the four `exit(-1)`,
and the three operations that do not return. -/
inductive CtorError
  /-- Candidate_num for topk is 0 and probability threshold for top p is 0.0. -/
  | both_zero
  /-- Candidate_num for topk is not 0 and probability threshold is not 0.0. -/
  | both_nonzero
  /-- The cuBLAS algorithm is not used in FP32. -/
  | algo_not_fp32 (algoId : Int)
  /-- The cuBLAS algorithm is not used in FP16. -/
  | algo_not_fp16 (algoId : Int)
  /-- A `new[]` of negative length: `new DataType_ *[args_.decoder_layers_]`,
  `new int[args_.batch_size_]`. -/
  | bad_array_new_length
  /-- The division `cache_size /= tensor_para_size` by zero. -/
  | division_by_zero
  /-- The read of `V_mem_cache_[args_.decoder_layers_ - 1]` when the loop
  before it assigned no entry. -/
  | unassigned_cache_entry
  deriving DecidableEq

/-- The assignments to `args_` at the head of the constructor, up to and
including `vocab_size_padded_`.  No assignment stores the parameter
`tie_word_embeddings`. -/
def assignArgs (op : OperationType) (a0 : T5SamplingArguments) (p : CtorParams) :
    T5SamplingArguments :=
  { a0 with
    batch_size_ := p.batch_size
    seq_len_ := p.seq_len
    memory_max_seq_len_ := p.memory_max_seq_len
    head_num_ := p.head_num
    size_per_head_ := p.size_per_head
    hidden_units_ := wrapInt (p.head_num * p.size_per_head)
    decoder_layers_ := p.decoder_layers
    vocab_size_ := p.vocab_size
    candidate_num_ := p.candidate_num
    probability_threshold_ := p.probability_threshold
    start_id_ := p.start_id
    end_id_ := p.end_id
    normalization_before_ := p.normalization_before
    temperature_ := p.temperature
    repeat_penalty_ := p.repeat_penalty
    min_length_ := p.min_length
    seed_ := p.seed
    num_bucket_ := p.num_bucket
    max_distance_ := p.max_distance
    vocab_size_padded_ :=
      match op with
      | .FP32 => p.vocab_size
      | .FP16 => wrapInt (ceilDiv p.vocab_size 8 * 8) }

/-- The check of the sampling mode: the two `exit(-1)` branches on
`candidate_num_` and `probability_threshold_`. -/
def samplingModeCheck (candidate_num_ : Int) (probability_threshold_ : FloatVal) :
    Except CtorError Unit :=
  if candidate_num_ == 0 && probability_threshold_.eqZero then
    .error .both_zero
  else if candidate_num_ != 0 && probability_threshold_.neZero then
    .error .both_nonzero
  else
    .ok ()

/-- The loop over `cublasAlgoMap_` at the end of the constructor. -/
def checkAlgoMap (op : OperationType) (algo : CublasGemmAlgo) :
    List (Int × Int) → Except CtorError Unit
  | [] => .ok ()
  | (algoId, stages) :: rest =>
    if stages != -1 then checkAlgoMap op algo rest
    else
      match op with
      | .FP32 =>
        if algoId > algo.CUBLAS_GEMM_ALGO23 || algoId < algo.CUBLAS_GEMM_DEFAULT then
          .error (.algo_not_fp32 algoId)
        else checkAlgoMap op algo rest
      | .FP16 =>
        if algoId > algo.CUBLAS_GEMM_ALGO15_TENSOR_OP ||
            algoId < algo.CUBLAS_GEMM_DEFAULT_TENSOR_OP then
          .error (.algo_not_fp16 algoId)
        else checkAlgoMap op algo rest

/-- The check on `decoding_gemm_config.in`: a warning when the file is
absent, the loop over its entries otherwise. -/
def gemmConfigCheck (op : OperationType) (env : Env) : Except CtorError Unit :=
  match env.gemm_config with
  | none => .ok ()
  | some entries => checkAlgoMap op env.algo entries

/-! ## The buffer sizes and the layout of `buf_` -/

/-- The local size variables of the constructor, in elements of the type
noted in the source, as they are when `buf_` is allocated. -/
structure BufSizes where
  from_tensor_size : Int
  decoder_workspace_size : Int
  decoder_normed_result_buffer_size : Int
  cache_size : Int
  mem_cache_size : Int
  relative_attention_bias_size : Int
  logits_buf_size : Int
  word_ids_buf_size : Int
  finished_buf_size : Int
  finished_count_size : Int
  topp_id_vals_buf_size : Int
  topp_offset_buf_size : Int
  begin_topp_offset_buf_size : Int
  curandState_size : Int
  padded_embedding_kernel_size : Int
  padded_embedding_bias_size : Int

/-- The size computations of the constructor, with the rounding that
follows the comment `prevent memory misalinged address`.  A product of `int`
values is formed in `int` and converted when it is stored in a `size_t`; the
quotient by `tensor_para_size` is a quotient of `size_t` values. -/
def bufSizes (op : OperationType) (env : Env) (p : CtorParams)
    (a : T5SamplingArguments) : Except CtorError BufSizes :=
  let from_tensor_size := toSizeT (wrapInt (a.batch_size_ * a.hidden_units_))
  let cache_size := toSizeT (wrapInt (wrapInt (a.batch_size_ * a.seq_len_) * a.hidden_units_))
  let mem_cache_size :=
    toSizeT (wrapInt (wrapInt (a.batch_size_ * p.memory_max_seq_len) * a.hidden_units_))
  if p.tensor_para_size != 1 && toSizeT p.tensor_para_size == 0 then
    .error .division_by_zero
  else
    let logits_buf_size := toSizeT (wrapInt (a.batch_size_ * a.vocab_size_padded_))
    let topp_id_vals_buf_size := wrapInt (a.batch_size_ * a.vocab_size_padded_)
    let topp_offset_buf_size := roundUpInt (wrapInt (a.batch_size_ + 1)) 4
    let no_padded_embedding : Bool :=
      match op with
      | .FP32 => true
      | .FP16 => a.vocab_size_ == a.vocab_size_padded_
    .ok
      { from_tensor_size := from_tensor_size
        decoder_workspace_size := env.decoder_workspace_size
        decoder_normed_result_buffer_size := toSizeT (wrapInt (a.batch_size_ * a.hidden_units_))
        cache_size :=
          if p.tensor_para_size != 1 then cache_size / toSizeT p.tensor_para_size
          else cache_size
        mem_cache_size :=
          if p.tensor_para_size != 1 then mem_cache_size / toSizeT p.tensor_para_size
          else mem_cache_size
        relative_attention_bias_size :=
          wrapInt (wrapInt (wrapInt (a.seq_len_ + 1) * wrapInt (a.seq_len_ + 1)) * p.head_num)
        logits_buf_size := roundUpSizeT logits_buf_size 4
        word_ids_buf_size := roundUpSizeT (toSizeT a.batch_size_) 4
        finished_buf_size := roundUpSizeT (toSizeT a.batch_size_) 32
        finished_count_size := toSizeT (ceilDiv 1 32 * 32)
        topp_id_vals_buf_size := roundUpInt topp_id_vals_buf_size 4
        topp_offset_buf_size := topp_offset_buf_size
        begin_topp_offset_buf_size := toSizeT topp_offset_buf_size
        curandState_size := toSizeT a.batch_size_
        padded_embedding_kernel_size :=
          if no_padded_embedding then 0
          else toSizeT (wrapInt (a.hidden_units_ * a.vocab_size_padded_))
        padded_embedding_bias_size :=
          if no_padded_embedding then 0 else toSizeT a.vocab_size_padded_ }

/-- The sum that the local `datatype_buf_size` holds modulo 2^64. -/
def datatypeBufSum (a : T5SamplingArguments) (z : BufSizes) : Int :=
  z.from_tensor_size * 2 + z.decoder_workspace_size +
    (z.cache_size * 4 + z.mem_cache_size * 2) * a.decoder_layers_ +
    z.decoder_normed_result_buffer_size * 3

/-- The local `datatype_buf_size`. -/
def datatypeBufSize (a : T5SamplingArguments) (z : BufSizes) : Int :=
  toSizeT (datatypeBufSum a z)

/-- The argument of `allocator_.malloc` before its reduction modulo 2^64, for
a value of `datatype_buf_size` (`sizeof(int)` is 4, `sizeof(bool)` is 1).  The
sum `topp_id_vals_buf_size + 2 * topp_offset_buf_size` is formed in `int`. -/
def allocSum (op : OperationType) (env : Env) (z : BufSizes) (datatype_buf_size : Int) :
    Int :=
  (if sizeofDataType op == 2 then (env.CUBLAS_WORKSPACE_SIZE : Int) else 0) +
    sizeofDataType op * (datatype_buf_size + z.logits_buf_size) +
    sizeofDataType op * (z.padded_embedding_kernel_size + z.padded_embedding_bias_size) +
    4 * z.word_ids_buf_size + 1 * z.finished_buf_size +
    4 * z.finished_count_size +
    4 * wrapInt (z.topp_id_vals_buf_size + wrapInt (2 * z.topp_offset_buf_size)) +
    env.topp_workspace_size_ + env.topk_workspace_size_ +
    sizeofDataType op * z.relative_attention_bias_size +
    z.curandState_size * env.sizeof_curandState_t

/-- The number of bytes the constructor passes to `allocator_.malloc`. -/
def allocBytes (op : OperationType) (env : Env) (a : T5SamplingArguments)
    (z : BufSizes) : Int :=
  toSizeT (allocSum op env z (datatypeBufSize a z))

/-- A device pointer: into the arena `buf_`, at a byte offset from its
start, or into the output buffer `decoding_params.output_ids` of the caller,
at an offset in elements. -/
inductive Ptr
  | arena (byteOffset : Int)
  | output_ids (elemOffset : Int)
  deriving DecidableEq

/-- The views the constructor carves out of `buf_`, as byte offsets from
`buf_`.  The entries `i` of the two memory caches are assigned for
`0 ≤ i < decoder_layers_`. -/
structure Views where
  cublas_workspace_ : Option Int
  from_tensor_0 : Int
  from_tensor_1 : Int
  K_mem_cache_ : Int → Int
  V_mem_cache_ : Int → Int
  K_cache_0 : Int
  V_cache_0 : Int
  decoder_buf_ : Int
  decoder_normed_result_buf_ : Int
  embedding_buf_ : Int
  logits_buf_ : Int
  word_ids_buf_ : Int
  finished_buf_ : Int
  finished_count_buf_ : Int
  relative_attention_bias_ : Int
  topp_id_vals_buf_ : Int
  begin_topp_offset_buf_ : Int
  topp_offset_buf_ : Int
  topp_workspace_ : Int
  topk_workspace_ : Int
  padded_embedding_kernel : Int
  padded_embedding_bias : Int
  curandstate_buf_ : Int

/-- The pointer arithmetic of the constructor after the allocation, each
address reduced by `w`.  An offset of `size_t` or `int` type counts elements
of the type pointed to. -/
def layout (w : Int → Int) (op : OperationType) (env : Env) (a : T5SamplingArguments)
    (z : BufSizes) : Views :=
  let E := sizeofDataType op
  let from_tensor_0 : Int :=
    if sizeofDataType op == 2 then w (env.CUBLAS_WORKSPACE_SIZE : Int) else 0
  let from_tensor_1 := w (from_tensor_0 + E * z.from_tensor_size)
  let K_mem_cache_ : Int → Int := fun i =>
    w (from_tensor_1 + E * (z.from_tensor_size + i * z.mem_cache_size * 2))
  let V_mem_cache_ : Int → Int := fun i =>
    w (from_tensor_1 + E * (z.from_tensor_size + i * z.mem_cache_size * 2 + z.mem_cache_size))
  let K_cache_0 := w (V_mem_cache_ (a.decoder_layers_ - 1) +
    E * (z.mem_cache_size + 0 * z.cache_size * a.decoder_layers_))
  let V_cache_0 := w (V_mem_cache_ (a.decoder_layers_ - 1) +
    E * (z.mem_cache_size + 1 * z.cache_size * a.decoder_layers_))
  let decoder_buf_ := w (V_cache_0 + E * (z.cache_size * a.decoder_layers_))
  let decoder_normed_result_buf_ := w (decoder_buf_ + E * z.decoder_workspace_size)
  let embedding_buf_ := w (decoder_buf_ + E * z.decoder_workspace_size)
  let logits_buf_ := w (decoder_normed_result_buf_ + E * z.decoder_normed_result_buffer_size)
  let word_ids_buf_ := w (logits_buf_ + E * z.logits_buf_size)
  let finished_buf_ := w (word_ids_buf_ + 4 * z.word_ids_buf_size)
  let finished_count_buf_ := w (finished_buf_ + 1 * z.finished_buf_size)
  let relative_attention_bias_ := w (finished_count_buf_ + 4 * z.finished_count_size)
  let topp_id_vals_buf_ := w (relative_attention_bias_ + E * z.relative_attention_bias_size)
  let begin_topp_offset_buf_ := w (topp_id_vals_buf_ + 4 * z.topp_id_vals_buf_size)
  let topp_offset_buf_ := w (begin_topp_offset_buf_ + 4 * z.begin_topp_offset_buf_size)
  let topp_workspace_ := w (topp_offset_buf_ + 4 * z.topp_offset_buf_size)
  let topk_workspace_ := w (topp_workspace_ + env.topp_workspace_size_)
  let padded_embedding_kernel := w (topk_workspace_ + env.topk_workspace_size_)
  let padded_embedding_bias := w (padded_embedding_kernel + E * z.padded_embedding_kernel_size)
  let curandstate_buf_ := w (padded_embedding_bias + E * z.padded_embedding_bias_size)
  { cublas_workspace_ := if sizeofDataType op == 2 then some 0 else none
    from_tensor_0 := from_tensor_0
    from_tensor_1 := from_tensor_1
    K_mem_cache_ := K_mem_cache_
    V_mem_cache_ := V_mem_cache_
    K_cache_0 := K_cache_0
    V_cache_0 := V_cache_0
    decoder_buf_ := decoder_buf_
    decoder_normed_result_buf_ := decoder_normed_result_buf_
    embedding_buf_ := embedding_buf_
    logits_buf_ := logits_buf_
    word_ids_buf_ := word_ids_buf_
    finished_buf_ := finished_buf_
    finished_count_buf_ := finished_count_buf_
    relative_attention_bias_ := relative_attention_bias_
    topp_id_vals_buf_ := topp_id_vals_buf_
    begin_topp_offset_buf_ := begin_topp_offset_buf_
    topp_offset_buf_ := topp_offset_buf_
    topp_workspace_ := topp_workspace_
    topk_workspace_ := topk_workspace_
    padded_embedding_kernel := padded_embedding_kernel
    padded_embedding_bias := padded_embedding_bias
    curandstate_buf_ := curandstate_buf_ }

/-- The views the constructor carves out of `buf_`.  The loop over the layers
assigns `K_mem_cache_[i]` and `V_mem_cache_[i]` for `0 ≤ i < decoder_layers_`;
the read of `V_mem_cache_[decoder_layers_ - 1]` that follows finds an entry
when there is at least one layer. -/
def carveViews (op : OperationType) (env : Env) (a : T5SamplingArguments)
    (z : BufSizes) : Except CtorError Views :=
  if a.decoder_layers_ ≤ 0 then .error .unassigned_cache_entry
  else .ok (layout wrapPtr op env a z)

/-- The members of a `T5DecodingSampling<OpType_>` object. -/
structure T5DecodingSampling where
  op : OperationType
  args_ : T5SamplingArguments
  t_parallel_param_ : TensorParallelParam
  l_parallel_param_ : LayerParallelParam
  sizes : BufSizes
  /-- The number of bytes of `buf_`. -/
  buf_bytes : Int
  views : Views
  /-- The member `word_ids_buf_`, which `forward` reassigns. -/
  word_ids_buf_ : Ptr

/-- The object the constructor leaves behind when it runs to its end with the
sizes `sizes` and the views `views`. -/
def buildObject (op : OperationType) (env : Env) (p : CtorParams) (sizes : BufSizes)
    (views : Views) : T5DecodingSampling :=
  let args_ := assignArgs op env.args_init p
  let l_parallel_param_ : LayerParallelParam :=
    if env.l_parallel_param_init.layers_per_group == 0 then
      { env.l_parallel_param_init with layers_per_group := p.decoder_layers }
    else env.l_parallel_param_init
  { op := op
    args_ := args_
    t_parallel_param_ := env.t_parallel_param_init
    l_parallel_param_ := l_parallel_param_
    sizes := sizes
    buf_bytes := allocBytes op env args_ sizes
    views := views
    word_ids_buf_ := .arena views.word_ids_buf_ }

/-- The constructor: the object, or the way it ends without one.  In program
order: the check of the sampling mode, the two `new[]` of `decoder_layers_`
pointers, the sizes, the allocation and the views, `new int[batch_size_]`,
the check of the GEMM configuration. -/
def construct (op : OperationType) (env : Env) (p : CtorParams) :
    Except CtorError T5DecodingSampling :=
  match samplingModeCheck (assignArgs op env.args_init p).candidate_num_
      (assignArgs op env.args_init p).probability_threshold_ with
  | .error e => .error e
  | .ok () =>
    if (assignArgs op env.args_init p).decoder_layers_ < 0 then .error .bad_array_new_length
    else
      match bufSizes op env p (assignArgs op env.args_init p) with
      | .error e => .error e
      | .ok sizes =>
        match carveViews op env (assignArgs op env.args_init p) sizes with
        | .error e => .error e
        | .ok views =>
          if (assignArgs op env.args_init p).batch_size_ < 0 then
            .error .bad_array_new_length
          else
            match gemmConfigCheck op env with
            | .error e => .error e
            | .ok () => .ok (buildObject op env p sizes views)

/-- The object of a run of the constructor that leaves one. -/
def constructed (r : Except CtorError T5DecodingSampling) (h : r.toBool = true) :
    T5DecodingSampling :=
  match r, h with
  | .ok o, _ => o
  | .error _, h => Bool.noConfusion h

/-- The method `set_tensor_parallel_param`. -/
def set_tensor_parallel_param (o : T5DecodingSampling) (param : TensorParallelParam) :
    T5DecodingSampling :=
  { o with t_parallel_param_ := param }

/-- The method `set_layer_parallel_param`. -/
def set_layer_parallel_param (o : T5DecodingSampling) (param : LayerParallelParam) :
    T5DecodingSampling :=
  { o with l_parallel_param_ := param }

/-- A view of `buf_`: its first byte, as an offset from `buf_`, and its
length in bytes. -/
structure Extent where
  start : Int
  bytes : Int

/-- The end of a view: the offset of the first byte after it. -/
def Extent.stop (e : Extent) : Int := e.start + e.bytes

/-- The views of `buf_` that are not indexed by a layer, in the order of the
constructor, each with the number of elements the constructor sized for it
times the size of its element type. -/
def fixedExtents (env : Env) (o : T5DecodingSampling) : List Extent :=
  let E := sizeofDataType o.op
  let v := o.views
  let z := o.sizes
  [ ⟨v.from_tensor_0, E * z.from_tensor_size⟩,
    ⟨v.from_tensor_1, E * z.from_tensor_size⟩,
    ⟨v.K_cache_0, E * (z.cache_size * o.args_.decoder_layers_)⟩,
    ⟨v.V_cache_0, E * (z.cache_size * o.args_.decoder_layers_)⟩,
    ⟨v.decoder_buf_, E * z.decoder_workspace_size⟩,
    ⟨v.decoder_normed_result_buf_, E * z.decoder_normed_result_buffer_size⟩,
    ⟨v.logits_buf_, E * z.logits_buf_size⟩,
    ⟨v.word_ids_buf_, 4 * z.word_ids_buf_size⟩,
    ⟨v.finished_buf_, 1 * z.finished_buf_size⟩,
    ⟨v.finished_count_buf_, 4 * z.finished_count_size⟩,
    ⟨v.relative_attention_bias_, E * z.relative_attention_bias_size⟩,
    ⟨v.topp_id_vals_buf_, 4 * z.topp_id_vals_buf_size⟩,
    ⟨v.begin_topp_offset_buf_, 4 * z.begin_topp_offset_buf_size⟩,
    ⟨v.topp_offset_buf_, 4 * z.topp_offset_buf_size⟩,
    ⟨v.topp_workspace_, env.topp_workspace_size_⟩,
    ⟨v.topk_workspace_, env.topk_workspace_size_⟩,
    ⟨v.padded_embedding_kernel, E * z.padded_embedding_kernel_size⟩,
    ⟨v.padded_embedding_bias, E * z.padded_embedding_bias_size⟩,
    ⟨v.curandstate_buf_, z.curandState_size * env.sizeof_curandState_t⟩ ]

/-- The two cross-attention cache views of layer `i`. -/
def memCacheExtents (o : T5DecodingSampling) (i : Int) : List Extent :=
  [ ⟨o.views.K_mem_cache_ i, sizeofDataType o.op * o.sizes.mem_cache_size⟩,
    ⟨o.views.V_mem_cache_ i, sizeofDataType o.op * o.sizes.mem_cache_size⟩ ]

/-- The end of the last view, `curandstate_buf_ + curandState_size`. -/
def lastViewStop (env : Env) (o : T5DecodingSampling) : Int :=
  o.views.curandstate_buf_ + o.sizes.curandState_size * env.sizeof_curandState_t

/-- The sizes are not negative, and the two top-p offset buffers have the
same size. -/
def BufSizes.Nonneg (z : BufSizes) : Prop :=
  0 ≤ z.from_tensor_size ∧ 0 ≤ z.decoder_workspace_size ∧
  0 ≤ z.decoder_normed_result_buffer_size ∧ 0 ≤ z.cache_size ∧ 0 ≤ z.mem_cache_size ∧
  0 ≤ z.relative_attention_bias_size ∧ 0 ≤ z.logits_buf_size ∧ 0 ≤ z.word_ids_buf_size ∧
  0 ≤ z.finished_buf_size ∧ 0 ≤ z.finished_count_size ∧ 0 ≤ z.topp_id_vals_buf_size ∧
  0 ≤ z.topp_offset_buf_size ∧ z.begin_topp_offset_buf_size = z.topp_offset_buf_size ∧
  0 ≤ z.curandState_size ∧ 0 ≤ z.padded_embedding_kernel_size ∧
  0 ≤ z.padded_embedding_bias_size

/-- The value of `vocab_size_padded_` before its reduction to `int`:
`vocab_size` in FP32, `ceil(vocab_size / 8.) * 8` in FP16. -/
def paddedVocab (op : OperationType) (vocab_size : Int) : Int :=
  match op with
  | .FP32 => vocab_size
  | .FP16 => ceilDiv vocab_size 8 * 8

/-- The parameters that are sizes are values of `int`, and so is every sum
and product of them that the constructor forms in `int`: `hidden_units_`,
`vocab_size_padded_`, the element counts, and the sum of the two top-p sizes
in the byte count. -/
def IntSizesFit (op : OperationType) (p : CtorParams) : Prop :=
  p.head_num * p.size_per_head ≤ 2147483647 ∧
  paddedVocab op p.vocab_size ≤ 2147483647 ∧
  p.batch_size * (p.head_num * p.size_per_head) ≤ 2147483647 ∧
  p.batch_size * p.seq_len ≤ 2147483647 ∧
  p.batch_size * p.seq_len * (p.head_num * p.size_per_head) ≤ 2147483647 ∧
  p.batch_size * p.memory_max_seq_len ≤ 2147483647 ∧
  p.batch_size * p.memory_max_seq_len * (p.head_num * p.size_per_head) ≤ 2147483647 ∧
  (p.seq_len + 1) * (p.seq_len + 1) ≤ 2147483647 ∧
  (p.seq_len + 1) * (p.seq_len + 1) * p.head_num ≤ 2147483647 ∧
  p.head_num * p.size_per_head * paddedVocab op p.vocab_size ≤ 2147483647 ∧
  ceilDiv (p.batch_size * paddedVocab op p.vocab_size) 4 * 4 +
    2 * (ceilDiv (p.batch_size + 1) 4 * 4) ≤ 2147483647 ∧
  p.decoder_layers ≤ 2147483647 ∧ p.tensor_para_size ≤ 2147483647

/-! ## `forward` -/

/-- The value of the local `alpha` passed to the projection: `1.0f`, or
`pow((float)k, -0.5)` with `k = hidden_units_`. -/
inductive Alpha
  | one
  | rsqrt_hidden_units
  deriving DecidableEq

/-- The kernel launches of `forward`, with the arguments the control flow of
`forward` decides. -/
inductive Call
  /-- The call `cudaMemsetAsync(decoding_params.output_scores, 0, ...)`. -/
  | cudaMemsetAsync_output_scores
  | sampling_init_kernelLauncher (word_ids : Ptr)
  | topp_initialization_kernelLauncher_v2 (word_ids : Ptr)
  | ker_curand_setupLauncher
  | build_relative_attention_bias_launcher
  | kernel_padding_kernelLauncher
  | bias_padding_kernelLauncher
  /-- The embedding lookup into `from_tensor_[out]` of the ids at `word_ids`. -/
  | words_embeddings_kernel_launcher (out : Int) (word_ids : Ptr)
  /-- The call `decoder_->initialize(param[layer], decoder_buf_, cublas_workspace_)`. -/
  | decoder_init_layer (layer : Int)
  /-- The call `decoder_->forward`: the indices of the input and output slot of
  `from_tensor_`, the byte offsets in `buf_` of the four cache views, the step. -/
  | decoder_forward (layer : Int) (from_id out_id : Int)
      (K_cache V_cache K_mem_cache V_mem_cache : Int) (step : Nat)
  /-- The final normalisation of `from_tensor_[out_id]`; `none` when no layer
  ran in this step and `out_id` was never assigned. -/
  | t5_layer_norm (out_id : Option Int)
  /-- The projection to the logits; `padded` when it reads
  `padded_embedding_kernel`. -/
  | cublasMM_cublasLtMM_wrapper_decoder (alpha : Alpha) (padded : Bool)
  | apply_logits_mask_kernelLauncher (min_length_active : Bool)
  | apply_temperature_penalty_kernelLauncher
  | softmax_kernelLauncher
  | update_logits_without_softmax
  | topK_sampling_kernel_kernelLauncher_v3 (output_ids : Ptr)
  | topK_sampling_kernel_kernelLauncher_v2 (output_ids : Ptr)
  | topP_sampling_kernel_kernelLauncher_v3 (output_ids : Ptr)
  | topP_sampling_kernel_kernelLauncher_v2 (output_ids : Ptr)
  /-- The merge with the forced tokens; `with_sequence_length` when the
  sequence-length buffer is passed rather than `nullptr`. -/
  | update_with_force_decodingLauncher (word_ids : Ptr) (with_sequence_length : Bool)
      (output_ids : Ptr) (max_trg_len : Int) (step : Nat)
  deriving DecidableEq

namespace Call

/-- The final layer normalisation. -/
def isLayerNorm : Call → Bool
  | t5_layer_norm _ => true
  | _ => false

/-- The projection to the vocabulary. -/
def isProjection : Call → Bool
  | cublasMM_cublasLtMM_wrapper_decoder _ _ => true
  | _ => false

/-- The explicit softmax over the logits. -/
def isSoftmax : Call → Bool
  | softmax_kernelLauncher => true
  | _ => false

/-- A top-k selection. -/
def isTopK : Call → Bool
  | topK_sampling_kernel_kernelLauncher_v3 _ => true
  | topK_sampling_kernel_kernelLauncher_v2 _ => true
  | _ => false

/-- A top-p selection. -/
def isTopP : Call → Bool
  | topP_sampling_kernel_kernelLauncher_v3 _ => true
  | topP_sampling_kernel_kernelLauncher_v2 _ => true
  | _ => false

/-- A token selection. -/
def isSelection (c : Call) : Bool := c.isTopK || c.isTopP

/-- A launch of the sampling pipeline: masking, temperature, softmax or its
replacement, selection. -/
def inSamplingPipeline : Call → Bool
  | apply_logits_mask_kernelLauncher _ => true
  | apply_temperature_penalty_kernelLauncher => true
  | softmax_kernelLauncher => true
  | update_logits_without_softmax => true
  | c => c.isSelection

/-- A launch of the layer loop. -/
def isDecoderLayer : Call → Bool
  | decoder_init_layer _ => true
  | decoder_forward _ _ _ _ _ _ _ _ => true
  | _ => false

/-- The embedding lookup at the head of a step. -/
def isEmbedding : Call → Bool
  | words_embeddings_kernel_launcher _ _ => true
  | _ => false

/-- The merge with the forced tokens. -/
def isForceDecoding : Call → Bool
  | update_with_force_decodingLauncher _ _ _ _ _ => true
  | _ => false

end Call

/-- The members of `decoding_params` that decide the control flow of
`forward`. -/
structure DecodingInitParam where
  /-- Whether `trg_word` is not null. -/
  trg_word : Bool
  /-- The device array `trg_length`. -/
  trg_length : Nat → Int
  /-- Whether `output_scores` is not null. -/
  output_scores : Bool
  /-- Whether `logits_mask` is not null. -/
  logits_mask : Bool

/-- The device: the effect of each launch on the device memory, and the
flags a copy of `finished_buf_` to the host reads. -/
structure Device (σ : Type) where
  exec : Call → σ → σ
  finished : σ → Nat → Bool

/-- The locals `min_trg_len` and `max_trg_len` after the loop over
`h_trg_length_` (both 0 when `trg_word` is null). -/
def trgLenBounds (batch_size_ : Int) (dp : DecodingInitParam) : Int × Int :=
  if dp.trg_word then
    (List.range' 1 (batch_size_.toNat - 1)).foldl
      (fun b i => (min b.1 (dp.trg_length i), max b.2 (dp.trg_length i)))
      (dp.trg_length 0, dp.trg_length 0)
  else (0, 0)

/-- Whether the projection reads the embedding kernel of the caller rather
than the padded copy. -/
def usesCallerEmbedding (o : T5DecodingSampling) : Bool :=
  match o.op with
  | .FP32 => true
  | .FP16 => o.args_.vocab_size_ == o.args_.vocab_size_padded_

/-- The launches before the step loop. -/
def prologueCalls (o : T5DecodingSampling) (dp : DecodingInitParam) : List Call :=
  (if dp.output_scores then [Call.cudaMemsetAsync_output_scores] else []) ++
  (if o.args_.candidate_num_ != 0 then [Call.sampling_init_kernelLauncher o.word_ids_buf_]
   else if o.args_.probability_threshold_.neZero then
     [Call.topp_initialization_kernelLauncher_v2 o.word_ids_buf_]
   else []) ++
  [Call.ker_curand_setupLauncher, Call.build_relative_attention_bias_launcher] ++
  (if usesCallerEmbedding o then []
   else [Call.kernel_padding_kernelLauncher, Call.bias_padding_kernelLauncher])

/-- The local `cache_size` of `forward`. -/
def forwardCacheSize (o : T5DecodingSampling) : Int :=
  o.args_.batch_size_ * o.args_.seq_len_ * o.t_parallel_param_.local_hidden_units_

/-- The loop over the layers in one step: the launches, and the value of
`out_id` after the loop. -/
def layerLoop (env : Env) (o : T5DecodingSampling) (step : Nat) :
    List Nat → Option Int → List Call × Option Int
  | [], out_id => ([], out_id)
  | layer :: rest, out_id =>
    if env.is_valid o.l_parallel_param_ layer then
      let from_id : Int := (layer : Int) % 2
      let out_id : Int := 1 - from_id
      let E := sizeofDataType o.op
      let r := layerLoop env o step rest (some out_id)
      (Call.decoder_init_layer layer ::
        Call.decoder_forward layer from_id out_id
          (o.views.K_cache_0 + E * (layer * forwardCacheSize o))
          (o.views.V_cache_0 + E * (layer * forwardCacheSize o))
          (o.views.K_mem_cache_ layer) (o.views.V_mem_cache_ layer) step :: r.1, r.2)
    else layerLoop env o step rest out_id

/-- The slot `decoding_params.output_ids + (step - 1) * args_.batch_size_`. -/
def outputSlot (o : T5DecodingSampling) (step : Nat) : Ptr :=
  .output_ids (((step : Int) - 1) * o.args_.batch_size_)

/-- The selection branch of the block guarded by `step > min_trg_len`. -/
def selectionCalls (o : T5DecodingSampling) (dp : DecodingInitParam) (step : Nat) :
    List Call :=
  if o.args_.candidate_num_ != 0 then
    if dp.output_scores then
      [Call.softmax_kernelLauncher,
       Call.topK_sampling_kernel_kernelLauncher_v3 (outputSlot o step)]
    else
      [Call.update_logits_without_softmax,
       Call.topK_sampling_kernel_kernelLauncher_v2 (outputSlot o step)]
  else if o.args_.probability_threshold_.neZero then
    Call.softmax_kernelLauncher ::
      (if dp.output_scores then
        [Call.topP_sampling_kernel_kernelLauncher_v3 (outputSlot o step)]
       else
        [Call.topP_sampling_kernel_kernelLauncher_v2 (outputSlot o step)])
  else []

/-- The block guarded by `step > min_trg_len`. -/
def samplingCalls (o : T5DecodingSampling) (dp : DecodingInitParam) (min_trg_len : Int)
    (step : Nat) (out_id : Option Int) : List Call :=
  if ugt step min_trg_len then
    let alpha := if o.args_.tie_word_embeddings_ then Alpha.rsqrt_hidden_units else Alpha.one
    let min_length_active := o.args_.min_length_ != 0 && ule step o.args_.min_length_
    [Call.t5_layer_norm out_id,
     Call.cublasMM_cublasLtMM_wrapper_decoder alpha (!usesCallerEmbedding o)] ++
    (if dp.logits_mask || min_length_active then
      [Call.apply_logits_mask_kernelLauncher min_length_active] else []) ++
    (if o.args_.temperature_.neOne then
      [Call.apply_temperature_penalty_kernelLauncher] else []) ++
    selectionCalls o dp step
  else []

/-- The branch on `step <= max_trg_len`: the merge with the forced tokens, or
no launch. -/
def forceCalls (o : T5DecodingSampling) (min_trg_len max_trg_len : Int)
    (word_ids_buf_ : Ptr) (step : Nat) : List Call :=
  if ule step max_trg_len then
    [Call.update_with_force_decodingLauncher word_ids_buf_ (!ugt step min_trg_len)
      (outputSlot o step) max_trg_len step]
  else []

/-- The launches of one step, in program order, given the value of the member
`word_ids_buf_` at the start of the step. -/
def stepCalls (env : Env) (o : T5DecodingSampling) (dp : DecodingInitParam)
    (min_trg_len max_trg_len : Int) (word_ids_buf_ : Ptr) (step : Nat) : List Call :=
  let layers := layerLoop env o step (List.range o.args_.decoder_layers_.toNat) none
  Call.words_embeddings_kernel_launcher 0 word_ids_buf_ :: layers.1 ++
    samplingCalls o dp min_trg_len step layers.2 ++
    forceCalls o min_trg_len max_trg_len word_ids_buf_ step

/-- The state of a run of `forward`: the device memory, the member
`word_ids_buf_`, the launches so far with the step that issued each (0 before
the loop), and the number of steps whose body has run. -/
structure FwdState (σ : Type) where
  dev : σ
  word_ids_buf_ : Ptr
  log : List (Nat × Call)
  steps : Nat

/-- Issue the launches `cs` at step `t`. -/
def launch {σ : Type} (D : Device σ) (t : Nat) (cs : List Call) (s : FwdState σ) :
    FwdState σ :=
  { s with
    dev := cs.foldl (fun d c => D.exec c d) s.dev
    log := s.log ++ cs.map (fun c => (t, c)) }

/-- The body of the step loop up to the check of the finished flags. -/
def stepBody {σ : Type} (D : Device σ) (env : Env) (o : T5DecodingSampling)
    (dp : DecodingInitParam) (min_trg_len max_trg_len : Int) (step : Nat)
    (s : FwdState σ) : FwdState σ :=
  let s1 := launch D step (stepCalls env o dp min_trg_len max_trg_len s.word_ids_buf_ step) s
  { s1 with
    word_ids_buf_ := if ule step max_trg_len then s.word_ids_buf_ else outputSlot o step
    steps := s.steps + 1 }

/-- The check `sum == args_.batch_size_` on the host copy of the finished
flags, the sum being an `uint`. -/
def allFinished {σ : Type} (D : Device σ) (batch_size_ : Int) (d : σ) : Bool :=
  let sum := (List.range (toUnsigned batch_size_)).foldl
    (fun acc i => (acc + (if D.finished d i then 1 else 0)) % 4294967296) 0
  sum == toUnsigned batch_size_

/-- The step loop, `remaining` iterations before the loop condition fails:
the body, then the `break` when `step > max_trg_len` and all flags are set. -/
def stepLoop {σ : Type} (D : Device σ) (env : Env) (o : T5DecodingSampling)
    (dp : DecodingInitParam) (min_trg_len max_trg_len : Int) :
    Nat → Nat → FwdState σ → FwdState σ
  | 0, _, s => s
  | remaining + 1, step, s =>
    let s1 := stepBody D env o dp min_trg_len max_trg_len step s
    if ugt step max_trg_len && allFinished D o.args_.batch_size_ s1.dev then s1
    else stepLoop D env o dp min_trg_len max_trg_len remaining (step + 1) s1

/-- The state before the step loop. -/
def prologue {σ : Type} (D : Device σ) (o : T5DecodingSampling) (dp : DecodingInitParam)
    (d0 : σ) : FwdState σ :=
  launch D 0 (prologueCalls o dp)
    { dev := d0, word_ids_buf_ := o.word_ids_buf_, log := [], steps := 0 }

/-- The method `forward`, from the device memory `d0`.  The loop
`for (uint step = 1; step <= args_.seq_len_; ++step)` has
`toUnsigned seq_len_` iterations unless it breaks. -/
def forward {σ : Type} (D : Device σ) (env : Env) (o : T5DecodingSampling)
    (dp : DecodingInitParam) (d0 : σ) : FwdState σ :=
  let b := trgLenBounds o.args_.batch_size_ dp
  stepLoop D env o dp b.1 b.2 (toUnsigned o.args_.seq_len_) 1 (prologue D o dp d0)

/-- The state after `t` bodies of the step loop with no `break` taken. -/
def stateAt {σ : Type} (D : Device σ) (env : Env) (o : T5DecodingSampling)
    (dp : DecodingInitParam) (d0 : σ) : Nat → FwdState σ
  | 0 => prologue D o dp d0
  | t + 1 =>
    stepBody D env o dp (trgLenBounds o.args_.batch_size_ dp).1
      (trgLenBounds o.args_.batch_size_ dp).2 (t + 1) (stateAt D env o dp d0 t)

/-- The launches a log records for step `t`, in program order. -/
def callsAt (log : List (Nat × Call)) (t : Nat) : List Call :=
  (log.filter (fun e => e.1 == t)).map Prod.snd

/-- The forced lengths that `forward` reads are lengths: when `trg_word` is
given, the batch is not empty and each `trg_length[i]` with `i < batch_size_`
is a non-negative `int`. -/
def ForcedLengthsOk (batch_size_ : Int) (dp : DecodingInitParam) : Prop :=
  dp.trg_word = true →
    1 ≤ batch_size_ ∧
      ∀ i : Nat, (i : Int) < batch_size_ →
        0 ≤ dp.trg_length i ∧ dp.trg_length i < 2147483648

/-- The two self-attention cache views `forward` passes to layer `l`:
`K_cache_[0] + l * cache_size` and `V_cache_[0] + l * cache_size`, each of
`cache_size` elements, with the local `cache_size` of `forward`. -/
def selfCacheExtents (o : T5DecodingSampling) (l : Int) : List Extent :=
  [ ⟨o.views.K_cache_0 + sizeofDataType o.op * (l * forwardCacheSize o),
      sizeofDataType o.op * forwardCacheSize o⟩,
    ⟨o.views.V_cache_0 + sizeofDataType o.op * (l * forwardCacheSize o),
      sizeofDataType o.op * forwardCacheSize o⟩ ]

/-- The view `K_cache_[0] + l * cache_size` of `cache_size` elements. -/
def selfKView (o : T5DecodingSampling) (l : Int) : Extent :=
  ⟨o.views.K_cache_0 + sizeofDataType o.op * (l * forwardCacheSize o),
    sizeofDataType o.op * forwardCacheSize o⟩

/-- The view `V_cache_[0] + l * cache_size` of `cache_size` elements. -/
def selfVView (o : T5DecodingSampling) (l : Int) : Extent :=
  ⟨o.views.V_cache_0 + sizeofDataType o.op * (l * forwardCacheSize o),
    sizeofDataType o.op * forwardCacheSize o⟩

/-- The view `K_mem_cache_[l]` of `mem_cache_size` elements. -/
def memKView (o : T5DecodingSampling) (l : Int) : Extent :=
  ⟨o.views.K_mem_cache_ l, sizeofDataType o.op * o.sizes.mem_cache_size⟩

/-- The view `V_mem_cache_[l]` of `mem_cache_size` elements. -/
def memVView (o : T5DecodingSampling) (l : Int) : Extent :=
  ⟨o.views.V_mem_cache_ l, sizeofDataType o.op * o.sizes.mem_cache_size⟩

/-- The view `a` ends where the view `b` starts, or before. -/
def Extent.before (a b : Extent) : Prop := a.stop ≤ b.start

/-- The launches of layer `l` at step `t` when the layer is owned. -/
def layerCalls (o : T5DecodingSampling) (t : Nat) (l : Nat) : List Call :=
  [ Call.decoder_init_layer l,
    Call.decoder_forward l ((l : Int) % 2) (1 - (l : Int) % 2)
      (o.views.K_cache_0 + sizeofDataType o.op * (l * forwardCacheSize o))
      (o.views.V_cache_0 + sizeofDataType o.op * (l * forwardCacheSize o))
      (o.views.K_mem_cache_ l) (o.views.V_mem_cache_ l) t ]

/-! ## Concrete inputs -/

/-- An argument block with every field zero and the given value of
`tie_word_embeddings_`. -/
def zeroArgs (tie : Bool) : T5SamplingArguments :=
  { batch_size_ := 0, seq_len_ := 0, memory_max_seq_len_ := 0, head_num_ := 0,
    size_per_head_ := 0, hidden_units_ := 0, decoder_layers_ := 0, vocab_size_ := 0,
    vocab_size_padded_ := 0, candidate_num_ := 0, probability_threshold_ := .finite 0 0,
    start_id_ := 0, end_id_ := 0, normalization_before_ := true,
    temperature_ := .finite 1 0, repeat_penalty_ := .finite 1 0, min_length_ := 0,
    seed_ := 0, num_bucket_ := 0, max_distance_ := 0, tie_word_embeddings_ := tie }

/-- An environment without parallelism and without a GEMM configuration
file: every layer is owned, the workspaces have 16 bytes each, a random
state has 48 bytes. -/
def demoEnv (tie : Bool) : Env :=
  { args_init := zeroArgs tie
    t_parallel_param_init := { local_hidden_units_ := 1 }
    l_parallel_param_init := { layers_per_group := 0, local_batch_size := 0 }
    is_valid := fun _ _ => true
    CUBLAS_WORKSPACE_SIZE := 16
    sizeof_curandState_t := 48
    decoder_workspace_size := 16
    topp_workspace_size_ := 16
    topk_workspace_size_ := 16
    gemm_config := none
    algo := { CUBLAS_GEMM_DEFAULT := -1, CUBLAS_GEMM_ALGO23 := 23,
              CUBLAS_GEMM_DEFAULT_TENSOR_OP := 99, CUBLAS_GEMM_ALGO15_TENSOR_OP := 115 } }

/-- A small configuration: one sequence, one head of size one, one layer,
eight words, and the given sampling mode. -/
def demoParams (candidate_num : Int) (probability_threshold : FloatVal) : CtorParams :=
  { batch_size := 1, seq_len := 1, head_num := 1, size_per_head := 1, vocab_size := 8,
    decoder_layers := 1, memory_hidden_units := 1, memory_max_seq_len := 1,
    start_id := 1, end_id := 2, candidate_num := candidate_num,
    probability_threshold := probability_threshold }

/-- The object built for the small configuration in top-k mode with four
candidates. -/
def demoObject (op : OperationType) : T5DecodingSampling :=
  constructed (construct op (demoEnv true) (demoParams 4 (.finite 0 0)))
    (by cases op <;> rfl)

/-- A device whose launches change nothing and whose finished flags are never
set. -/
def idleDevice : Device Unit :=
  { exec := fun _ d => d, finished := fun _ _ => false }

/-- A device that counts its launches, and sets every finished flag from the
launch number `n` on. -/
def countingDevice (n : Nat) : Device Nat :=
  { exec := fun _ d => d + 1, finished := fun d _ => decide (n ≤ d) }

/-- No forced tokens, no scores, no mask. -/
def plainDecodingParam : DecodingInitParam :=
  { trg_word := false, trg_length := fun _ => 0, output_scores := false, logits_mask := false }

/-- Forced tokens of lengths 3 and 0 for a batch of two. -/
def forcedDecodingParam : DecodingInitParam :=
  { trg_word := true, trg_length := fun i => if i = 0 then 3 else 0,
    output_scores := false, logits_mask := false }

/-- A batch of two sequences of at most five steps, with the given sampling
mode. -/
def pairParams (candidate_num : Int) (probability_threshold : FloatVal) : CtorParams :=
  { batch_size := 2, seq_len := 5, head_num := 2, size_per_head := 4, vocab_size := 100,
    decoder_layers := 2, memory_hidden_units := 8, memory_max_seq_len := 3,
    start_id := 1, end_id := 2, candidate_num := candidate_num,
    probability_threshold := probability_threshold }

/-- The small configuration with the largest `int` as `vocab_size`. -/
def hugeVocabParams : CtorParams :=
  { demoParams 4 (.finite 0 0) with vocab_size := 2147483647 }

/-- A model sharded eight ways: 64 sequences of at most 4096 steps, 64 heads
of size 256 (16384 hidden units), one layer, `tensor_para_size = 8`. -/
def wideParams : CtorParams :=
  { batch_size := 64, seq_len := 4096, head_num := 64, size_per_head := 256, vocab_size := 8,
    decoder_layers := 1, memory_hidden_units := 16384, memory_max_seq_len := 1,
    start_id := 1, end_id := 2, candidate_num := 1, tensor_para_size := 8 }

/-- The object built in FP16 for `wideParams`. -/
def wideObject : T5DecodingSampling :=
  constructed (construct .FP16 (demoEnv true) wideParams) rfl

/-- The object built in FP16 for `pairParams` in top-k mode, one candidate. -/
def pairObject : T5DecodingSampling :=
  constructed (construct .FP16 (demoEnv true) (pairParams 1 (.finite 0 0))) rfl

/-- A wide model: eight sequences of at most 4095 steps, 128 heads of size 64
(8192 hidden units), three layers, eight words, top-k mode. -/
def manyHeadsParams : CtorParams :=
  { batch_size := 8, seq_len := 4095, head_num := 128, size_per_head := 64, vocab_size := 8,
    decoder_layers := 3, memory_hidden_units := 8192, memory_max_seq_len := 1,
    start_id := 1, end_id := 2, candidate_num := 1 }

/-- The object built in FP16 for `manyHeadsParams`. -/
def manyHeadsObject : T5DecodingSampling :=
  constructed (construct .FP16 (demoEnv true) manyHeadsParams) rfl

/-- The object built in FP32 for `pairParams` in top-k mode, one candidate. -/
def topkObject : T5DecodingSampling :=
  constructed (construct .FP32 (demoEnv true) (pairParams 1 (.finite 0 0))) rfl

/-- The object built in FP32 for `pairParams` in top-p mode, threshold 0.5. -/
def toppObject : T5DecodingSampling :=
  constructed (construct .FP32 (demoEnv true) (pairParams 0 (.finite 1 1))) rfl

/-- The small configuration in top-k mode with the given constructor argument
`tie_word_embeddings`. -/
def tieParams (tie : Bool) : CtorParams :=
  { demoParams 4 (.finite 0 0) with tie_word_embeddings := tie }

/-- Two shards: a batch of two, five steps, three heads of size three (nine
hidden units), two layers, `tensor_para_size = 2`. -/
def shardedParams : CtorParams :=
  { batch_size := 2, seq_len := 5, head_num := 3, size_per_head := 3, vocab_size := 100,
    decoder_layers := 2, memory_hidden_units := 9, memory_max_seq_len := 3,
    start_id := 1, end_id := 2, candidate_num := 1, tensor_para_size := 2 }

/-- The object built in FP16 for `shardedParams`. -/
def shardedBase : T5DecodingSampling :=
  constructed (construct .FP16 (demoEnv true) shardedParams) rfl

/-- The object built in FP16 for `shardedParams`, after
`set_tensor_parallel_param` with `local_hidden_units_ = 9 / 2`. -/
def shardedObject : T5DecodingSampling :=
  set_tensor_parallel_param shardedBase { local_hidden_units_ := 4 }

/-! ## Theorems -/

/-! ### The constructor -/

theorem samplingModeCheck_ok_iff (cn : Int) (pt : FloatVal) :
    samplingModeCheck cn pt = .ok () ↔
      (cn ≠ 0 ∧ pt.eqZero = true) ∨ (cn = 0 ∧ pt.eqZero = false) := by
  unfold samplingModeCheck FloatVal.neZero
  by_cases h : cn = 0 <;> cases hz : pt.eqZero <;> simp [h]

theorem samplingModeCheck_error_iff (cn : Int) (pt : FloatVal) :
    (∃ e, samplingModeCheck cn pt = .error e) ↔
      (cn = 0 ∧ pt.eqZero = true) ∨ (cn ≠ 0 ∧ pt.eqZero = false) := by
  unfold samplingModeCheck FloatVal.neZero
  by_cases h : cn = 0 <;> cases hz : pt.eqZero <;> simp [h]

theorem construct_ok {op : OperationType} {env : Env} {p : CtorParams}
    {o : T5DecodingSampling} (h : construct op env p = .ok o) :
    samplingModeCheck p.candidate_num p.probability_threshold = .ok () ∧
      gemmConfigCheck op env = .ok () ∧ 0 ≤ p.decoder_layers ∧ 0 ≤ p.batch_size ∧
      ∃ z v, bufSizes op env p (assignArgs op env.args_init p) = .ok z ∧
        carveViews op env (assignArgs op env.args_init p) z = .ok v ∧
        o = buildObject op env p z v := by
  unfold construct at h
  have ha : (assignArgs op env.args_init p).candidate_num_ = p.candidate_num := rfl
  have hb : (assignArgs op env.args_init p).probability_threshold_ =
      p.probability_threshold := rfl
  have hl : (assignArgs op env.args_init p).decoder_layers_ = p.decoder_layers := rfl
  have hbs : (assignArgs op env.args_init p).batch_size_ = p.batch_size := rfl
  rw [ha, hb, hl, hbs] at h
  cases hs : samplingModeCheck p.candidate_num p.probability_threshold with
  | error e => rw [hs] at h; cases h
  | ok u =>
    rw [hs] at h
    cases u
    by_cases hL : p.decoder_layers < 0
    · simp only [if_pos hL] at h; cases h
    · simp only [if_neg hL] at h
      cases hz : bufSizes op env p (assignArgs op env.args_init p) with
      | error e => rw [hz] at h; cases h
      | ok z =>
        rw [hz] at h
        simp only at h
        cases hv : carveViews op env (assignArgs op env.args_init p) z with
        | error e => rw [hv] at h; cases h
        | ok v =>
          rw [hv] at h
          simp only at h
          by_cases hB : p.batch_size < 0
          · simp only [if_pos hB] at h; cases h
          · simp only [if_neg hB] at h
            cases hg : gemmConfigCheck op env with
            | error e => rw [hg] at h; cases h
            | ok w =>
              rw [hg] at h
              cases w
              simp only [Except.ok.injEq] at h
              exact ⟨rfl, rfl, by omega, by omega, z, v, rfl, hv, h.symm⟩

theorem construct_of_parts {op : OperationType} {env : Env} {p : CtorParams}
    {z : BufSizes} {v : Views}
    (hs : samplingModeCheck p.candidate_num p.probability_threshold = .ok ())
    (hg : gemmConfigCheck op env = .ok ()) (hl : 0 ≤ p.decoder_layers)
    (hb : 0 ≤ p.batch_size)
    (hz : bufSizes op env p (assignArgs op env.args_init p) = .ok z)
    (hv : carveViews op env (assignArgs op env.args_init p) z = .ok v) :
    construct op env p = .ok (buildObject op env p z v) := by
  unfold construct
  have ha : (assignArgs op env.args_init p).candidate_num_ = p.candidate_num := rfl
  have hb' : (assignArgs op env.args_init p).probability_threshold_ =
      p.probability_threshold := rfl
  have hl' : (assignArgs op env.args_init p).decoder_layers_ = p.decoder_layers := rfl
  have hbs : (assignArgs op env.args_init p).batch_size_ = p.batch_size := rfl
  rw [ha, hb', hl', hbs, hs, hz]
  simp only [if_neg (not_lt.2 hl), hv, if_neg (not_lt.2 hb), hg]

theorem construct_args {op : OperationType} {env : Env} {p : CtorParams}
    {o : T5DecodingSampling} (h : construct op env p = .ok o) :
    o.args_ = assignArgs op env.args_init p ∧ o.op = op := by
  obtain ⟨-, -, -, -, z, v, -, -, ho⟩ := construct_ok h
  subst ho
  exact ⟨rfl, rfl⟩

theorem construct_constructed (op : OperationType) (env : Env) (p : CtorParams)
    (h : (construct op env p).toBool = true) :
    construct op env p = .ok (constructed (construct op env p) h) := by
  generalize construct op env p = r at h
  cases r with
  | ok o => rfl
  | error e => cases h

/-- The accepted sampling mode, on the object. -/
theorem construct_mode {op : OperationType} {env : Env} {p : CtorParams}
    {o : T5DecodingSampling} (h : construct op env p = .ok o) :
    (o.args_.candidate_num_ ≠ 0 ∨ o.args_.probability_threshold_.neZero = true) ∧
      ¬ (o.args_.candidate_num_ ≠ 0 ∧ o.args_.probability_threshold_.neZero = true) := by
  obtain ⟨hs, -, -, -, z, v, -, -, ho⟩ := construct_ok h
  rw [samplingModeCheck_ok_iff] at hs
  subst ho
  show (p.candidate_num ≠ 0 ∨ p.probability_threshold.neZero = true) ∧
    ¬ (p.candidate_num ≠ 0 ∧ p.probability_threshold.neZero = true)
  rcases hs with ⟨h1, h2⟩ | ⟨h1, h2⟩ <;> simp [FloatVal.neZero, h1, h2]

/-- No path of the constructor writes `args_.tie_word_embeddings_`: the object
holds the value the argument block had before the constructor ran, whatever
the parameter `tie_word_embeddings` is. -/
theorem construct_tie_word_embeddings {op : OperationType} {env : Env} {p : CtorParams}
    {o : T5DecodingSampling} (h : construct op env p = .ok o) :
    o.args_.tie_word_embeddings_ = env.args_init.tie_word_embeddings_ := by
  obtain ⟨-, -, -, -, z, v, -, -, ho⟩ := construct_ok h
  subst ho
  rfl

/-- C3. The check of the sampling mode in the constructor ends in `exit(-1)`
exactly when `candidate_num` and `probability_threshold` are both zero or
both nonzero (a NaN threshold compares as nonzero); it passes exactly when
one of the two is nonzero and the other is zero.  When it fails, so does the
constructor, with the same error. -/
theorem C3_sampling_mode_check (op : OperationType) (env : Env) (p : CtorParams) :
    ((∃ e, samplingModeCheck p.candidate_num p.probability_threshold = .error e) ↔
      (p.candidate_num = 0 ∧ p.probability_threshold.eqZero = true) ∨
      (p.candidate_num ≠ 0 ∧ p.probability_threshold.neZero = true)) ∧
    (samplingModeCheck p.candidate_num p.probability_threshold = .ok () ↔
      (p.candidate_num ≠ 0 ∧ p.probability_threshold.eqZero = true) ∨
      (p.candidate_num = 0 ∧ p.probability_threshold.neZero = true)) ∧
    (∀ e, samplingModeCheck p.candidate_num p.probability_threshold = .error e →
      construct op env p = .error e) := by
  refine ⟨?_, ?_, ?_⟩
  · rw [samplingModeCheck_error_iff]; simp [FloatVal.neZero]
  · rw [samplingModeCheck_ok_iff]; simp [FloatVal.neZero]
  · intro e he
    have ha : (assignArgs op env.args_init p).candidate_num_ = p.candidate_num := rfl
    have hb : (assignArgs op env.args_init p).probability_threshold_ =
        p.probability_threshold := rfl
    unfold construct
    rw [ha, hb, he]

/-- C4, as stated, fails.  The constructor accepts `candidate_num = -1` with
`probability_threshold = 0.0`, and it accepts `candidate_num = 0` with
`probability_threshold = -0.5`; at both, neither `candidate_num > 0` nor
`probability_threshold > 0` holds. -/
theorem C4_counterexample :
    ((∃ o, construct .FP32 (demoEnv true) (demoParams (-1) (.finite 0 0)) = .ok o) ∧
      ¬ Xor' (0 < (demoParams (-1) (.finite 0 0)).candidate_num)
        ((demoParams (-1) (.finite 0 0)).probability_threshold.gtZero = true)) ∧
    ((∃ o, construct .FP32 (demoEnv true) (demoParams 0 (.finite (-1) 1)) = .ok o) ∧
      ¬ Xor' (0 < (demoParams 0 (.finite (-1) 1)).candidate_num)
        ((demoParams 0 (.finite (-1) 1)).probability_threshold.gtZero = true)) := by
  refine ⟨⟨⟨_, rfl⟩, ?_⟩, ⟨⟨_, rfl⟩, ?_⟩⟩ <;> simp [Xor', demoParams, FloatVal.gtZero]

/-- C4, amended.  For every configuration the constructor accepts, exactly
one of `candidate_num != 0` and `probability_threshold != 0.0` holds, and the
object holds these two values in `args_`. -/
theorem C4_exactly_one_nonzero (op : OperationType) (env : Env) (p : CtorParams)
    (o : T5DecodingSampling) (h : construct op env p = .ok o) :
    Xor' (p.candidate_num ≠ 0) (p.probability_threshold.neZero = true) ∧
      o.args_.candidate_num_ = p.candidate_num ∧
      o.args_.probability_threshold_ = p.probability_threshold := by
  obtain ⟨hs, -, -, -, z, v, -, -, ho⟩ := construct_ok h
  rw [samplingModeCheck_ok_iff] at hs
  subst ho
  refine ⟨?_, rfl, rfl⟩
  rcases hs with ⟨h1, h2⟩ | ⟨h1, h2⟩ <;> simp [Xor', FloatVal.neZero, h1, h2]

/-- C4, amended, at an accepted configuration: top-k mode with four
candidates in FP16. -/
theorem C4_exactly_one_nonzero_witness :
    construct .FP16 (demoEnv true) (demoParams 4 (.finite 0 0)) = .ok (demoObject .FP16) ∧
      Xor' ((demoParams 4 (.finite 0 0)).candidate_num ≠ 0)
        ((demoParams 4 (.finite 0 0)).probability_threshold.neZero = true) ∧
      (demoObject .FP16).args_.candidate_num_ = (demoParams 4 (.finite 0 0)).candidate_num ∧
      (demoObject .FP16).args_.probability_threshold_ =
        (demoParams 4 (.finite 0 0)).probability_threshold :=
  ⟨construct_constructed _ _ _ _,
    C4_exactly_one_nonzero .FP16 (demoEnv true) (demoParams 4 (.finite 0 0)) _
      (construct_constructed _ _ _ _)⟩

/-! ### The arithmetic of `int`, `size_t` and addresses -/

theorem wrapInt_eq_self (x : Int) (h0 : -2147483648 ≤ x) (h1 : x ≤ 2147483647) :
    wrapInt x = x := by
  unfold wrapInt
  omega

theorem toSizeT_eq_self (x : Int) (h0 : 0 ≤ x) (h1 : x < 18446744073709551616) :
    toSizeT x = x := by
  unfold toSizeT
  omega

theorem wrapPtr_eq_self (x : Int) (h0 : -9223372036854775808 ≤ x)
    (h1 : x < 9223372036854775808) : wrapPtr x = x := by
  unfold wrapPtr
  omega

theorem toDouble_eq_self (x : Int) (h0 : 0 ≤ x) (h1 : x < 9007199254740992) :
    toDouble x = x := by
  have hu : doubleSpacing 11 x 1 = 1 := by
    show (if x < 9007199254740992 * 1 then 1 else doubleSpacing 10 x (2 * 1)) = 1
    rw [if_pos (by omega)]
  unfold toDouble
  simp only [hu]
  rw [if_pos (by omega)]
  omega

theorem ceilDiv_bounds (x n : Int) (hn : 0 < n) :
    x ≤ ceilDiv x n * n ∧ ceilDiv x n * n < x + n := by
  unfold ceilDiv
  have h1 := Int.emod_add_ediv (-x) n
  have h2 := Int.emod_nonneg (-x) (by omega : n ≠ 0)
  have h3 := Int.emod_lt_of_pos (-x) hn
  constructor <;> nlinarith

theorem roundUpSizeT_eq (x n : Int) (hn : 0 < n) (hn' : n ≤ 32) (h0 : 0 ≤ x)
    (h1 : x ≤ 2147483647) : roundUpSizeT x n = ceilDiv x n * n := by
  unfold roundUpSizeT
  rw [toDouble_eq_self x h0 (by omega)]
  obtain ⟨h2, h3⟩ := ceilDiv_bounds x n hn
  exact toSizeT_eq_self _ (by omega) (by omega)

theorem roundUpInt_eq (x n : Int) (hn : 0 < n) (h0 : 0 ≤ x)
    (h1 : ceilDiv x n * n ≤ 2147483647) : roundUpInt x n = ceilDiv x n * n := by
  unfold roundUpInt
  obtain ⟨h2, h3⟩ := ceilDiv_bounds x n hn
  rw [toSizeT_eq_self _ (by omega) (by omega)]
  exact wrapInt_eq_self _ (by omega) h1


theorem assignArgs_hidden_units (op : OperationType) (a0 : T5SamplingArguments)
    (p : CtorParams) (hh : 0 ≤ p.head_num) (hp : 0 ≤ p.size_per_head)
    (hH : p.head_num * p.size_per_head ≤ 2147483647) :
    (assignArgs op a0 p).hidden_units_ = p.head_num * p.size_per_head :=
  wrapInt_eq_self _ (by have := mul_nonneg hh hp; omega) hH

theorem assignArgs_vocab_size_padded (op : OperationType) (a0 : T5SamplingArguments)
    (p : CtorParams) (hv : 0 ≤ p.vocab_size)
    (hV : paddedVocab op p.vocab_size ≤ 2147483647) :
    (assignArgs op a0 p).vocab_size_padded_ = paddedVocab op p.vocab_size ∧
    0 ≤ (assignArgs op a0 p).vocab_size_padded_ := by
  cases op
  · exact ⟨rfl, hv⟩
  · have h := ceilDiv_bounds p.vocab_size 8 (by decide)
    have e : (assignArgs .FP16 a0 p).vocab_size_padded_ = ceilDiv p.vocab_size 8 * 8 :=
      wrapInt_eq_self _ (by omega) hV
    exact ⟨e, by rw [e]; omega⟩

/-- The sizes of the constructor when no computation leaves the range of its
type: every size is the exact value. -/
theorem bufSizes_exact (op : OperationType) (env : Env) (p : CtorParams)
    (ht : 1 ≤ p.tensor_para_size)
    (hb : 0 ≤ p.batch_size) (hs : 0 ≤ p.seq_len) (hh : 0 ≤ p.head_num)
    (hp : 0 ≤ p.size_per_head) (hv : 0 ≤ p.vocab_size) (hm : 0 ≤ p.memory_max_seq_len)
    (hfit : IntSizesFit op p) :
    ∃ z, bufSizes op env p (assignArgs op env.args_init p) = .ok z ∧
      z.from_tensor_size = p.batch_size * (p.head_num * p.size_per_head) ∧
      z.decoder_workspace_size = env.decoder_workspace_size ∧
      z.decoder_normed_result_buffer_size = p.batch_size * (p.head_num * p.size_per_head) ∧
      z.cache_size =
        (p.batch_size * p.seq_len * (p.head_num * p.size_per_head)) / p.tensor_para_size ∧
      z.mem_cache_size =
        (p.batch_size * p.memory_max_seq_len * (p.head_num * p.size_per_head)) /
          p.tensor_para_size ∧
      z.relative_attention_bias_size = (p.seq_len + 1) * (p.seq_len + 1) * p.head_num ∧
      z.logits_buf_size =
        ceilDiv (p.batch_size * (assignArgs op env.args_init p).vocab_size_padded_) 4 * 4 ∧
      z.word_ids_buf_size = ceilDiv p.batch_size 4 * 4 ∧
      z.finished_buf_size = ceilDiv p.batch_size 32 * 32 ∧
      z.finished_count_size = 32 ∧
      z.topp_id_vals_buf_size =
        ceilDiv (p.batch_size * (assignArgs op env.args_init p).vocab_size_padded_) 4 * 4 ∧
      z.topp_offset_buf_size = ceilDiv (p.batch_size + 1) 4 * 4 ∧
      z.begin_topp_offset_buf_size = ceilDiv (p.batch_size + 1) 4 * 4 ∧
      z.curandState_size = p.batch_size ∧
      0 ≤ z.padded_embedding_kernel_size ∧ 0 ≤ z.padded_embedding_bias_size := by
  obtain ⟨f1, f2, f3, f4, f5, f6, f7, f8, f9, f10, f11, f12, f13⟩ := hfit
  obtain ⟨eVP, hVP0⟩ := assignArgs_vocab_size_padded op env.args_init p hv f2
  have eH := assignArgs_hidden_units op env.args_init p hh hp f1
  rw [← eVP] at f10 f11
  have hVPI : (assignArgs op env.args_init p).vocab_size_padded_ ≤ 2147483647 := by
    rw [eVP]; exact f2
  have hne : (p.tensor_para_size != 1 && toSizeT p.tensor_para_size == 0) = false := by
    rw [toSizeT_eq_self _ (by omega) (by omega)]
    have : (p.tensor_para_size == 0) = false := by
      rw [beq_eq_false_iff_ne]; omega
    rw [this, Bool.and_false]
  have eb : (assignArgs op env.args_init p).batch_size_ = p.batch_size := rfl
  have es : (assignArgs op env.args_init p).seq_len_ = p.seq_len := rfl
  have ev : (assignArgs op env.args_init p).vocab_size_ = p.vocab_size := rfl
  unfold bufSizes
  simp only [hne, Bool.false_eq_true, if_false, eb, es, ev, eH]
  generalize (assignArgs op env.args_init p).vocab_size_padded_ = vp at *
  have hhid : 0 ≤ p.head_num * p.size_per_head := mul_nonneg hh hp
  have n1 : 0 ≤ p.batch_size * (p.head_num * p.size_per_head) := mul_nonneg hb hhid
  have n2 : 0 ≤ p.batch_size * p.seq_len := mul_nonneg hb hs
  have n3 : 0 ≤ p.batch_size * p.seq_len * (p.head_num * p.size_per_head) :=
    mul_nonneg n2 hhid
  have n4 : 0 ≤ p.batch_size * p.memory_max_seq_len := mul_nonneg hb hm
  have n5 : 0 ≤ p.batch_size * p.memory_max_seq_len * (p.head_num * p.size_per_head) :=
    mul_nonneg n4 hhid
  have n6 : 0 ≤ (p.seq_len + 1) * (p.seq_len + 1) :=
    mul_nonneg (by omega) (by omega)
  have n7 : 0 ≤ (p.seq_len + 1) * (p.seq_len + 1) * p.head_num := mul_nonneg n6 hh
  have n8 : 0 ≤ p.batch_size * vp := mul_nonneg hb hVP0
  have n9 : 0 ≤ p.head_num * p.size_per_head * vp := mul_nonneg hhid hVP0
  have c1 := ceilDiv_bounds (p.batch_size * vp) 4 (by decide)
  have c2 := ceilDiv_bounds (p.batch_size + 1) 4 (by decide)
  have c3 := ceilDiv_bounds p.batch_size 4 (by decide)
  have c4 := ceilDiv_bounds p.batch_size 32 (by decide)
  have hsl : p.seq_len + 1 ≤ 2147483647 := by nlinarith
  have w1 : wrapInt (p.batch_size * (p.head_num * p.size_per_head)) =
      p.batch_size * (p.head_num * p.size_per_head) := wrapInt_eq_self _ (by omega) f3
  have w2 : wrapInt (p.batch_size * p.seq_len) = p.batch_size * p.seq_len :=
    wrapInt_eq_self _ (by omega) f4
  have w3 : wrapInt (p.batch_size * p.seq_len * (p.head_num * p.size_per_head)) =
      p.batch_size * p.seq_len * (p.head_num * p.size_per_head) :=
    wrapInt_eq_self _ (by omega) f5
  have w4 : wrapInt (p.batch_size * p.memory_max_seq_len) =
      p.batch_size * p.memory_max_seq_len := wrapInt_eq_self _ (by omega) f6
  have w5 : wrapInt (p.batch_size * p.memory_max_seq_len * (p.head_num * p.size_per_head)) =
      p.batch_size * p.memory_max_seq_len * (p.head_num * p.size_per_head) :=
    wrapInt_eq_self _ (by omega) f7
  have w6 : wrapInt (p.seq_len + 1) = p.seq_len + 1 := wrapInt_eq_self _ (by omega) hsl
  have w7 : wrapInt ((p.seq_len + 1) * (p.seq_len + 1)) = (p.seq_len + 1) * (p.seq_len + 1) :=
    wrapInt_eq_self _ (by omega) f8
  have w8 : wrapInt ((p.seq_len + 1) * (p.seq_len + 1) * p.head_num) =
      (p.seq_len + 1) * (p.seq_len + 1) * p.head_num := wrapInt_eq_self _ (by omega) f9
  have w9 : wrapInt (p.batch_size * vp) = p.batch_size * vp :=
    wrapInt_eq_self _ (by omega) (by omega)
  have w10 : wrapInt (p.batch_size + 1) = p.batch_size + 1 :=
    wrapInt_eq_self _ (by omega) (by omega)
  have w11 : wrapInt (p.head_num * p.size_per_head * vp) = p.head_num * p.size_per_head * vp :=
    wrapInt_eq_self _ (by omega) f10
  have s1 : toSizeT (p.batch_size * (p.head_num * p.size_per_head)) =
      p.batch_size * (p.head_num * p.size_per_head) := toSizeT_eq_self _ n1 (by omega)
  have s3 : toSizeT (p.batch_size * p.seq_len * (p.head_num * p.size_per_head)) =
      p.batch_size * p.seq_len * (p.head_num * p.size_per_head) :=
    toSizeT_eq_self _ n3 (by omega)
  have s5 : toSizeT (p.batch_size * p.memory_max_seq_len * (p.head_num * p.size_per_head)) =
      p.batch_size * p.memory_max_seq_len * (p.head_num * p.size_per_head) :=
    toSizeT_eq_self _ n5 (by omega)
  have s6 : toSizeT p.tensor_para_size = p.tensor_para_size :=
    toSizeT_eq_self _ (by omega) (by omega)
  have s7 : toSizeT (p.batch_size * vp) = p.batch_size * vp :=
    toSizeT_eq_self _ n8 (by omega)
  have s8 : toSizeT p.batch_size = p.batch_size := toSizeT_eq_self _ hb (by omega)
  have s9 : toSizeT (p.head_num * p.size_per_head * vp) = p.head_num * p.size_per_head * vp :=
    toSizeT_eq_self _ n9 (by omega)
  have s10 : toSizeT vp = vp := toSizeT_eq_self _ hVP0 (by omega)
  have r1 : roundUpSizeT (p.batch_size * vp) 4 = ceilDiv (p.batch_size * vp) 4 * 4 :=
    roundUpSizeT_eq _ 4 (by decide) (by decide) n8 (by omega)
  have r2 : roundUpSizeT p.batch_size 4 = ceilDiv p.batch_size 4 * 4 :=
    roundUpSizeT_eq _ 4 (by decide) (by decide) hb (by omega)
  have r3 : roundUpSizeT p.batch_size 32 = ceilDiv p.batch_size 32 * 32 :=
    roundUpSizeT_eq _ 32 (by decide) (by decide) hb (by omega)
  have r4 : roundUpInt (p.batch_size * vp) 4 = ceilDiv (p.batch_size * vp) 4 * 4 :=
    roundUpInt_eq _ 4 (by decide) n8 (by omega)
  have r5 : roundUpInt (p.batch_size + 1) 4 = ceilDiv (p.batch_size + 1) 4 * 4 :=
    roundUpInt_eq _ 4 (by decide) (by omega) (by omega)
  have s11 : toSizeT (ceilDiv (p.batch_size + 1) 4 * 4) = ceilDiv (p.batch_size + 1) 4 * 4 :=
    toSizeT_eq_self _ (by omega) (by omega)
  have hdiv : ∀ x : Int, (if (p.tensor_para_size != 1) = true then x / p.tensor_para_size
      else x) = x / p.tensor_para_size := by
    intro x
    split
    · rfl
    · rename_i h
      have : p.tensor_para_size = 1 := by simpa using h
      rw [this, Int.ediv_one]
  simp only [w1, w2, w3, w4, w5, w6, w7, w8, w9, w10, w11, s1, s3, s5, s6, s7, s8, s9, s10,
    s11, r1, r2, r3, r4, r5, hdiv]
  refine ⟨_, rfl, rfl, rfl, rfl, rfl, rfl, rfl, rfl, rfl, rfl, ?_, rfl, rfl, rfl, rfl, ?_, ?_⟩
  · show toSizeT (ceilDiv 1 32 * 32) = 32
    decide
  · dsimp only
    split
    · exact le_refl _
    · exact n9
  · dsimp only
    split
    · exact le_refl _
    · exact hVP0

theorem allocBytes_exact (op : OperationType) (env : Env) (a : T5SamplingArguments)
    (z : BufSizes) (hz : z.Nonneg) (hL : 1 ≤ a.decoder_layers_)
    (hint : z.topp_id_vals_buf_size + 2 * z.topp_offset_buf_size ≤ 2147483647)
    (h64 : allocSum op env z (datatypeBufSum a z) < 9223372036854775808) :
    wrapInt (z.topp_id_vals_buf_size + wrapInt (2 * z.topp_offset_buf_size)) =
        z.topp_id_vals_buf_size + 2 * z.topp_offset_buf_size ∧
      0 ≤ datatypeBufSum a z ∧
      allocBytes op env a z = allocSum op env z (datatypeBufSum a z) := by
  obtain ⟨h1, h2, h3, h4, h5, h6, h7, h8, h9, h10, h11, h12, h13, h14, h15, h16⟩ := hz
  have w1 : wrapInt (2 * z.topp_offset_buf_size) = 2 * z.topp_offset_buf_size :=
    wrapInt_eq_self _ (by omega) (by omega)
  have w2 : wrapInt (z.topp_id_vals_buf_size + 2 * z.topp_offset_buf_size) =
      z.topp_id_vals_buf_size + 2 * z.topp_offset_buf_size :=
    wrapInt_eq_self _ (by omega) (by omega)
  have hK : 0 ≤ z.cache_size * a.decoder_layers_ := mul_nonneg h4 (by omega)
  have hM : 0 ≤ z.mem_cache_size * a.decoder_layers_ := mul_nonneg h5 (by omega)
  have hR : 0 ≤ z.curandState_size * (env.sizeof_curandState_t : Int) :=
    mul_nonneg h14 (Int.ofNat_nonneg _)
  have e1 : (z.cache_size * 4 + z.mem_cache_size * 2) * a.decoder_layers_ =
      4 * (z.cache_size * a.decoder_layers_) + 2 * (z.mem_cache_size * a.decoder_layers_) := by
    ring
  have hd0 : 0 ≤ datatypeBufSum a z := by
    unfold datatypeBufSum
    rw [e1]
    omega
  have hE : 0 < sizeofDataType op := by cases op <;> decide
  refine ⟨by rw [w1, w2], hd0, ?_⟩
  unfold allocBytes datatypeBufSize
  have hdle : datatypeBufSum a z < 9223372036854775808 := by
    unfold allocSum at h64
    rw [w1, w2] at h64
    generalize datatypeBufSum a z = d at h64 hd0 ⊢
    generalize z.curandState_size * (env.sizeof_curandState_t : Int) = R at h64 hR
    cases op <;> simp only [sizeofDataType] at h64 <;> split at h64 <;> omega
  rw [toSizeT_eq_self _ hd0 (by omega)]
  apply toSizeT_eq_self _ _ (by omega)
  unfold allocSum
  rw [w1, w2]
  generalize datatypeBufSum a z = d at hd0 ⊢
  generalize z.curandState_size * (env.sizeof_curandState_t : Int) = R at hR ⊢
  cases op <;> simp only [sizeofDataType] <;> split <;> omega


theorem layout_exact (op : OperationType) (env : Env) (a : T5SamplingArguments)
    (z : BufSizes) (hz : z.Nonneg) (hL : 1 ≤ a.decoder_layers_)
    (hint : z.topp_id_vals_buf_size + 2 * z.topp_offset_buf_size ≤ 2147483647)
    (h64 : allocSum op env z (datatypeBufSum a z) < 9223372036854775808) :
    layout wrapPtr op env a z =
        { layout id op env a z with
          K_mem_cache_ := (layout wrapPtr op env a z).K_mem_cache_
          V_mem_cache_ := (layout wrapPtr op env a z).V_mem_cache_ } ∧
      ∀ i : Int, 0 ≤ i → i < a.decoder_layers_ →
        (layout wrapPtr op env a z).K_mem_cache_ i = (layout id op env a z).K_mem_cache_ i ∧
        (layout wrapPtr op env a z).V_mem_cache_ i = (layout id op env a z).V_mem_cache_ i := by
  obtain ⟨w2, hd0, -⟩ := allocBytes_exact op env a z hz hL hint h64
  obtain ⟨h1, h2, h3, h4, h5, h6, h7, h8, h9, h10, h11, h12, h13, h14, h15, h16⟩ := hz
  have hK : 0 ≤ z.cache_size * a.decoder_layers_ := mul_nonneg h4 (by omega)
  have hM : z.mem_cache_size ≤ z.mem_cache_size * a.decoder_layers_ := by
    nlinarith [mul_nonneg h5 (show (0 : Int) ≤ a.decoder_layers_ - 1 by omega)]
  have hR : 0 ≤ z.curandState_size * (env.sizeof_curandState_t : Int) :=
    mul_nonneg h14 (Int.ofNat_nonneg _)
  have e1 : (z.cache_size * 4 + z.mem_cache_size * 2) * a.decoder_layers_ =
      4 * (z.cache_size * a.decoder_layers_) + 2 * (z.mem_cache_size * a.decoder_layers_) := by
    ring
  have e2 : (a.decoder_layers_ - 1) * z.mem_cache_size =
      z.mem_cache_size * a.decoder_layers_ - z.mem_cache_size := by ring
  unfold allocSum datatypeBufSum at h64
  rw [w2, e1] at h64
  have hW : (0 : Int) ≤ env.CUBLAS_WORKSPACE_SIZE := Int.ofNat_nonneg _
  have hD : (0 : Int) ≤ env.decoder_workspace_size := Int.ofNat_nonneg _
  have hP : (0 : Int) ≤ env.topp_workspace_size_ := Int.ofNat_nonneg _
  have hQ : (0 : Int) ≤ env.topk_workspace_size_ := Int.ofNat_nonneg _
  constructor
  · simp only [layout, id, e2, one_mul, zero_mul, h13]
    generalize z.cache_size * a.decoder_layers_ = K at *
    generalize z.mem_cache_size * a.decoder_layers_ = M at *
    generalize z.curandState_size * (env.sizeof_curandState_t : Int) = R at *
    cases op
    · simp only [sizeofDataType, show ((4 : Int) == 2) = false from rfl, Bool.false_eq_true,
        if_false] at h64 ⊢
      simp (disch := omega) only [wrapPtr_eq_self]
    · simp only [sizeofDataType, show ((2 : Int) == 2) = true from rfl, if_true] at h64 ⊢
      simp (disch := omega) only [wrapPtr_eq_self]
  · intro i hi0 hi1
    have hX : 0 ≤ i * z.mem_cache_size := mul_nonneg hi0 h5
    have hXM : i * z.mem_cache_size + z.mem_cache_size ≤
        z.mem_cache_size * a.decoder_layers_ := by
      nlinarith [mul_nonneg h5 (show (0 : Int) ≤ a.decoder_layers_ - (i + 1) by omega)]
    simp only [layout, id]
    generalize z.cache_size * a.decoder_layers_ = K at *
    generalize z.mem_cache_size * a.decoder_layers_ = M at *
    generalize i * z.mem_cache_size = X at *
    generalize z.curandState_size * (env.sizeof_curandState_t : Int) = R at *
    cases op
    · simp only [sizeofDataType, show ((4 : Int) == 2) = false from rfl, Bool.false_eq_true,
        if_false] at h64 ⊢
      simp (disch := omega) only [wrapPtr_eq_self]
      exact ⟨trivial, trivial⟩
    · simp only [sizeofDataType, show ((2 : Int) == 2) = true from rfl, if_true] at h64 ⊢
      simp (disch := omega) only [wrapPtr_eq_self]
      exact ⟨trivial, trivial⟩

/-! ### The layout of `buf_` -/

theorem buildObject_fixedExtents_fit (op : OperationType) (env : Env) (p : CtorParams)
    (z : BufSizes) (hz : z.Nonneg) (hl : 1 ≤ p.decoder_layers)
    (hint : z.topp_id_vals_buf_size + 2 * z.topp_offset_buf_size ≤ 2147483647)
    (h64 : allocSum op env z (datatypeBufSum (assignArgs op env.args_init p) z) <
      9223372036854775808) :
    ∀ e ∈ fixedExtents env
        (buildObject op env p z (layout wrapPtr op env (assignArgs op env.args_init p) z)),
      0 ≤ e.start ∧ 0 ≤ e.bytes ∧ e.stop ≤
        (buildObject op env p z
          (layout wrapPtr op env (assignArgs op env.args_init p) z)).buf_bytes := by
  have hL : 1 ≤ (assignArgs op env.args_init p).decoder_layers_ := hl
  obtain ⟨w2, hd0, hA⟩ := allocBytes_exact op env _ z hz hL hint h64
  obtain ⟨hV, -⟩ := layout_exact op env _ z hz hL hint h64
  simp only [buildObject, hA]
  rw [hV]
  generalize assignArgs op env.args_init p = a at hL ⊢
  obtain ⟨h1, h2, h3, h4, h5, h6, h7, h8, h9, h10, h11, h12, h13, h14, h15, h16⟩ := hz
  have hK : 0 ≤ z.cache_size * a.decoder_layers_ := mul_nonneg h4 (by omega)
  have hM : z.mem_cache_size ≤ z.mem_cache_size * a.decoder_layers_ := by
    nlinarith [mul_nonneg h5 (show (0 : Int) ≤ a.decoder_layers_ - 1 by omega)]
  have hR : 0 ≤ z.curandState_size * (env.sizeof_curandState_t : Int) :=
    mul_nonneg h14 (Int.ofNat_nonneg _)
  have e1 : (z.cache_size * 4 + z.mem_cache_size * 2) * a.decoder_layers_ =
      4 * (z.cache_size * a.decoder_layers_) + 2 * (z.mem_cache_size * a.decoder_layers_) := by
    ring
  have e2 : (a.decoder_layers_ - 1) * z.mem_cache_size =
      z.mem_cache_size * a.decoder_layers_ - z.mem_cache_size := by ring
  simp only [fixedExtents, layout, id, allocSum, datatypeBufSum, Extent.stop,
    List.forall_mem_cons, List.not_mem_nil, false_imp_iff, implies_true, and_true,
    e1, e2, one_mul, zero_mul, h13, w2]
  generalize z.cache_size * a.decoder_layers_ = K at *
  generalize z.mem_cache_size * a.decoder_layers_ = M at *
  generalize z.curandState_size * (env.sizeof_curandState_t : Int) = R at *
  have hW : (0 : Int) ≤ env.CUBLAS_WORKSPACE_SIZE := Int.ofNat_nonneg _
  have hD : (0 : Int) ≤ env.decoder_workspace_size := Int.ofNat_nonneg _
  have hP : (0 : Int) ≤ env.topp_workspace_size_ := Int.ofNat_nonneg _
  have hQ : (0 : Int) ≤ env.topk_workspace_size_ := Int.ofNat_nonneg _
  cases op
  · simp only [sizeofDataType, show ((4 : Int) == 2) = false from rfl, Bool.false_eq_true,
      if_false]
    repeat' constructor
    all_goals omega
  · simp only [sizeofDataType, show ((2 : Int) == 2) = true from rfl, if_true]
    repeat' constructor
    all_goals omega

theorem buildObject_memCacheExtents_fit (op : OperationType) (env : Env) (p : CtorParams)
    (z : BufSizes) (hz : z.Nonneg) (hl : 1 ≤ p.decoder_layers)
    (hint : z.topp_id_vals_buf_size + 2 * z.topp_offset_buf_size ≤ 2147483647)
    (h64 : allocSum op env z (datatypeBufSum (assignArgs op env.args_init p) z) <
      9223372036854775808)
    (i : Int) (hi : 0 ≤ i) (hil : i < p.decoder_layers) :
    ∀ e ∈ memCacheExtents
        (buildObject op env p z (layout wrapPtr op env (assignArgs op env.args_init p) z)) i,
      0 ≤ e.start ∧ 0 ≤ e.bytes ∧ e.stop ≤
        (buildObject op env p z
          (layout wrapPtr op env (assignArgs op env.args_init p) z)).buf_bytes := by
  have hL : 1 ≤ (assignArgs op env.args_init p).decoder_layers_ := hl
  have hiL : i < (assignArgs op env.args_init p).decoder_layers_ := hil
  obtain ⟨w2, hd0, hA⟩ := allocBytes_exact op env _ z hz hL hint h64
  obtain ⟨-, hV⟩ := layout_exact op env _ z hz hL hint h64
  obtain ⟨hVK, hVV⟩ := hV i hi hiL
  simp only [buildObject, memCacheExtents, hA, hVK, hVV]
  generalize assignArgs op env.args_init p = a at hL hiL ⊢
  obtain ⟨h1, h2, h3, h4, h5, h6, h7, h8, h9, h10, h11, h12, h13, h14, h15, h16⟩ := hz
  have hK : 0 ≤ z.cache_size * a.decoder_layers_ := mul_nonneg h4 (by omega)
  have hX : 0 ≤ i * z.mem_cache_size := mul_nonneg hi h5
  have hM : i * z.mem_cache_size + z.mem_cache_size ≤ z.mem_cache_size * a.decoder_layers_ := by
    nlinarith [mul_nonneg h5 (show (0 : Int) ≤ a.decoder_layers_ - (i + 1) by omega)]
  have hR : 0 ≤ z.curandState_size * (env.sizeof_curandState_t : Int) :=
    mul_nonneg h14 (Int.ofNat_nonneg _)
  have e1 : (z.cache_size * 4 + z.mem_cache_size * 2) * a.decoder_layers_ =
      4 * (z.cache_size * a.decoder_layers_) + 2 * (z.mem_cache_size * a.decoder_layers_) := by
    ring
  simp only [layout, id, allocSum, datatypeBufSum, Extent.stop,
    List.forall_mem_cons, List.not_mem_nil, false_imp_iff, implies_true, and_true,
    e1, one_mul, zero_mul, h13, w2]
  generalize z.cache_size * a.decoder_layers_ = K at *
  generalize z.mem_cache_size * a.decoder_layers_ = M at *
  generalize i * z.mem_cache_size = X at *
  generalize z.curandState_size * (env.sizeof_curandState_t : Int) = R at *
  have hW : (0 : Int) ≤ env.CUBLAS_WORKSPACE_SIZE := Int.ofNat_nonneg _
  have hD : (0 : Int) ≤ env.decoder_workspace_size := Int.ofNat_nonneg _
  have hP : (0 : Int) ≤ env.topp_workspace_size_ := Int.ofNat_nonneg _
  have hQ : (0 : Int) ≤ env.topk_workspace_size_ := Int.ofNat_nonneg _
  cases op
  · simp only [sizeofDataType, show ((4 : Int) == 2) = false from rfl, Bool.false_eq_true,
      if_false]
    repeat' constructor
    all_goals omega
  · simp only [sizeofDataType, show ((2 : Int) == 2) = true from rfl, if_true]
    repeat' constructor
    all_goals omega

/-- The object of an accepted configuration whose sizes stay within the range
of `int`: its views are those of `layout`, its sizes are not negative, and the
sizes the cache views depend on are the exact products. -/
theorem construct_sizes (op : OperationType) (env : Env) (p : CtorParams)
    (ht : 1 ≤ p.tensor_para_size)
    (hb : 0 ≤ p.batch_size) (hs : 0 ≤ p.seq_len) (hh : 0 ≤ p.head_num)
    (hp : 0 ≤ p.size_per_head) (hv : 0 ≤ p.vocab_size) (hm : 0 ≤ p.memory_max_seq_len)
    (hfit : IntSizesFit op p) {o : T5DecodingSampling} (hc : construct op env p = .ok o) :
    1 ≤ p.decoder_layers ∧
    ∃ z, o = buildObject op env p z (layout wrapPtr op env (assignArgs op env.args_init p) z) ∧
      z.Nonneg ∧
      z.topp_id_vals_buf_size + 2 * z.topp_offset_buf_size ≤ 2147483647 ∧
      z.from_tensor_size = p.batch_size * (p.head_num * p.size_per_head) ∧
      z.decoder_normed_result_buffer_size = z.from_tensor_size ∧
      z.cache_size =
        (p.batch_size * p.seq_len * (p.head_num * p.size_per_head)) / p.tensor_para_size ∧
      z.mem_cache_size =
        (p.batch_size * p.memory_max_seq_len * (p.head_num * p.size_per_head)) /
          p.tensor_para_size := by
  obtain ⟨-, -, hl0, -, z, v, hz, hv', ho⟩ := construct_ok hc
  obtain ⟨z', hz', e1, e2, e3, e4, e5, e6, e7, e8, e9, e10, e11, e12, e13, e14, e15, e16⟩ :=
    bufSizes_exact op env p ht hb hs hh hp hv hm hfit
  rw [hz] at hz'
  simp only [Except.ok.injEq] at hz'
  subst hz'
  have hL : (assignArgs op env.args_init p).decoder_layers_ = p.decoder_layers := rfl
  unfold carveViews at hv'
  rw [hL] at hv'
  by_cases hl : p.decoder_layers ≤ 0
  · rw [if_pos hl] at hv'; cases hv'
  · rw [if_neg hl] at hv'
    simp only [Except.ok.injEq] at hv'
    subst hv'
    obtain ⟨f1, f2, f3, f4, f5, f6, f7, f8, f9, f10, f11, f12, f13⟩ := hfit
    obtain ⟨eVP, hVP0⟩ := assignArgs_vocab_size_padded op env.args_init p hv f2
    rw [← eVP] at f11
    have hhid : 0 ≤ p.head_num * p.size_per_head := mul_nonneg hh hp
    have n8 : 0 ≤ p.batch_size * (assignArgs op env.args_init p).vocab_size_padded_ :=
      mul_nonneg hb hVP0
    have c1 := ceilDiv_bounds
      (p.batch_size * (assignArgs op env.args_init p).vocab_size_padded_) 4 (by decide)
    have c2 := ceilDiv_bounds (p.batch_size + 1) 4 (by decide)
    have c3 := ceilDiv_bounds p.batch_size 4 (by decide)
    have c4 := ceilDiv_bounds p.batch_size 32 (by decide)
    have ht0 : 0 ≤ p.tensor_para_size := by omega
    refine ⟨by omega, z, ho, ?_, ?_, e1, by rw [e3, e1], e4, e5⟩
    · refine ⟨?_, ?_, ?_, ?_, ?_, ?_, ?_, ?_, ?_, ?_, ?_, ?_, ?_, ?_, e15, e16⟩
      · rw [e1]; exact mul_nonneg hb hhid
      · rw [e2]; exact Int.ofNat_nonneg _
      · rw [e3]; exact mul_nonneg hb hhid
      · rw [e4]; exact Int.ediv_nonneg (mul_nonneg (mul_nonneg hb hs) hhid) ht0
      · rw [e5]; exact Int.ediv_nonneg (mul_nonneg (mul_nonneg hb hm) hhid) ht0
      · rw [e6]
        exact mul_nonneg (mul_nonneg (by omega) (by omega)) hh
      · rw [e7]; omega
      · rw [e8]; omega
      · rw [e9]; omega
      · rw [e10]; decide
      · rw [e11]; omega
      · rw [e12]; omega
      · rw [e13, e12]
      · rw [e14]; exact hb
    · rw [e11, e12]; exact f11

/-- C5, as stated, fails.  In FP16, for eight sequences of at most 4095 steps,
128 heads of size 64 and three layers, the configuration has
`decoder_layers >= 1`, `tensor_para_size >= 1` and non-negative sizes, and
`relative_attention_bias_size = 4096 * 4096 * 128` leaves the range of `int`:
the size is -2^31, the constructor requests 2147353712 bytes, the view
`relative_attention_bias_` starts at byte 3221619056, past the end of the
allocation, and the view `topp_id_vals_buf_` starts 1073348240 bytes before
`buf_`. -/
theorem C5_counterexample :
    (1 ≤ manyHeadsParams.decoder_layers ∧ 1 ≤ manyHeadsParams.tensor_para_size ∧
      0 ≤ manyHeadsParams.batch_size ∧ 0 ≤ manyHeadsParams.seq_len ∧
      0 ≤ manyHeadsParams.head_num ∧ 0 ≤ manyHeadsParams.size_per_head ∧
      0 ≤ manyHeadsParams.vocab_size ∧ 0 ≤ manyHeadsParams.memory_max_seq_len) ∧
    construct .FP16 (demoEnv true) manyHeadsParams = .ok manyHeadsObject ∧
    manyHeadsObject.sizes.relative_attention_bias_size = -2147483648 ∧
    manyHeadsObject.buf_bytes = 2147353712 ∧
    manyHeadsObject.views.relative_attention_bias_ = 3221619056 ∧
    manyHeadsObject.views.topp_id_vals_buf_ = -1073348240 ∧
    ¬ (∀ e ∈ fixedExtents (demoEnv true) manyHeadsObject,
        0 ≤ e.start ∧ e.stop ≤ manyHeadsObject.buf_bytes) := by
  refine ⟨by decide, construct_constructed _ _ _ _, by decide, by decide, by decide, by decide,
    ?_⟩
  intro h
  have := (h ⟨manyHeadsObject.views.topp_id_vals_buf_,
    4 * manyHeadsObject.sizes.topp_id_vals_buf_size⟩ (by simp [fixedExtents])).1
  revert this
  decide

/-- C5, amended.  With `decoder_layers >= 1`, `tensor_para_size >= 1`,
non-negative sizes, every size the constructor computes in `int` within the
range of `int` (`IntSizesFit`), and any workspace sizes reported by the decoder
and the two sampling launchers: the constructor leaves an object when its two
checks pass, and when the byte count of that object is below 2^63 before its
reduction to `size_t`, every view the constructor carves out of `buf_` starts
at a byte offset that is not negative and ends at a byte offset that is at
most the number of bytes passed to `allocator_.malloc`: the nineteen views
that are not indexed by a layer (`fixedExtents`), and `K_mem_cache_[i]` and
`V_mem_cache_[i]` for each layer `i`. -/
theorem C5_views_inside_buf (op : OperationType) (env : Env) (p : CtorParams)
    (hl : 1 ≤ p.decoder_layers) (ht : 1 ≤ p.tensor_para_size)
    (hb : 0 ≤ p.batch_size) (hs : 0 ≤ p.seq_len) (hh : 0 ≤ p.head_num)
    (hp : 0 ≤ p.size_per_head) (hv : 0 ≤ p.vocab_size) (hm : 0 ≤ p.memory_max_seq_len)
    (hfit : IntSizesFit op p) :
    (samplingModeCheck p.candidate_num p.probability_threshold = .ok () →
      gemmConfigCheck op env = .ok () → ∃ o, construct op env p = .ok o) ∧
    ∀ o, construct op env p = .ok o →
      allocSum op env o.sizes (datatypeBufSum o.args_ o.sizes) < 9223372036854775808 →
      (∀ e ∈ fixedExtents env o, 0 ≤ e.start ∧ 0 ≤ e.bytes ∧ e.stop ≤ o.buf_bytes) ∧
      (∀ i : Int, 0 ≤ i → i < p.decoder_layers →
        ∀ e ∈ memCacheExtents o i, 0 ≤ e.start ∧ 0 ≤ e.bytes ∧ e.stop ≤ o.buf_bytes) := by
  constructor
  · intro hsm hg
    obtain ⟨z, hz, -⟩ := bufSizes_exact op env p ht hb hs hh hp hv hm hfit
    have hcv : carveViews op env (assignArgs op env.args_init p) z =
        .ok (layout wrapPtr op env (assignArgs op env.args_init p) z) := by
      unfold carveViews
      rw [if_neg (by show ¬ p.decoder_layers ≤ 0; omega)]
    exact ⟨_, construct_of_parts hsm hg (by omega) hb hz hcv⟩
  · intro o hc h64
    obtain ⟨-, z, ho, hz, hint, -⟩ := construct_sizes op env p ht hb hs hh hp hv hm hfit hc
    subst ho
    exact ⟨buildObject_fixedExtents_fit op env p z hz hl hint h64,
      fun i hi hil => buildObject_memCacheExtents_fit op env p z hz hl hint h64 i hi hil⟩

/-- C5, amended, at the FP16 object for a batch of two, two layers,
`seq_len = 5`: 1446 bytes are requested. -/
theorem C5_views_inside_buf_witness :
    (1 ≤ (pairParams 1 (.finite 0 0)).decoder_layers ∧
      1 ≤ (pairParams 1 (.finite 0 0)).tensor_para_size ∧
      0 ≤ (pairParams 1 (.finite 0 0)).batch_size ∧ 0 ≤ (pairParams 1 (.finite 0 0)).seq_len ∧
      0 ≤ (pairParams 1 (.finite 0 0)).head_num ∧
      0 ≤ (pairParams 1 (.finite 0 0)).size_per_head ∧
      0 ≤ (pairParams 1 (.finite 0 0)).vocab_size ∧
      0 ≤ (pairParams 1 (.finite 0 0)).memory_max_seq_len ∧
      IntSizesFit .FP16 (pairParams 1 (.finite 0 0)) ∧
      construct .FP16 (demoEnv true) (pairParams 1 (.finite 0 0)) = .ok pairObject ∧
      allocSum .FP16 (demoEnv true) pairObject.sizes
        (datatypeBufSum pairObject.args_ pairObject.sizes) < 9223372036854775808) ∧
    ((∀ e ∈ fixedExtents (demoEnv true) pairObject,
        0 ≤ e.start ∧ 0 ≤ e.bytes ∧ e.stop ≤ pairObject.buf_bytes) ∧
     (∀ i : Int, 0 ≤ i → i < (pairParams 1 (.finite 0 0)).decoder_layers →
        ∀ e ∈ memCacheExtents pairObject i,
          0 ≤ e.start ∧ 0 ≤ e.bytes ∧ e.stop ≤ pairObject.buf_bytes)) :=
  ⟨⟨by decide, by decide, by decide, by decide, by decide, by decide, by decide, by decide,
      by unfold IntSizesFit; decide, construct_constructed _ _ _ _, by decide⟩,
    (C5_views_inside_buf .FP16 (demoEnv true) (pairParams 1 (.finite 0 0))
      (by decide) (by decide) (by decide) (by decide) (by decide) (by decide) (by decide)
      (by decide) (by unfold IntSizesFit; decide)).2 pairObject
      (construct_constructed _ _ _ _) (by decide)⟩

/-- C6, as stated, fails.  In FP32, for one sequence, one head of size one,
one layer and `seq_len = 1`, the constructor requests 476 bytes while the last
view, `curandstate_buf_`, ends at byte 460. -/
theorem C6_counterexample :
    construct .FP32 (demoEnv true) (demoParams 4 (.finite 0 0)) = .ok (demoObject .FP32) ∧
    (demoObject .FP32).buf_bytes = 476 ∧
    lastViewStop (demoEnv true) (demoObject .FP32) = 460 ∧
    (demoObject .FP32).buf_bytes ≠ lastViewStop (demoEnv true) (demoObject .FP32) := by
  refine ⟨construct_constructed _ _ _ _, ?_, ?_, ?_⟩ <;> decide

/-- C6, amended.  For a configuration with `decoder_layers >= 1`,
`tensor_para_size >= 1`, non-negative sizes within the range of `int`
(`IntSizesFit`) and a byte count below 2^63: the views are laid out back to
back, so the end of the last view, `curandstate_buf_` plus `batch_size` random
states, is the sum of the footprints of the views (with
`CUBLAS_WORKSPACE_SIZE` in front in FP16).  The number of bytes requested is
that end plus
`sizeof(DataType_) * (2 * cache_size * decoder_layers + 2 * batch_size * hidden_units)`
bytes that belong to no view. -/
theorem C6_alloc_is_views_plus_slack (op : OperationType) (env : Env) (p : CtorParams)
    (ht : 1 ≤ p.tensor_para_size)
    (hb : 0 ≤ p.batch_size) (hs : 0 ≤ p.seq_len) (hh : 0 ≤ p.head_num)
    (hp : 0 ≤ p.size_per_head) (hv : 0 ≤ p.vocab_size) (hm : 0 ≤ p.memory_max_seq_len)
    (hfit : IntSizesFit op p) (o : T5DecodingSampling) (hc : construct op env p = .ok o)
    (h64 : allocSum op env o.sizes (datatypeBufSum o.args_ o.sizes) < 9223372036854775808) :
    lastViewStop env o =
      (if op = .FP16 then (env.CUBLAS_WORKSPACE_SIZE : Int) else 0) +
        ((fixedExtents env o).map Extent.bytes).sum +
        o.args_.decoder_layers_ * ((memCacheExtents o 0).map Extent.bytes).sum ∧
    o.buf_bytes = lastViewStop env o +
      sizeofDataType op *
        (2 * (o.sizes.cache_size * o.args_.decoder_layers_) +
          2 * (o.args_.batch_size_ * o.args_.hidden_units_)) := by
  obtain ⟨hl, z, ho, hz, hint, efts, edn, -, -⟩ :=
    construct_sizes op env p ht hb hs hh hp hv hm hfit hc
  subst ho
  have hL : 1 ≤ (assignArgs op env.args_init p).decoder_layers_ := hl
  obtain ⟨w2, hd0, hA⟩ := allocBytes_exact op env _ z hz hL hint h64
  obtain ⟨hV, -⟩ := layout_exact op env _ z hz hL hint h64
  have hbt : z.begin_topp_offset_buf_size = z.topp_offset_buf_size := hz.2.2.2.2.2.2.2.2.2.2.2.2.1
  have hf : (assignArgs op env.args_init p).batch_size_ *
      (assignArgs op env.args_init p).hidden_units_ = z.from_tensor_size := by
    have f1 := hfit.1
    rw [assignArgs_hidden_units op env.args_init p hh hp f1, efts]
    rfl
  simp only [buildObject, hA, lastViewStop, memCacheExtents]
  rw [hV, hf]
  generalize assignArgs op env.args_init p = a
  cases op <;>
  · simp only [fixedExtents, layout, id, allocSum, datatypeBufSum, sizeofDataType,
      List.map_cons, List.map_nil, List.sum_cons, List.sum_nil, hbt, edn, w2]
    constructor <;> simp <;> ring

/-- C6, amended, at the FP32 object of the small configuration: 460 bytes of
views, 16 bytes that belong to no view. -/
theorem C6_alloc_is_views_plus_slack_witness :
    (1 ≤ (demoParams 4 (.finite 0 0)).tensor_para_size ∧
      0 ≤ (demoParams 4 (.finite 0 0)).batch_size ∧ 0 ≤ (demoParams 4 (.finite 0 0)).seq_len ∧
      0 ≤ (demoParams 4 (.finite 0 0)).head_num ∧
      0 ≤ (demoParams 4 (.finite 0 0)).size_per_head ∧
      0 ≤ (demoParams 4 (.finite 0 0)).vocab_size ∧
      0 ≤ (demoParams 4 (.finite 0 0)).memory_max_seq_len ∧
      IntSizesFit .FP32 (demoParams 4 (.finite 0 0)) ∧
      construct .FP32 (demoEnv true) (demoParams 4 (.finite 0 0)) = .ok (demoObject .FP32) ∧
      allocSum .FP32 (demoEnv true) (demoObject .FP32).sizes
        (datatypeBufSum (demoObject .FP32).args_ (demoObject .FP32).sizes) <
          9223372036854775808) ∧
    (lastViewStop (demoEnv true) (demoObject .FP32) =
      (if OperationType.FP32 = .FP16 then ((demoEnv true).CUBLAS_WORKSPACE_SIZE : Int) else 0) +
        ((fixedExtents (demoEnv true) (demoObject .FP32)).map Extent.bytes).sum +
        (demoObject .FP32).args_.decoder_layers_ *
          ((memCacheExtents (demoObject .FP32) 0).map Extent.bytes).sum ∧
     (demoObject .FP32).buf_bytes = lastViewStop (demoEnv true) (demoObject .FP32) +
      sizeofDataType .FP32 *
        (2 * ((demoObject .FP32).sizes.cache_size * (demoObject .FP32).args_.decoder_layers_) +
          2 * ((demoObject .FP32).args_.batch_size_ *
            (demoObject .FP32).args_.hidden_units_))) ∧
    sizeofDataType .FP32 *
        (2 * ((demoObject .FP32).sizes.cache_size * (demoObject .FP32).args_.decoder_layers_) +
          2 * ((demoObject .FP32).args_.batch_size_ *
            (demoObject .FP32).args_.hidden_units_)) = 16 :=
  ⟨⟨by decide, by decide, by decide, by decide, by decide, by decide, by decide,
      by unfold IntSizesFit; decide, construct_constructed _ _ _ _, by decide⟩,
    C6_alloc_is_views_plus_slack .FP32 (demoEnv true) (demoParams 4 (.finite 0 0))
      (by decide) (by decide) (by decide) (by decide) (by decide) (by decide) (by decide)
      (by unfold IntSizesFit; decide) (demoObject .FP32) (construct_constructed _ _ _ _)
      (by decide),
    by decide⟩

/-- C7, at a failing input.  In FP16, with `CUBLAS_WORKSPACE_SIZE` and the
three workspace sizes multiples of 16 and `batch_size * hidden_units = 1`, the
constructor accepts the configuration and `word_ids_buf_`, a view of `int`,
starts at byte 78 of `buf_`, which is 2 modulo 4; so does
`finished_count_buf_`. -/
theorem C7_word_ids_buf_misaligned :
    (16 ∣ (demoEnv true).CUBLAS_WORKSPACE_SIZE ∧ 16 ∣ (demoEnv true).decoder_workspace_size ∧
      16 ∣ (demoEnv true).topp_workspace_size_ ∧ 16 ∣ (demoEnv true).topk_workspace_size_) ∧
    (∃ o, construct .FP16 (demoEnv true) (demoParams 4 (.finite 0 0)) = .ok o ∧
      o.views.word_ids_buf_ = 78 ∧ o.views.word_ids_buf_ % 4 = 2 ∧
      o.views.finished_count_buf_ % 4 = 2 ∧
      o.args_.batch_size_ * o.args_.hidden_units_ = 1) := by
  refine ⟨by decide, _, rfl, ?_, ?_, ?_, ?_⟩ <;> decide

/-! ### Unsigned comparisons -/

theorem toUnsigned_of_nonneg (x : Int) (h0 : 0 ≤ x) (h1 : x < 4294967296) :
    (toUnsigned x : Int) = x := by
  unfold toUnsigned
  omega

theorem toUnsigned_lt (x : Int) : toUnsigned x < 4294967296 := by
  unfold toUnsigned
  omega

theorem ugt_iff (t : Nat) (x : Int) (h0 : 0 ≤ x) (h1 : x < 4294967296) :
    ugt t x = true ↔ x < t := by
  have := toUnsigned_of_nonneg x h0 h1
  simp only [ugt, decide_eq_true_eq]
  omega

theorem foldl_min_max (f : Nat → Int) (l : List Nat) (a b : Int) :
    let r := l.foldl (fun (b : Int × Int) i => (min b.1 (f i), max b.2 (f i))) (a, b)
    (r.1 ≤ a ∧ (∀ i ∈ l, r.1 ≤ f i) ∧ (r.1 = a ∨ ∃ i ∈ l, r.1 = f i)) ∧
    (b ≤ r.2 ∧ (∀ i ∈ l, f i ≤ r.2) ∧ (r.2 = b ∨ ∃ i ∈ l, r.2 = f i)) := by
  induction l generalizing a b with
  | nil => simp
  | cons j l ih =>
    have := ih (min a (f j)) (max b (f j))
    simp only [List.foldl_cons, List.mem_cons, forall_eq_or_imp, exists_eq_or_imp] at this ⊢
    obtain ⟨⟨h1, h2, h3⟩, ⟨h4, h5, h6⟩⟩ := this
    refine ⟨⟨le_trans h1 (min_le_left _ _), ⟨le_trans h1 (min_le_right _ _), h2⟩, ?_⟩,
      ⟨le_trans (le_max_left _ _) h4, ⟨le_trans (le_max_right _ _) h4, h5⟩, ?_⟩⟩
    · rcases h3 with h | ⟨i, hi, h⟩
      · rcases min_choice a (f j) with hm | hm
        · left; rw [h, hm]
        · right; left; rw [h, hm]
      · right; right; exact ⟨i, hi, h⟩
    · rcases h6 with h | ⟨i, hi, h⟩
      · rcases max_choice b (f j) with hm | hm
        · left; rw [h, hm]
        · right; left; rw [h, hm]
      · right; right; exact ⟨i, hi, h⟩

theorem trgLenBounds_null (b : Int) (dp : DecodingInitParam) (h : dp.trg_word = false) :
    trgLenBounds b dp = (0, 0) := by
  simp [trgLenBounds, h]

theorem trgLenBounds_spec (b : Int) (dp : DecodingInitParam) (h : dp.trg_word = true)
    (hb : 1 ≤ b) :
    ((∀ i : Nat, (i : Int) < b → (trgLenBounds b dp).1 ≤ dp.trg_length i) ∧
      ∃ i : Nat, (i : Int) < b ∧ (trgLenBounds b dp).1 = dp.trg_length i) ∧
    ((∀ i : Nat, (i : Int) < b → dp.trg_length i ≤ (trgLenBounds b dp).2) ∧
      ∃ i : Nat, (i : Int) < b ∧ (trgLenBounds b dp).2 = dp.trg_length i) := by
  have key := foldl_min_max dp.trg_length (List.range' 1 (b.toNat - 1))
    (dp.trg_length 0) (dp.trg_length 0)
  simp only [trgLenBounds, h, if_true]
  simp only [List.mem_range'_1] at key
  obtain ⟨⟨h1, h2, h3⟩, ⟨h4, h5, h6⟩⟩ := key
  refine ⟨⟨?_, ?_⟩, ⟨?_, ?_⟩⟩
  · intro i hi
    rcases Nat.eq_zero_or_pos i with h0 | h0
    · subst h0; exact h1
    · exact h2 i ⟨by omega, by omega⟩
  · rcases h3 with h | ⟨i, hi, h⟩
    · exact ⟨0, by omega, h⟩
    · exact ⟨i, by omega, h⟩
  · intro i hi
    rcases Nat.eq_zero_or_pos i with h0 | h0
    · subst h0; exact h4
    · exact h5 i ⟨by omega, by omega⟩
  · rcases h6 with h | ⟨i, hi, h⟩
    · exact ⟨0, by omega, h⟩
    · exact ⟨i, by omega, h⟩

theorem trgLenBounds_range (b : Int) (dp : DecodingInitParam) (h : ForcedLengthsOk b dp) :
    0 ≤ (trgLenBounds b dp).1 ∧ (trgLenBounds b dp).1 ≤ (trgLenBounds b dp).2 ∧
      (trgLenBounds b dp).2 < 2147483648 := by
  cases ht : dp.trg_word with
  | false => rw [trgLenBounds_null b dp ht]; decide
  | true =>
    obtain ⟨hb, hlen⟩ := h ht
    obtain ⟨⟨h1, i, hi, h2⟩, ⟨h3, j, hj, h4⟩⟩ := trgLenBounds_spec b dp ht hb
    refine ⟨?_, ?_, ?_⟩
    · rw [h2]; exact (hlen i hi).1
    · exact le_trans (h1 0 (by omega)) (h3 0 (by omega))
    · rw [h4]; exact (hlen j hj).2

/-! ### The finished flags -/

theorem foldl_finished_count (fin : Nat → Bool) (l : List Nat) (acc : Nat)
    (h : acc + l.length < 4294967296) :
    l.foldl (fun a i => (a + (if fin i then 1 else 0)) % 4294967296) acc =
      acc + l.countP fin := by
  induction l generalizing acc with
  | nil => simp
  | cons j l ih =>
    simp only [List.length_cons] at h
    simp only [List.foldl_cons, List.countP_cons]
    cases hj : fin j
    · simp only [Bool.false_eq_true, if_false, Nat.add_zero]
      rw [Nat.mod_eq_of_lt (by omega), ih acc (by omega)]
    · simp only [if_true]
      rw [Nat.mod_eq_of_lt (by omega), ih (acc + 1) (by omega)]
      omega

theorem allFinished_iff {σ : Type} (D : Device σ) (b : Int) (d : σ) :
    allFinished D b d = true ↔ ∀ i : Nat, i < toUnsigned b → D.finished d i = true := by
  have hlt := toUnsigned_lt b
  simp only [allFinished, beq_iff_eq]
  rw [foldl_finished_count (D.finished d) (List.range (toUnsigned b)) 0
    (by simp only [List.length_range]; omega)]
  simp only [Nat.zero_add]
  conv_lhs => rhs; rw [← List.length_range (toUnsigned b)]
  rw [List.countP_eq_length]
  simp only [List.mem_range]

theorem done_iff {σ : Type} (D : Device σ) (b : Int) (d : σ) (hb : 0 ≤ b)
    (hb' : b < 2147483648) :
    allFinished D b d = true ↔ ∀ i : Nat, (i : Int) < b → D.finished d i = true := by
  rw [allFinished_iff]
  have := toUnsigned_of_nonneg b hb (by omega)
  constructor
  · intro h i hi; exact h i (by omega)
  · intro h i hi; exact h i (by omega)

/-! ### The log of launches -/

theorem callsAt_append (l₁ l₂ : List (Nat × Call)) (t : Nat) :
    callsAt (l₁ ++ l₂) t = callsAt l₁ t ++ callsAt l₂ t := by
  simp [callsAt]

theorem callsAt_tagged (cs : List Call) (k t : Nat) :
    callsAt (cs.map (fun c => (k, c))) t = if k = t then cs else [] := by
  induction cs with
  | nil => simp [callsAt]
  | cons c cs ih =>
    simp only [callsAt] at ih
    by_cases h : k = t
    · simp only [h, if_true] at ih ⊢
      simp [callsAt, List.filter_cons, ih]
    · simp only [h, if_false] at ih ⊢
      simp [callsAt, List.filter_cons, h, ih]

theorem stateAt_log_succ {σ : Type} (D : Device σ) (env : Env) (o : T5DecodingSampling)
    (dp : DecodingInitParam) (d0 : σ) (t : Nat) :
    (stateAt D env o dp d0 (t + 1)).log =
      (stateAt D env o dp d0 t).log ++
        (stepCalls env o dp (trgLenBounds o.args_.batch_size_ dp).1
          (trgLenBounds o.args_.batch_size_ dp).2
          (stateAt D env o dp d0 t).word_ids_buf_ (t + 1)).map (fun c => (t + 1, c)) :=
  rfl

theorem stateAt_steps {σ : Type} (D : Device σ) (env : Env) (o : T5DecodingSampling)
    (dp : DecodingInitParam) (d0 : σ) (t : Nat) :
    (stateAt D env o dp d0 t).steps = t := by
  induction t with
  | zero => rfl
  | succ t ih => show (stateAt D env o dp d0 t).steps + 1 = t + 1; rw [ih]

theorem callsAt_stateAt_gt {σ : Type} (D : Device σ) (env : Env) (o : T5DecodingSampling)
    (dp : DecodingInitParam) (d0 : σ) (T t : Nat) (h : T < t) :
    callsAt (stateAt D env o dp d0 T).log t = [] := by
  induction T with
  | zero =>
    show callsAt ([] ++ (prologueCalls o dp).map (fun c => (0, c))) t = _
    rw [List.nil_append, callsAt_tagged, if_neg (by omega)]
  | succ T ih =>
    rw [stateAt_log_succ, callsAt_append, callsAt_tagged, ih (by omega), if_neg (by omega)]
    rfl

theorem callsAt_stateAt {σ : Type} (D : Device σ) (env : Env) (o : T5DecodingSampling)
    (dp : DecodingInitParam) (d0 : σ) (T t : Nat) (h : t < T) :
    callsAt (stateAt D env o dp d0 T).log (t + 1) =
      stepCalls env o dp (trgLenBounds o.args_.batch_size_ dp).1
        (trgLenBounds o.args_.batch_size_ dp).2
        (stateAt D env o dp d0 t).word_ids_buf_ (t + 1) := by
  induction T with
  | zero => omega
  | succ T ih =>
    rw [stateAt_log_succ, callsAt_append, callsAt_tagged]
    by_cases heq : t = T
    · subst heq
      rw [callsAt_stateAt_gt D env o dp d0 t (t + 1) (by omega), if_pos rfl, List.nil_append]
    · rw [ih (by omega), if_neg (by omega), List.append_nil]

/-! ### The step loop -/

theorem stepLoop_stateAt {σ : Type} (D : Device σ) (env : Env) (o : T5DecodingSampling)
    (dp : DecodingInitParam) (d0 : σ) (n k : Nat) :
    ∃ T, stepLoop D env o dp (trgLenBounds o.args_.batch_size_ dp).1
        (trgLenBounds o.args_.batch_size_ dp).2 n (k + 1) (stateAt D env o dp d0 k) =
          stateAt D env o dp d0 T ∧
      k ≤ T ∧ T ≤ k + n ∧
      (∀ t, k < t → t < T →
        ¬ (ugt t (trgLenBounds o.args_.batch_size_ dp).2 = true ∧
          allFinished D o.args_.batch_size_ (stateAt D env o dp d0 t).dev = true)) ∧
      (T < k + n → k < T ∧ ugt T (trgLenBounds o.args_.batch_size_ dp).2 = true ∧
          allFinished D o.args_.batch_size_ (stateAt D env o dp d0 T).dev = true) := by
  induction n generalizing k with
  | zero => exact ⟨k, rfl, le_refl _, le_refl _, fun t h1 h2 => by omega, fun h => by omega⟩
  | succ n ih =>
    have hs : stepBody D env o dp (trgLenBounds o.args_.batch_size_ dp).1
        (trgLenBounds o.args_.batch_size_ dp).2 (k + 1) (stateAt D env o dp d0 k) =
          stateAt D env o dp d0 (k + 1) := rfl
    simp only [stepLoop, hs]
    by_cases hc : (ugt (k + 1) (trgLenBounds o.args_.batch_size_ dp).2 &&
        allFinished D o.args_.batch_size_ (stateAt D env o dp d0 (k + 1)).dev) = true
    · rw [if_pos hc]
      rw [Bool.and_eq_true] at hc
      exact ⟨k + 1, rfl, by omega, by omega, fun t h1 h2 => by omega, fun _ => ⟨by omega, hc⟩⟩
    · rw [if_neg hc]
      obtain ⟨T, h1, h2, h3, h4, h5⟩ := ih (k + 1)
      refine ⟨T, h1, by omega, by omega, ?_, ?_⟩
      · intro t ht1 ht2
        by_cases heq : t = k + 1
        · subst heq; rw [Bool.and_eq_true] at hc; exact hc
        · exact h4 t (by omega) ht2
      · intro hT
        obtain ⟨h6, h7⟩ := h5 (by omega)
        exact ⟨by omega, h7⟩

theorem forward_stateAt {σ : Type} (D : Device σ) (env : Env) (o : T5DecodingSampling)
    (dp : DecodingInitParam) (d0 : σ) :
    forward D env o dp d0 = stateAt D env o dp d0 (forward D env o dp d0).steps ∧
      (forward D env o dp d0).steps ≤ toUnsigned o.args_.seq_len_ ∧
      (∀ t, 0 < t → t < (forward D env o dp d0).steps →
        ¬ (ugt t (trgLenBounds o.args_.batch_size_ dp).2 = true ∧
          allFinished D o.args_.batch_size_ (stateAt D env o dp d0 t).dev = true)) ∧
      ((forward D env o dp d0).steps < toUnsigned o.args_.seq_len_ →
        0 < (forward D env o dp d0).steps ∧
        ugt (forward D env o dp d0).steps (trgLenBounds o.args_.batch_size_ dp).2 = true ∧
        allFinished D o.args_.batch_size_
          (stateAt D env o dp d0 (forward D env o dp d0).steps).dev = true) := by
  obtain ⟨T, h1, h2, h3, h4, h5⟩ := stepLoop_stateAt D env o dp d0 (toUnsigned o.args_.seq_len_) 0
  have hf : forward D env o dp d0 = stateAt D env o dp d0 T := h1
  have hT : (forward D env o dp d0).steps = T := by rw [hf, stateAt_steps]
  rw [hT]
  exact ⟨hf, by omega, h4, fun h => h5 (by omega)⟩

/-- The launches that `forward` logs for an executed step are those of the
step body. -/
theorem callsAt_forward {σ : Type} (D : Device σ) (env : Env) (o : T5DecodingSampling)
    (dp : DecodingInitParam) (d0 : σ) (t : Nat) (h1 : 1 ≤ t)
    (h2 : t ≤ (forward D env o dp d0).steps) :
    callsAt (forward D env o dp d0).log t =
      stepCalls env o dp (trgLenBounds o.args_.batch_size_ dp).1
        (trgLenBounds o.args_.batch_size_ dp).2
        (stateAt D env o dp d0 (t - 1)).word_ids_buf_ t := by
  obtain ⟨k, rfl⟩ : ∃ k, t = k + 1 := ⟨t - 1, by omega⟩
  have h := (forward_stateAt D env o dp d0).1
  rw [h, callsAt_stateAt D env o dp d0 _ k (by omega)]
  rfl

/-! ### The launches of one step -/

theorem layerLoop_any (env : Env) (o : T5DecodingSampling) (step : Nat) (P : Call → Bool)
    (hP : ∀ c, c.isDecoderLayer = true → P c = false) (layers : List Nat)
    (out_id : Option Int) :
    (layerLoop env o step layers out_id).1.any P = false := by
  induction layers generalizing out_id with
  | nil => rfl
  | cons l ls ih =>
    simp only [layerLoop]
    split
    · simp only [List.any_cons, ih, hP _ (show (Call.decoder_init_layer _).isDecoderLayer = true
        from rfl), hP _ (show (Call.decoder_forward _ _ _ _ _ _ _ _).isDecoderLayer = true
        from rfl), Bool.or_self]
    · exact ih out_id

theorem layerLoop_filter (env : Env) (o : T5DecodingSampling) (step : Nat) (P : Call → Bool)
    (hP : ∀ c, c.isDecoderLayer = true → P c = false) (layers : List Nat)
    (out_id : Option Int) :
    (layerLoop env o step layers out_id).1.filter P = [] := by
  rw [List.filter_eq_nil_iff]
  intro c hc hPc
  have := layerLoop_any env o step P hP layers out_id
  rw [List.any_eq_false] at this
  exact this c hc hPc

theorem forceCalls_filter (o : T5DecodingSampling) (mn mx : Int) (w : Ptr) (step : Nat)
    (P : Call → Bool) (hP : ∀ c, c.isForceDecoding = true → P c = false) :
    (forceCalls o mn mx w step).filter P = [] := by
  unfold forceCalls
  split
  · simp [List.filter_cons, hP _ (show (Call.update_with_force_decodingLauncher
      _ _ _ _ _).isForceDecoding = true from rfl)]
  · rfl

theorem stepCalls_filter (env : Env) (o : T5DecodingSampling) (dp : DecodingInitParam)
    (mn mx : Int) (w : Ptr) (step : Nat) (P : Call → Bool)
    (hP : ∀ c, (c.isEmbedding || c.isDecoderLayer || c.isForceDecoding) = true → P c = false) :
    (stepCalls env o dp mn mx w step).filter P =
      (samplingCalls o dp mn step
        (layerLoop env o step (List.range o.args_.decoder_layers_.toNat) none).2).filter P := by
  have h1 : P (Call.words_embeddings_kernel_launcher 0 w) = false := hP _ rfl
  have h2 := layerLoop_filter env o step P (fun c hc => hP c (by simp [hc]))
    (List.range o.args_.decoder_layers_.toNat) none
  have h3 := forceCalls_filter o mn mx w step P (fun c hc => hP c (by simp [hc]))
  simp only [stepCalls, List.filter_cons, h1, List.filter_append, h2, h3, List.nil_append,
    List.append_nil, Bool.false_eq_true, if_false]

theorem forceCalls_any (o : T5DecodingSampling) (mn mx : Int) (w : Ptr) (step : Nat)
    (P : Call → Bool) (hP : ∀ c, c.isForceDecoding = true → P c = false) :
    (forceCalls o mn mx w step).any P = false := by
  unfold forceCalls
  split
  · simp [hP _ (show (Call.update_with_force_decodingLauncher
      _ _ _ _ _).isForceDecoding = true from rfl)]
  · rfl

theorem stepCalls_any (env : Env) (o : T5DecodingSampling) (dp : DecodingInitParam)
    (mn mx : Int) (w : Ptr) (step : Nat) (P : Call → Bool)
    (hP : ∀ c, (c.isEmbedding || c.isDecoderLayer || c.isForceDecoding) = true → P c = false) :
    (stepCalls env o dp mn mx w step).any P =
      (samplingCalls o dp mn step
        (layerLoop env o step (List.range o.args_.decoder_layers_.toNat) none).2).any P := by
  have h1 : P (Call.words_embeddings_kernel_launcher 0 w) = false := hP _ rfl
  have h2 := layerLoop_any env o step P (fun c hc => hP c (by simp [hc]))
    (List.range o.args_.decoder_layers_.toNat) none
  have h3 := forceCalls_any o mn mx w step P (fun c hc => hP c (by simp [hc]))
  simp only [stepCalls, List.any_cons, h1, List.any_append, h2, h3, Bool.false_or,
    Bool.or_false]

theorem samplingCalls_of_not_ugt (o : T5DecodingSampling) (dp : DecodingInitParam)
    (mn : Int) (step : Nat) (out_id : Option Int) (h : ugt step mn = false) :
    samplingCalls o dp mn step out_id = [] := by
  simp [samplingCalls, h]

theorem samplingCalls_of_ugt (o : T5DecodingSampling) (dp : DecodingInitParam)
    (mn : Int) (step : Nat) (out_id : Option Int) (h : ugt step mn = true) :
    samplingCalls o dp mn step out_id =
      [Call.t5_layer_norm out_id,
       Call.cublasMM_cublasLtMM_wrapper_decoder
        (if o.args_.tie_word_embeddings_ then Alpha.rsqrt_hidden_units else Alpha.one)
        (!usesCallerEmbedding o)] ++
      (if dp.logits_mask || (o.args_.min_length_ != 0 && ule step o.args_.min_length_) then
        [Call.apply_logits_mask_kernelLauncher
          (o.args_.min_length_ != 0 && ule step o.args_.min_length_)] else []) ++
      (if o.args_.temperature_.neOne then
        [Call.apply_temperature_penalty_kernelLauncher] else []) ++
      selectionCalls o dp step := by
  simp [samplingCalls, h]

/-- The selection the accepted sampling mode asks for at a step. -/
theorem selectionCalls_filter (o : T5DecodingSampling) (dp : DecodingInitParam) (step : Nat)
    (hm : o.args_.candidate_num_ ≠ 0 ∨ o.args_.probability_threshold_.neZero = true) :
    (selectionCalls o dp step).filter Call.isSelection =
      [if o.args_.candidate_num_ ≠ 0 then
        (if dp.output_scores then
          Call.topK_sampling_kernel_kernelLauncher_v3 (outputSlot o step)
         else Call.topK_sampling_kernel_kernelLauncher_v2 (outputSlot o step))
       else
        (if dp.output_scores then
          Call.topP_sampling_kernel_kernelLauncher_v3 (outputSlot o step)
         else Call.topP_sampling_kernel_kernelLauncher_v2 (outputSlot o step))] := by
  unfold selectionCalls
  by_cases hc : o.args_.candidate_num_ = 0
  · have hp : o.args_.probability_threshold_.neZero = true := by
      rcases hm with h | h
      · exact absurd hc h
      · exact h
    cases hs : dp.output_scores <;>
      simp [hc, hp, List.filter_cons, Call.isSelection, Call.isTopK, Call.isTopP]
  · cases hs : dp.output_scores <;>
      simp [hc, List.filter_cons, Call.isSelection, Call.isTopK, Call.isTopP]

theorem samplingCalls_filter_softmax (o : T5DecodingSampling) (dp : DecodingInitParam)
    (mn : Int) (step : Nat) (out_id : Option Int) (h : ugt step mn = true) :
    (samplingCalls o dp mn step out_id).filter Call.isSoftmax =
      (selectionCalls o dp step).filter Call.isSoftmax := by
  rw [samplingCalls_of_ugt o dp mn step out_id h]
  simp only [List.filter_append]
  have e1 : ∀ l : List Call, l = [] ∨ (∃ b, l = [Call.apply_logits_mask_kernelLauncher b]) ∨
      l = [Call.apply_temperature_penalty_kernelLauncher] →
      l.filter Call.isSoftmax = [] := by
    intro l hl
    rcases hl with rfl | ⟨b, rfl⟩ | rfl <;> rfl
  rw [e1 (if dp.logits_mask || _ then _ else _) (by split <;> simp),
    e1 (if o.args_.temperature_.neOne then _ else _) (by split <;> simp)]
  rfl

theorem selectionCalls_filter_softmax (o : T5DecodingSampling) (dp : DecodingInitParam)
    (step : Nat)
    (hm : o.args_.candidate_num_ ≠ 0 ∨ o.args_.probability_threshold_.neZero = true) :
    (selectionCalls o dp step).filter Call.isSoftmax =
      if o.args_.candidate_num_ = 0 ∨ dp.output_scores = true then
        [Call.softmax_kernelLauncher] else [] := by
  unfold selectionCalls
  by_cases hc : o.args_.candidate_num_ = 0
  · have hp : o.args_.probability_threshold_.neZero = true := by
      rcases hm with h | h
      · exact absurd hc h
      · exact h
    cases hs : dp.output_scores <;> simp [hc, hp, List.filter_cons, Call.isSoftmax]
  · cases hs : dp.output_scores <;> simp [hc, List.filter_cons, Call.isSoftmax]

theorem any_of_filter_ne_nil (l : List Call) (P : Call → Bool) :
    l.any P = true ↔ l.filter P ≠ [] := by
  rw [Ne, List.filter_eq_nil_iff, List.any_eq_true]
  push_neg
  rfl

theorem sampling_block_pred (P : Call → Bool)
    (h : P = Call.isLayerNorm ∨ P = Call.isProjection ∨ P = Call.isSelection ∨
      P = Call.inSamplingPipeline ∨ P = Call.isSoftmax) :
    ∀ c, (c.isEmbedding || c.isDecoderLayer || c.isForceDecoding) = true → P c = false := by
  intro c hc
  rcases h with rfl | rfl | rfl | rfl | rfl <;> cases c <;>
    simp_all [Call.isEmbedding, Call.isDecoderLayer, Call.isForceDecoding, Call.isLayerNorm,
      Call.isProjection, Call.isSelection, Call.isTopK, Call.isTopP, Call.inSamplingPipeline,
      Call.isSoftmax]

theorem inSamplingPipeline_of_isSelection (c : Call) (h : c.isSelection = true) :
    c.inSamplingPipeline = true := by
  cases c <;> simp_all [Call.inSamplingPipeline, Call.isSelection, Call.isTopK, Call.isTopP]

/-! ### The steps of `forward` -/

/-- C1. For `seq_len >= 0` and forced lengths that are non-negative (the
batch being non-empty when forced tokens are given), `forward` runs exactly
`T` bodies of the step loop: its final state is `stateAt T`, the state after
`T` steps.  `T` is at most `seq_len`; either `T` is the least step past
`max_trg_len` after which all `batch_size` finished flags are set, or no step
`t` with `max_trg_len < t <= seq_len` has all flags set after it and
`T = seq_len`.  A run that ends before `seq_len` ends past `max_trg_len`,
which is 0 without forced tokens and the largest forced length of the batch
otherwise. -/
theorem C1_steps_executed {σ : Type} (D : Device σ) (env : Env) (o : T5DecodingSampling)
    (dp : DecodingInitParam) (d0 : σ)
    (hseq : 0 ≤ o.args_.seq_len_) (hseq' : o.args_.seq_len_ < 2147483648)
    (hb : 0 ≤ o.args_.batch_size_) (hb' : o.args_.batch_size_ < 2147483648)
    (hlen : ForcedLengthsOk o.args_.batch_size_ dp) :
    let r := forward D env o dp d0
    let max_trg_len := (trgLenBounds o.args_.batch_size_ dp).2
    let done : Nat → Prop := fun t =>
      ∀ i : Nat, (i : Int) < o.args_.batch_size_ →
        D.finished (stateAt D env o dp d0 t).dev i = true
    r = stateAt D env o dp d0 r.steps ∧
    (r.steps : Int) ≤ o.args_.seq_len_ ∧
    ((max_trg_len < r.steps ∧ done r.steps ∧
        ∀ t : Nat, max_trg_len < t → t < r.steps → ¬ done t) ∨
      ((r.steps : Int) = o.args_.seq_len_ ∧
        ∀ t : Nat, max_trg_len < t → (t : Int) ≤ o.args_.seq_len_ → ¬ done t)) ∧
    ((r.steps : Int) < o.args_.seq_len_ → max_trg_len < r.steps) ∧
    (dp.trg_word = false → max_trg_len = 0) ∧
    (dp.trg_word = true →
      (∀ i : Nat, (i : Int) < o.args_.batch_size_ → dp.trg_length i ≤ max_trg_len) ∧
      ∃ i : Nat, (i : Int) < o.args_.batch_size_ ∧ max_trg_len = dp.trg_length i) := by
  dsimp only
  obtain ⟨h1, h2, h3, h4⟩ := forward_stateAt D env o dp d0
  obtain ⟨hm0, hm1, hm2⟩ := trgLenBounds_range o.args_.batch_size_ dp hlen
  have hN := toUnsigned_of_nonneg o.args_.seq_len_ hseq (by omega)
  have hspec := fun h => (trgLenBounds_spec o.args_.batch_size_ dp h (hlen h).1).2
  have hnull : dp.trg_word = false → (trgLenBounds o.args_.batch_size_ dp).2 = 0 :=
    fun h => by rw [trgLenBounds_null _ _ h]
  generalize (trgLenBounds o.args_.batch_size_ dp).2 = max_trg_len at *
  generalize forward D env o dp d0 = r at *
  have hug : ∀ t : Nat, ugt t max_trg_len = true ↔ max_trg_len < t := fun t =>
    ugt_iff t max_trg_len (le_trans hm0 hm1) (by omega)
  have hdone : ∀ t : Nat,
      allFinished D o.args_.batch_size_ (stateAt D env o dp d0 t).dev = true ↔
        ∀ i : Nat, (i : Int) < o.args_.batch_size_ →
          D.finished (stateAt D env o dp d0 t).dev i = true :=
    fun t => done_iff D o.args_.batch_size_ _ hb hb'
  have hleast : ∀ t : Nat, max_trg_len < t → t < r.steps →
      ¬ ∀ i : Nat, (i : Int) < o.args_.batch_size_ →
          D.finished (stateAt D env o dp d0 t).dev i = true := by
    intro t ht1 ht2 hd
    exact h3 t (by omega) ht2 ⟨(hug t).2 ht1, (hdone t).2 hd⟩
  have hearly : (r.steps : Int) < o.args_.seq_len_ → max_trg_len < r.steps ∧
      ∀ i : Nat, (i : Int) < o.args_.batch_size_ →
          D.finished (stateAt D env o dp d0 r.steps).dev i = true := by
    intro hlt
    obtain ⟨-, h5, h6⟩ := h4 (by omega)
    exact ⟨(hug _).1 h5, (hdone _).1 h6⟩
  refine ⟨h1, by omega, ?_, fun h => (hearly h).1, ?_, ?_⟩
  · by_cases hst : max_trg_len < r.steps ∧
        ∀ i : Nat, (i : Int) < o.args_.batch_size_ →
          D.finished (stateAt D env o dp d0 r.steps).dev i = true
    · exact Or.inl ⟨hst.1, hst.2, hleast⟩
    · have heq : (r.steps : Int) = o.args_.seq_len_ := by
        by_contra hne
        exact hst (hearly (by omega))
      refine Or.inr ⟨heq, ?_⟩
      intro t ht1 ht2 hd
      by_cases hlt : t < r.steps
      · exact hleast t ht1 hlt hd
      · have : t = r.steps := by omega
        subst this
        exact hst ⟨ht1, hd⟩
  · exact hnull
  · exact hspec

/-- C1, at a run with forced lengths 3 and 0, `seq_len = 5`, and a device
whose finished flags are all set from the tenth launch on, that is during
step 1: the loop runs four steps, the first one past `max_trg_len = 3`. -/
theorem C1_steps_executed_witness :
    (0 ≤ topkObject.args_.seq_len_ ∧ topkObject.args_.seq_len_ < 2147483648 ∧
      0 ≤ topkObject.args_.batch_size_ ∧ topkObject.args_.batch_size_ < 2147483648 ∧
      ForcedLengthsOk topkObject.args_.batch_size_ forcedDecodingParam) ∧
    (forward (countingDevice 10) (demoEnv true) topkObject forcedDecodingParam 0).steps = 4 ∧
    (trgLenBounds topkObject.args_.batch_size_ forcedDecodingParam).2 = 3 ∧
    (let r := forward (countingDevice 10) (demoEnv true) topkObject forcedDecodingParam 0
     let max_trg_len := (trgLenBounds topkObject.args_.batch_size_ forcedDecodingParam).2
     let done : Nat → Prop := fun t =>
       ∀ i : Nat, (i : Int) < topkObject.args_.batch_size_ →
         (countingDevice 10).finished
           (stateAt (countingDevice 10) (demoEnv true) topkObject forcedDecodingParam 0 t).dev i =
             true
     r = stateAt (countingDevice 10) (demoEnv true) topkObject forcedDecodingParam 0 r.steps ∧
     (r.steps : Int) ≤ topkObject.args_.seq_len_ ∧
     ((max_trg_len < r.steps ∧ done r.steps ∧
         ∀ t : Nat, max_trg_len < t → t < r.steps → ¬ done t) ∨
       ((r.steps : Int) = topkObject.args_.seq_len_ ∧
         ∀ t : Nat, max_trg_len < t → (t : Int) ≤ topkObject.args_.seq_len_ → ¬ done t)) ∧
     ((r.steps : Int) < topkObject.args_.seq_len_ → max_trg_len < r.steps) ∧
     (forcedDecodingParam.trg_word = false → max_trg_len = 0) ∧
     (forcedDecodingParam.trg_word = true →
       (∀ i : Nat, (i : Int) < topkObject.args_.batch_size_ →
         forcedDecodingParam.trg_length i ≤ max_trg_len) ∧
       ∃ i : Nat, (i : Int) < topkObject.args_.batch_size_ ∧
         max_trg_len = forcedDecodingParam.trg_length i)) :=
  have hlen : ForcedLengthsOk topkObject.args_.batch_size_ forcedDecodingParam :=
    fun _ => ⟨by decide, fun i _ => by
      simp only [forcedDecodingParam]
      split <;> decide⟩
  ⟨⟨by decide, by decide, by decide, by decide, hlen⟩, by decide, by decide,
    C1_steps_executed (countingDevice 10) (demoEnv true) topkObject forcedDecodingParam 0
      (by decide) (by decide) (by decide) (by decide) hlen⟩

/-- C2. For an object of an accepted configuration and forced lengths that
are non-negative (the batch being non-empty when forced tokens are given):
`min_trg_len` is 0 without forced tokens and the least forced length of the
batch otherwise, and at every executed step `t` the final normalisation is
launched exactly when `t > min_trg_len`, and so are the projection, a token
selection, and any launch of the sampling pipeline. -/
theorem C2_sampling_iff_past_min {σ : Type} (D : Device σ) (op : OperationType) (env : Env)
    (p : CtorParams) (o : T5DecodingSampling) (hc : construct op env p = .ok o)
    (dp : DecodingInitParam) (d0 : σ) (hlen : ForcedLengthsOk o.args_.batch_size_ dp) :
    let r := forward D env o dp d0
    let min_trg_len := (trgLenBounds o.args_.batch_size_ dp).1
    (dp.trg_word = false → min_trg_len = 0) ∧
    (dp.trg_word = true →
      (∀ i : Nat, (i : Int) < o.args_.batch_size_ → min_trg_len ≤ dp.trg_length i) ∧
      ∃ i : Nat, (i : Int) < o.args_.batch_size_ ∧ min_trg_len = dp.trg_length i) ∧
    ∀ t : Nat, 1 ≤ t → t ≤ r.steps →
      (((callsAt r.log t).any Call.isLayerNorm = true ↔ min_trg_len < t) ∧
       ((callsAt r.log t).any Call.isProjection = true ↔ min_trg_len < t) ∧
       ((callsAt r.log t).any Call.isSelection = true ↔ min_trg_len < t) ∧
       ((callsAt r.log t).any Call.inSamplingPipeline = true ↔ min_trg_len < t)) := by
  intro r min_trg_len
  obtain ⟨hm0, hm1, hm2⟩ := trgLenBounds_range o.args_.batch_size_ dp hlen
  refine ⟨fun h => by show (trgLenBounds o.args_.batch_size_ dp).1 = 0; rw [trgLenBounds_null _ _ h],
    fun h => (trgLenBounds_spec o.args_.batch_size_ dp h (hlen h).1).1, ?_⟩
  intro t ht1 ht2
  have hug : ugt t min_trg_len = true ↔ min_trg_len < t :=
    ugt_iff t min_trg_len hm0 (by omega)
  have hcalls := callsAt_forward D env o dp d0 t ht1 ht2
  have hsel := selectionCalls_filter o dp t (construct_mode hc).1
  have key : ∀ P : Call → Bool,
      (P = Call.isLayerNorm ∨ P = Call.isProjection ∨ P = Call.isSelection ∨
        P = Call.inSamplingPipeline ∨ P = Call.isSoftmax) →
      (ugt t min_trg_len = true → ∀ out_id, (samplingCalls o dp min_trg_len t out_id).any P = true) →
      ((callsAt r.log t).any P = true ↔ min_trg_len < t) := by
    intro P hP hyes
    show (callsAt (forward D env o dp d0).log t).any P = true ↔ _
    rw [hcalls, stepCalls_any _ _ _ _ _ _ _ P (sampling_block_pred P hP), ← hug]
    cases hu : ugt t min_trg_len
    · rw [samplingCalls_of_not_ugt _ _ _ _ _ hu]; simp
    · simp [hyes hu]
  have hselany : (selectionCalls o dp t).any Call.isSelection = true := by
    rw [any_of_filter_ne_nil, hsel]; simp
  refine ⟨key _ (Or.inl rfl) ?_, key _ (Or.inr (Or.inl rfl)) ?_,
    key _ (Or.inr (Or.inr (Or.inl rfl))) ?_, key _ (Or.inr (Or.inr (Or.inr (Or.inl rfl)))) ?_⟩
  · intro hu out_id
    rw [samplingCalls_of_ugt _ _ _ _ _ hu]; simp [Call.isLayerNorm]
  · intro hu out_id
    rw [samplingCalls_of_ugt _ _ _ _ _ hu]; simp [Call.isProjection]
  · intro hu out_id
    rw [samplingCalls_of_ugt _ _ _ _ _ hu]
    simp only [List.any_append, hselany, Bool.or_true]
  · intro hu out_id
    rw [samplingCalls_of_ugt _ _ _ _ _ hu]
    have : (selectionCalls o dp t).any Call.inSamplingPipeline = true := by
      rw [List.any_eq_true] at hselany ⊢
      obtain ⟨c, hc1, hc2⟩ := hselany
      exact ⟨c, hc1, inSamplingPipeline_of_isSelection c hc2⟩
    simp only [List.any_append, this, Bool.or_true]

/-- C2, at the run with forced lengths 3 and 0 and `seq_len = 5`, for step 2:
`min_trg_len` is 0, all five steps run, and step 2 samples. -/
theorem C2_sampling_iff_past_min_witness :
    (construct .FP32 (demoEnv true) (pairParams 1 (.finite 0 0)) = .ok topkObject ∧
      ForcedLengthsOk topkObject.args_.batch_size_ forcedDecodingParam) ∧
    (forward idleDevice (demoEnv true) topkObject forcedDecodingParam ()).steps = 5 ∧
    (trgLenBounds topkObject.args_.batch_size_ forcedDecodingParam).1 = 0 ∧
    (((callsAt (forward idleDevice (demoEnv true) topkObject forcedDecodingParam ()).log 2).any
        Call.isLayerNorm = true ↔
          (trgLenBounds topkObject.args_.batch_size_ forcedDecodingParam).1 < (2 : Nat)) ∧
     ((callsAt (forward idleDevice (demoEnv true) topkObject forcedDecodingParam ()).log 2).any
        Call.isProjection = true ↔
          (trgLenBounds topkObject.args_.batch_size_ forcedDecodingParam).1 < (2 : Nat)) ∧
     ((callsAt (forward idleDevice (demoEnv true) topkObject forcedDecodingParam ()).log 2).any
        Call.isSelection = true ↔
          (trgLenBounds topkObject.args_.batch_size_ forcedDecodingParam).1 < (2 : Nat)) ∧
     ((callsAt (forward idleDevice (demoEnv true) topkObject forcedDecodingParam ()).log 2).any
        Call.inSamplingPipeline = true ↔
          (trgLenBounds topkObject.args_.batch_size_ forcedDecodingParam).1 < (2 : Nat))) :=
  have hlen : ForcedLengthsOk topkObject.args_.batch_size_ forcedDecodingParam :=
    fun _ => ⟨by decide, fun i _ => by
      simp only [forcedDecodingParam]
      split <;> decide⟩
  ⟨⟨rfl, hlen⟩, by decide, by decide,
    (C2_sampling_iff_past_min idleDevice .FP32 (demoEnv true) (pairParams 1 (.finite 0 0))
      topkObject rfl forcedDecodingParam () hlen).2.2 2 (by decide) (by decide)⟩

/-- The example of C2: with forced lengths 3 and 0 and `seq_len = 5`, the five
steps all run, and each of them runs the final normalisation, the projection
and a selection. -/
theorem forced_prefix_example :
    (forward idleDevice (demoEnv true) topkObject forcedDecodingParam ()).steps = 5 ∧
    (List.range' 1 5).all (fun t =>
      (callsAt (forward idleDevice (demoEnv true) topkObject forcedDecodingParam ()).log t).any
        Call.isLayerNorm &&
      (callsAt (forward idleDevice (demoEnv true) topkObject forcedDecodingParam ()).log t).any
        Call.isProjection &&
      (callsAt (forward idleDevice (demoEnv true) topkObject forcedDecodingParam ()).log t).any
        Call.isSelection) = true := by
  decide

/-- C9, as stated, fails.  In top-p mode without `output_scores`, step 1 is a
sampled step and launches the softmax. -/
theorem C9_counterexample :
    construct .FP32 (demoEnv true) (pairParams 0 (.finite 1 1)) = .ok toppObject ∧
    1 ≤ (forward idleDevice (demoEnv true) toppObject plainDecodingParam ()).steps ∧
    (callsAt (forward idleDevice (demoEnv true) toppObject plainDecodingParam ()).log 1).any
      Call.isSelection = true ∧
    ¬ ((callsAt (forward idleDevice (demoEnv true) toppObject plainDecodingParam ()).log 1).any
        Call.isSoftmax = true ↔ plainDecodingParam.output_scores = true) := by
  refine ⟨rfl, by decide, by decide, ?_⟩
  decide

/-- C9, amended.  At every sampled step of an object of an accepted
configuration: in top-k mode (`candidate_num != 0`) the softmax is launched
exactly when `output_scores` is given; in top-p mode it is launched whether or
not `output_scores` is given. -/
theorem C9_softmax {σ : Type} (D : Device σ) (op : OperationType) (env : Env)
    (p : CtorParams) (o : T5DecodingSampling) (hc : construct op env p = .ok o)
    (dp : DecodingInitParam) (d0 : σ) (hlen : ForcedLengthsOk o.args_.batch_size_ dp)
    (t : Nat) (ht1 : 1 ≤ t) (ht2 : t ≤ (forward D env o dp d0).steps)
    (hmin : (trgLenBounds o.args_.batch_size_ dp).1 < t) :
    (o.args_.candidate_num_ ≠ 0 →
      ((callsAt (forward D env o dp d0).log t).any Call.isSoftmax = true ↔
        dp.output_scores = true)) ∧
    (o.args_.candidate_num_ = 0 →
      (callsAt (forward D env o dp d0).log t).any Call.isSoftmax = true) := by
  obtain ⟨hm0, hm1, hm2⟩ := trgLenBounds_range o.args_.batch_size_ dp hlen
  have hug : ugt t (trgLenBounds o.args_.batch_size_ dp).1 = true :=
    (ugt_iff t _ hm0 (by omega)).2 hmin
  have hf : (callsAt (forward D env o dp d0).log t).filter Call.isSoftmax =
      if o.args_.candidate_num_ = 0 ∨ dp.output_scores = true then
        [Call.softmax_kernelLauncher] else [] := by
    rw [callsAt_forward D env o dp d0 t ht1 ht2,
      stepCalls_filter _ _ _ _ _ _ _ _
        (sampling_block_pred _ (Or.inr (Or.inr (Or.inr (Or.inr rfl))))),
      samplingCalls_filter_softmax _ _ _ _ _ hug,
      selectionCalls_filter_softmax o dp t (construct_mode hc).1]
  rw [any_of_filter_ne_nil, hf]
  constructor
  · intro hne
    cases hs : dp.output_scores <;> simp [hne]
  · intro h0
    simp [h0]

/-- C9, amended, at step 1 of a run in top-k mode without scores. -/
theorem C9_softmax_witness :
    (construct .FP32 (demoEnv true) (pairParams 1 (.finite 0 0)) = .ok topkObject ∧
      ForcedLengthsOk topkObject.args_.batch_size_ plainDecodingParam ∧
      1 ≤ (forward idleDevice (demoEnv true) topkObject plainDecodingParam ()).steps ∧
      (trgLenBounds topkObject.args_.batch_size_ plainDecodingParam).1 < (1 : Nat)) ∧
    (topkObject.args_.candidate_num_ ≠ 0 →
      ((callsAt (forward idleDevice (demoEnv true) topkObject plainDecodingParam ()).log 1).any
        Call.isSoftmax = true ↔ plainDecodingParam.output_scores = true)) ∧
    (topkObject.args_.candidate_num_ = 0 →
      (callsAt (forward idleDevice (demoEnv true) topkObject plainDecodingParam ()).log 1).any
        Call.isSoftmax = true) :=
  have hlen : ForcedLengthsOk topkObject.args_.batch_size_ plainDecodingParam :=
    fun h => absurd h (by decide)
  ⟨⟨rfl, hlen, by decide, by decide⟩,
    C9_softmax idleDevice .FP32 (demoEnv true) (pairParams 1 (.finite 0 0))
      topkObject rfl plainDecodingParam () hlen 1 (by decide) (by decide) (by decide)⟩

/-- C10, at a failing input.  The constructor called with
`tie_word_embeddings = false` on an argument block whose member
`tie_word_embeddings_` is `true` leaves the member `true`, and the projection
of step 1 is scaled by `pow(k, -0.5)`; called with `tie_word_embeddings = true`
on a block whose member is `false`, it leaves it `false` and the projection is
scaled by 1. -/
theorem C10_tie_word_embeddings_not_stored :
    ((tieParams false).tie_word_embeddings = false ∧
      (∃ o, construct .FP32 (demoEnv true) (tieParams false) = .ok o ∧
        o.args_.tie_word_embeddings_ = true ∧
        (callsAt (forward idleDevice (demoEnv true) o plainDecodingParam ()).log 1).filter
          Call.isProjection =
            [Call.cublasMM_cublasLtMM_wrapper_decoder .rsqrt_hidden_units false])) ∧
    ((tieParams true).tie_word_embeddings = true ∧
      (∃ o, construct .FP32 (demoEnv false) (tieParams true) = .ok o ∧
        o.args_.tie_word_embeddings_ = false ∧
        (callsAt (forward idleDevice (demoEnv false) o plainDecodingParam ()).log 1).filter
          Call.isProjection =
            [Call.cublasMM_cublasLtMM_wrapper_decoder .one false])) := by
  refine ⟨⟨rfl, _, rfl, rfl, ?_⟩, ⟨rfl, _, rfl, rfl, ?_⟩⟩ <;> decide

/-! ### The padded vocabulary -/

/-- C12, as stated, fails.  In FP16, for `vocab_size = 2147483647`, which is
not negative, `ceil(vocab_size / 8.)` is 268435456 and its product with 8
leaves the range of `int`: the constructor sets `vocab_size_padded_` to
-2147483648, which is less than `vocab_size`, and so does every object it
leaves. -/
theorem C12_counterexample :
    0 ≤ hugeVocabParams.vocab_size ∧
    (assignArgs .FP16 (demoEnv true).args_init hugeVocabParams).vocab_size_padded_ =
      -2147483648 ∧
    ¬ (hugeVocabParams.vocab_size ≤
      (assignArgs .FP16 (demoEnv true).args_init hugeVocabParams).vocab_size_padded_) ∧
    (∀ o, construct .FP16 (demoEnv true) hugeVocabParams = .ok o →
      o.args_.vocab_size_padded_ = -2147483648) := by
  refine ⟨by decide, by decide, by decide, ?_⟩
  intro o h
  rw [(construct_args h).1]
  decide

/-- C12, amended.  For `vocab_size >= 0` the constructor sets
`vocab_size_padded_` to `vocab_size` in FP32; in FP16, for
`vocab_size <= 2147483640`, the largest multiple of 8 in the range of `int`, it
sets it to the least multiple of 8 that is at least `vocab_size`: a multiple
of 8, at least `vocab_size`, at most every such multiple, less than
`vocab_size + 8`, and equal to `vocab_size` when that is a multiple of 8.  The
object of an accepted configuration holds the value the constructor set. -/
theorem C12_vocab_size_padded (env : Env) (p : CtorParams) (hv : 0 ≤ p.vocab_size) :
    (assignArgs .FP32 env.args_init p).vocab_size_padded_ = p.vocab_size ∧
    (p.vocab_size ≤ 2147483640 →
      8 ∣ (assignArgs .FP16 env.args_init p).vocab_size_padded_ ∧
      p.vocab_size ≤ (assignArgs .FP16 env.args_init p).vocab_size_padded_ ∧
      (∀ m : Int, 8 ∣ m → p.vocab_size ≤ m →
        (assignArgs .FP16 env.args_init p).vocab_size_padded_ ≤ m) ∧
      (assignArgs .FP16 env.args_init p).vocab_size_padded_ < p.vocab_size + 8 ∧
      (8 ∣ p.vocab_size →
        (assignArgs .FP16 env.args_init p).vocab_size_padded_ = p.vocab_size)) ∧
    (∀ op o, construct op env p = .ok o →
      o.args_.vocab_size_padded_ = (assignArgs op env.args_init p).vocab_size_padded_) := by
  refine ⟨rfl, ?_, fun op o h => by rw [(construct_args h).1]⟩
  intro hV
  have hc := ceilDiv_bounds p.vocab_size 8 (by decide)
  have h16 : (assignArgs .FP16 env.args_init p).vocab_size_padded_ =
      ceilDiv p.vocab_size 8 * 8 := by
    refine wrapInt_eq_self _ (by omega) ?_
    unfold ceilDiv
    omega
  rw [h16]
  unfold ceilDiv
  refine ⟨?_, ?_, ?_, ?_, ?_⟩
  · omega
  · omega
  · intro m hm hle; omega
  · omega
  · intro h; omega

/-- C12, amended, at 100 words: padded to 104 in FP16, 100 in FP32. -/
theorem C12_vocab_size_padded_witness :
    (0 ≤ (pairParams 1 (.finite 0 0)).vocab_size ∧
      (pairParams 1 (.finite 0 0)).vocab_size = 100 ∧
      (pairParams 1 (.finite 0 0)).vocab_size ≤ 2147483640) ∧
    (assignArgs .FP32 (demoEnv true).args_init (pairParams 1 (.finite 0 0))).vocab_size_padded_ =
      100 ∧
    (assignArgs .FP16 (demoEnv true).args_init (pairParams 1 (.finite 0 0))).vocab_size_padded_ =
      104 ∧
    pairObject.args_.vocab_size_padded_ = 104 ∧
    8 ∣ (assignArgs .FP16 (demoEnv true).args_init
      (pairParams 1 (.finite 0 0))).vocab_size_padded_ ∧
    (pairParams 1 (.finite 0 0)).vocab_size ≤
      (assignArgs .FP16 (demoEnv true).args_init (pairParams 1 (.finite 0 0))).vocab_size_padded_ :=
  have h := C12_vocab_size_padded (demoEnv true) (pairParams 1 (.finite 0 0)) (by decide)
  ⟨⟨by decide, rfl, by decide⟩, h.1, by decide, by decide, (h.2.1 (by decide)).1,
    (h.2.1 (by decide)).2.1⟩

/-! ### The output buffer -/

theorem layerLoop_isDecoderLayer (env : Env) (o : T5DecodingSampling) (step : Nat)
    (layers : List Nat) (out_id : Option Int) :
    ∀ c ∈ (layerLoop env o step layers out_id).1, c.isDecoderLayer = true := by
  induction layers generalizing out_id with
  | nil => intro c hc; cases hc
  | cons l ls ih =>
    simp only [layerLoop]
    split
    · intro c hc
      simp only [List.mem_cons] at hc
      rcases hc with rfl | rfl | hc
      · rfl
      · rfl
      · exact ih _ c hc
    · exact ih out_id

theorem selectionCalls_kind (o : T5DecodingSampling) (dp : DecodingInitParam) (step : Nat) :
    ∀ c ∈ selectionCalls o dp step, c.inSamplingPipeline = true := by
  intro c hc
  unfold selectionCalls at hc
  split at hc
  · split at hc <;>
    · simp only [List.mem_cons, List.mem_singleton, List.not_mem_nil, or_false] at hc
      rcases hc with rfl | rfl <;> rfl
  · split at hc
    · split at hc <;>
      · simp only [List.mem_cons, List.mem_singleton, List.not_mem_nil, or_false] at hc
        rcases hc with rfl | rfl <;> rfl
    · cases hc

theorem samplingCalls_kind (o : T5DecodingSampling) (dp : DecodingInitParam) (mn : Int)
    (step : Nat) (out_id : Option Int) :
    ∀ c ∈ samplingCalls o dp mn step out_id,
      (c.isLayerNorm || c.isProjection || c.inSamplingPipeline) = true := by
  intro c hc
  cases hu : ugt step mn
  · rw [samplingCalls_of_not_ugt _ _ _ _ _ hu] at hc; cases hc
  · rw [samplingCalls_of_ugt _ _ _ _ _ hu] at hc
    simp only [List.mem_append, List.mem_cons, List.mem_singleton, List.not_mem_nil,
      or_false] at hc
    rcases hc with (((rfl | rfl) | hc) | hc) | hc
    · rfl
    · rfl
    · split at hc
      · simp only [List.mem_singleton] at hc; subst hc; rfl
      · cases hc
    · split at hc
      · simp only [List.mem_singleton] at hc; subst hc; rfl
      · cases hc
    · rw [selectionCalls_kind o dp step c hc]; simp

theorem samplingCalls_filter_other (o : T5DecodingSampling) (dp : DecodingInitParam)
    (mn : Int) (step : Nat) (out_id : Option Int) (P : Call → Bool)
    (hP : ∀ c, (c.isLayerNorm || c.isProjection || c.inSamplingPipeline) = true →
      P c = false) :
    (samplingCalls o dp mn step out_id).filter P = [] := by
  rw [List.filter_eq_nil_iff]
  intro c hc
  rw [hP c (samplingCalls_kind o dp mn step out_id c hc)]
  simp

theorem other_pred (P : Call → Bool)
    (h : P = Call.isEmbedding ∨ P = Call.isDecoderLayer ∨ P = Call.isForceDecoding) :
    ∀ c, (c.isLayerNorm || c.isProjection || c.inSamplingPipeline) = true → P c = false := by
  intro c hc
  rcases h with rfl | rfl | rfl <;> cases c <;>
    simp_all [Call.isEmbedding, Call.isDecoderLayer, Call.isForceDecoding, Call.isLayerNorm,
      Call.isProjection, Call.isSelection, Call.isTopK, Call.isTopP, Call.inSamplingPipeline]

theorem stepCalls_filter_embedding (env : Env) (o : T5DecodingSampling)
    (dp : DecodingInitParam) (mn mx : Int) (w : Ptr) (step : Nat) :
    (stepCalls env o dp mn mx w step).filter Call.isEmbedding =
      [Call.words_embeddings_kernel_launcher 0 w] := by
  have h2 := layerLoop_filter env o step Call.isEmbedding
    (fun c hc => by cases c <;> simp_all [Call.isDecoderLayer, Call.isEmbedding])
    (List.range o.args_.decoder_layers_.toNat) none
  have h3 := samplingCalls_filter_other o dp mn step
    (layerLoop env o step (List.range o.args_.decoder_layers_.toNat) none).2 _
    (other_pred _ (Or.inl rfl))
  have h4 := forceCalls_filter o mn mx w step Call.isEmbedding
    (fun c hc => by cases c <;> simp_all [Call.isForceDecoding, Call.isEmbedding])
  simp only [stepCalls, List.filter_cons, List.filter_append, h2, h3, h4, Call.isEmbedding,
    if_true, List.nil_append, List.append_nil]

theorem stepCalls_filter_decoder (env : Env) (o : T5DecodingSampling)
    (dp : DecodingInitParam) (mn mx : Int) (w : Ptr) (step : Nat) :
    (stepCalls env o dp mn mx w step).filter Call.isDecoderLayer =
      (layerLoop env o step (List.range o.args_.decoder_layers_.toNat) none).1 := by
  have h2 : (layerLoop env o step (List.range o.args_.decoder_layers_.toNat) none).1.filter
      Call.isDecoderLayer =
        (layerLoop env o step (List.range o.args_.decoder_layers_.toNat) none).1 :=
    List.filter_eq_self.2 (layerLoop_isDecoderLayer env o step _ _)
  have h3 := samplingCalls_filter_other o dp mn step
    (layerLoop env o step (List.range o.args_.decoder_layers_.toNat) none).2 _
    (other_pred _ (Or.inr (Or.inl rfl)))
  have h4 := forceCalls_filter o mn mx w step Call.isDecoderLayer
    (fun c hc => by cases c <;> simp_all [Call.isForceDecoding, Call.isDecoderLayer])
  simp only [stepCalls, List.filter_cons, List.filter_append, h2, h3, h4, Call.isDecoderLayer,
    Bool.false_eq_true, if_false, List.nil_append, List.append_nil]

/-! ### The member `word_ids_buf_` -/

theorem layerLoop_all_valid (env : Env) (o : T5DecodingSampling) (step : Nat)
    (layers : List Nat) (out_id : Option Int)
    (hv : ∀ l ∈ layers, env.is_valid o.l_parallel_param_ (l : Int) = true) :
    (layerLoop env o step layers out_id).1 = layers.flatMap (layerCalls o step) ∧
    (layerLoop env o step layers out_id).2 =
      match layers.getLast? with
      | none => out_id
      | some l => some (1 - (l : Int) % 2) := by
  induction layers generalizing out_id with
  | nil => exact ⟨rfl, rfl⟩
  | cons l ls ih =>
    have hl := hv l (List.mem_cons_self _ _)
    obtain ⟨h1, h2⟩ := ih (some (1 - (l : Int) % 2)) (fun l' hl' => hv l' (List.mem_cons_of_mem _ hl'))
    simp only [layerLoop, hl, if_true]
    refine ⟨?_, ?_⟩
    · rw [h1]; rfl
    · rw [h2]
      cases ls with
      | nil => rfl
      | cons a as =>
        rw [List.getLast?_cons_cons, List.getLast?_eq_getLast _ (List.cons_ne_nil a as)]

theorem range_getLast? (n : Nat) (h : 1 ≤ n) : (List.range n).getLast? = some (n - 1) := by
  obtain ⟨k, rfl⟩ : ∃ k, n = k + 1 := ⟨n - 1, by omega⟩
  rw [List.range_succ, List.getLast?_append]
  simp

theorem samplingCalls_filter_layerNorm (o : T5DecodingSampling) (dp : DecodingInitParam)
    (mn : Int) (step : Nat) (out_id : Option Int) :
    ∀ c ∈ samplingCalls o dp mn step out_id, c.isLayerNorm = true →
      c = Call.t5_layer_norm out_id := by
  intro c hc hl
  cases hu : ugt step mn
  · rw [samplingCalls_of_not_ugt _ _ _ _ _ hu] at hc; cases hc
  · rw [samplingCalls_of_ugt _ _ _ _ _ hu] at hc
    simp only [List.mem_append, List.mem_cons, List.mem_singleton, List.not_mem_nil,
      or_false] at hc
    rcases hc with (((rfl | rfl) | hc) | hc) | hc
    · rfl
    · cases hl
    · split at hc
      · simp only [List.mem_singleton] at hc; subst hc; cases hl
      · cases hc
    · split at hc
      · simp only [List.mem_singleton] at hc; subst hc; cases hl
      · cases hc
    · have := selectionCalls_kind o dp step c hc
      cases c <;> simp_all [Call.inSamplingPipeline, Call.isLayerNorm, Call.isSelection,
        Call.isTopK, Call.isTopP]

/-- C14. With `decoder_layers >= 1` and every layer owned, at every executed
step: the embedding lookup writes slot 0 of `from_tensor_`; the launches of the
layer loop are, for `l = 0, ..., decoder_layers - 1` in order, the
initialisation of layer `l` and its forward pass from slot `l mod 2` to slot
`1 - l mod 2`; a final normalisation, when launched, reads slot
`decoder_layers mod 2`.  Layer 0 reads slot 0; the slot a layer writes is not
the one it reads, and is the one the next layer reads. -/
theorem C14_rotating_slots {σ : Type} (D : Device σ) (env : Env) (o : T5DecodingSampling)
    (dp : DecodingInitParam) (d0 : σ) (hL : 1 ≤ o.args_.decoder_layers_)
    (hv : ∀ l : Nat, (l : Int) < o.args_.decoder_layers_ →
      env.is_valid o.l_parallel_param_ (l : Int) = true)
    (t : Nat) (ht1 : 1 ≤ t) (ht2 : t ≤ (forward D env o dp d0).steps) :
    (∃ w, (callsAt (forward D env o dp d0).log t).filter Call.isEmbedding =
      [Call.words_embeddings_kernel_launcher 0 w]) ∧
    (callsAt (forward D env o dp d0).log t).filter Call.isDecoderLayer =
      (List.range o.args_.decoder_layers_.toNat).flatMap (fun l =>
        [Call.decoder_init_layer l,
         Call.decoder_forward l ((l : Int) % 2) (1 - (l : Int) % 2)
          (o.views.K_cache_0 + sizeofDataType o.op * (l * forwardCacheSize o))
          (o.views.V_cache_0 + sizeofDataType o.op * (l * forwardCacheSize o))
          (o.views.K_mem_cache_ l) (o.views.V_mem_cache_ l) t]) ∧
    (∀ c ∈ callsAt (forward D env o dp d0).log t, c.isLayerNorm = true →
      c = Call.t5_layer_norm (some (o.args_.decoder_layers_ % 2))) ∧
    (((0 : Nat) : Int) % 2 = 0 ∧
      ∀ l : Nat, (((l : Int) % 2 = 0 ∨ (l : Int) % 2 = 1) ∧
        1 - (l : Int) % 2 ≠ (l : Int) % 2 ∧
        ((l + 1 : Nat) : Int) % 2 = 1 - (l : Int) % 2)) := by
  have hcalls := callsAt_forward D env o dp d0 t ht1 ht2
  have hall := layerLoop_all_valid env o t (List.range o.args_.decoder_layers_.toNat) none
    (fun l hl => hv l (by rw [List.mem_range] at hl; omega))
  refine ⟨⟨_, by rw [hcalls, stepCalls_filter_embedding]⟩, ?_, ?_, by decide, ?_⟩
  · rw [hcalls, stepCalls_filter_decoder, hall.1]
    rfl
  · intro c hc hl
    rw [hcalls] at hc
    have hmem : c ∈ (stepCalls env o dp (trgLenBounds o.args_.batch_size_ dp).1
        (trgLenBounds o.args_.batch_size_ dp).2
        (stateAt D env o dp d0 (t - 1)).word_ids_buf_ t).filter Call.isLayerNorm :=
      List.mem_filter.2 ⟨hc, hl⟩
    rw [stepCalls_filter _ _ _ _ _ _ _ _ (sampling_block_pred _ (Or.inl rfl)),
      List.mem_filter] at hmem
    have := samplingCalls_filter_layerNorm o dp _ t _ c hmem.1 hl
    rw [this, hall.2, range_getLast? _ (by omega)]
    show Call.t5_layer_norm (some (1 - ((o.args_.decoder_layers_.toNat - 1 : Nat) : Int) % 2)) = _
    congr 2
    omega
  · intro l
    omega

/-! ### The cache views -/

theorem layerLoop_mem (env : Env) (o : T5DecodingSampling) (step : Nat) (layers : List Nat)
    (out_id : Option Int) :
    ∀ c ∈ (layerLoop env o step layers out_id).1, ∃ l ∈ layers, c ∈ layerCalls o step l := by
  induction layers generalizing out_id with
  | nil => intro c hc; cases hc
  | cons l ls ih =>
    simp only [layerLoop]
    split
    · intro c hc
      simp only [List.mem_cons] at hc
      rcases hc with rfl | rfl | hc
      · exact ⟨l, List.mem_cons_self _ _, List.mem_cons_self _ _⟩
      · exact ⟨l, List.mem_cons_self _ _, List.mem_cons_of_mem _ (List.mem_cons_self _ _)⟩
      · obtain ⟨l', hl', hc'⟩ := ih _ c hc
        exact ⟨l', List.mem_cons_of_mem _ hl', hc'⟩
    · intro c hc
      obtain ⟨l', hl', hc'⟩ := ih _ c hc
      exact ⟨l', List.mem_cons_of_mem _ hl', hc'⟩

theorem local_cache_le (b q h tp : Int) (hb : 0 ≤ b) (hq : 0 ≤ q) (htp : 1 ≤ tp) :
    b * q * (h / tp) ≤ (b * q * h) / tp := by
  rw [Int.le_ediv_iff_mul_le (by omega)]
  have h1 : h / tp * tp ≤ h := Int.ediv_mul_le h (by omega)
  have h2 : 0 ≤ b * q := mul_nonneg hb hq
  calc b * q * (h / tp) * tp = b * q * (h / tp * tp) := by ring
    _ ≤ b * q * h := mul_le_mul_of_nonneg_left h1 h2

/-- C15, as stated, fails.  In FP16, for 64 sequences of at most 4096 steps,
64 heads of size 256 (16384 hidden units), one layer and
`tensor_para_size = 8`, the constructor forms
`batch_size * seq_len * hidden_units = 2^32` in `int` and is left with
`cache_size = 0`: `K_cache_[0]`, `V_cache_[0]` and `decoder_buf_` are the same
address.  With `local_hidden_units_ = 16384 / 8`, the local `cache_size` of
`forward` is 2^29: the K view of layer 0 ends past the region of
`cache_size * decoder_layers` elements laid out at `K_cache_[0]`, and the K
and the V view of layer 0 start at the same byte. -/
theorem C15_counterexample :
    (1 ≤ wideParams.tensor_para_size ∧
      (2048 : Int) = (wideParams.head_num * wideParams.size_per_head) /
        wideParams.tensor_para_size) ∧
    construct .FP16 (demoEnv true) wideParams = .ok wideObject ∧
    wideObject.sizes.cache_size = 0 ∧
    wideObject.views.K_cache_0 = wideObject.views.V_cache_0 ∧
    wideObject.views.V_cache_0 = wideObject.views.decoder_buf_ ∧
    forwardCacheSize (set_tensor_parallel_param wideObject { local_hidden_units_ := 2048 }) =
      536870912 ∧
    ¬ ((0 + 1) *
        forwardCacheSize (set_tensor_parallel_param wideObject { local_hidden_units_ := 2048 }) ≤
      wideParams.decoder_layers * wideObject.sizes.cache_size) ∧
    ¬ ((selfKView (set_tensor_parallel_param wideObject { local_hidden_units_ := 2048 }) 0).stop ≤
      wideObject.views.K_cache_0 + sizeofDataType .FP16 *
        (wideObject.sizes.cache_size * wideParams.decoder_layers)) ∧
    (selfKView (set_tensor_parallel_param wideObject { local_hidden_units_ := 2048 }) 0).start =
      (selfVView (set_tensor_parallel_param wideObject { local_hidden_units_ := 2048 }) 0).start ∧
    ¬ (selfKView (set_tensor_parallel_param wideObject { local_hidden_units_ := 2048 }) 0).before
      (selfVView (set_tensor_parallel_param wideObject { local_hidden_units_ := 2048 }) 0) := by
  refine ⟨by decide, construct_constructed _ _ _ _, by decide, by decide, by decide, by decide,
    by decide, by decide, by decide, ?_⟩
  unfold Extent.before
  decide

/-- C15, amended.  With `tensor_para_size >= 1`, non-negative sizes, every
size the constructor computes in `int` within the range of `int`
(`IntSizesFit`), a byte count below 2^63, and
`local_hidden_units_ = hidden_units / tensor_para_size` set by
`set_tensor_parallel_param`: the `cache_size` of the constructor is
`(batch_size * seq_len * hidden_units) / tensor_para_size` and the local
`cache_size` of `forward` is `s = batch_size * seq_len * local_hidden_units_`;
at every executed step the forward pass of a layer `l < decoder_layers`
receives the views `K_cache_[0] + l * s`, `V_cache_[0] + l * s`,
`K_mem_cache_[l]` and `V_mem_cache_[l]`, which do not depend on the step; for
`0 <= l < decoder_layers`,
`(l + 1) * s <= decoder_layers * ((batch_size * seq_len * hidden_units) / tensor_para_size)`
and the two self-attention views lie in the regions of
`cache_size * decoder_layers` elements the constructor laid out at
`K_cache_[0]` and `V_cache_[0]`; and the views are ordered in `buf_` without
overlap: `K_mem_cache_[l]`, `V_mem_cache_[l]` by increasing `l`, then the K
views by increasing `l`, then the V views by increasing `l`. -/
theorem C15_cache_views {σ : Type} (D : Device σ) (op : OperationType) (env : Env)
    (p : CtorParams) (param : TensorParallelParam) (dp : DecodingInitParam) (d0 : σ)
    (ht : 1 ≤ p.tensor_para_size) (hb : 0 ≤ p.batch_size) (hs : 0 ≤ p.seq_len)
    (hh : 0 ≤ p.head_num) (hp : 0 ≤ p.size_per_head) (hv : 0 ≤ p.vocab_size)
    (hm : 0 ≤ p.memory_max_seq_len) (hfit : IntSizesFit op p)
    (hloc : param.local_hidden_units_ = (p.head_num * p.size_per_head) / p.tensor_para_size)
    (o : T5DecodingSampling) (hc : construct op env p = .ok o)
    (h64 : allocSum op env o.sizes (datatypeBufSum o.args_ o.sizes) < 9223372036854775808) :
    (o.sizes.cache_size =
        (p.batch_size * p.seq_len * (p.head_num * p.size_per_head)) / p.tensor_para_size ∧
      forwardCacheSize (set_tensor_parallel_param o param) =
        p.batch_size * p.seq_len * ((p.head_num * p.size_per_head) / p.tensor_para_size)) ∧
    (∀ t : Nat, 1 ≤ t →
      t ≤ (forward D env (set_tensor_parallel_param o param) dp d0).steps →
      ∀ c ∈ callsAt (forward D env (set_tensor_parallel_param o param) dp d0).log t,
        c.isDecoderLayer = true →
        ∃ l : Nat, (l : Int) < p.decoder_layers ∧
          (c = Call.decoder_init_layer l ∨
           c = Call.decoder_forward l ((l : Int) % 2) (1 - (l : Int) % 2)
            (selfKView (set_tensor_parallel_param o param) l).start
            (selfVView (set_tensor_parallel_param o param) l).start
            (memKView (set_tensor_parallel_param o param) l).start
            (memVView (set_tensor_parallel_param o param) l).start t)) ∧
    (∀ l : Int, 0 ≤ l → l < p.decoder_layers →
      (l + 1) * forwardCacheSize (set_tensor_parallel_param o param) ≤
        p.decoder_layers *
          ((p.batch_size * p.seq_len * (p.head_num * p.size_per_head)) / p.tensor_para_size) ∧
      o.views.K_cache_0 ≤ (selfKView (set_tensor_parallel_param o param) l).start ∧
      (selfKView (set_tensor_parallel_param o param) l).stop ≤
        o.views.K_cache_0 + sizeofDataType op * (o.sizes.cache_size * p.decoder_layers) ∧
      o.views.V_cache_0 ≤ (selfVView (set_tensor_parallel_param o param) l).start ∧
      (selfVView (set_tensor_parallel_param o param) l).stop ≤
        o.views.V_cache_0 + sizeofDataType op * (o.sizes.cache_size * p.decoder_layers)) ∧
    (∀ l l' : Int, 0 ≤ l → l < p.decoder_layers → 0 ≤ l' → l' < p.decoder_layers →
      0 ≤ (selfKView (set_tensor_parallel_param o param) l).bytes ∧
      0 ≤ (selfVView (set_tensor_parallel_param o param) l).bytes ∧
      0 ≤ (memKView (set_tensor_parallel_param o param) l).bytes ∧
      0 ≤ (memVView (set_tensor_parallel_param o param) l).bytes ∧
      (memKView (set_tensor_parallel_param o param) l).before
        (memVView (set_tensor_parallel_param o param) l) ∧
      (memVView (set_tensor_parallel_param o param) l).before
        (selfKView (set_tensor_parallel_param o param) l') ∧
      (selfKView (set_tensor_parallel_param o param) l).before
        (selfVView (set_tensor_parallel_param o param) l') ∧
      (l < l' →
        (memVView (set_tensor_parallel_param o param) l).before
          (memKView (set_tensor_parallel_param o param) l') ∧
        (selfKView (set_tensor_parallel_param o param) l).before
          (selfKView (set_tensor_parallel_param o param) l') ∧
        (selfVView (set_tensor_parallel_param o param) l).before
          (selfVView (set_tensor_parallel_param o param) l'))) := by
  obtain ⟨hl, z, ho, hz, hint, -, -, ecs, -⟩ :=
    construct_sizes op env p ht hb hs hh hp hv hm hfit hc
  subst ho
  have hL : 1 ≤ (assignArgs op env.args_init p).decoder_layers_ := hl
  have eL : (assignArgs op env.args_init p).decoder_layers_ = p.decoder_layers := rfl
  obtain ⟨hV, hVi⟩ := layout_exact op env _ z hz hL hint h64
  generalize hodef : buildObject op env p z
    (layout wrapPtr op env (assignArgs op env.args_init p) z) = o at *
  have hsizes : o.sizes = z := by rw [← hodef]; rfl
  have hviews0 : o.views = layout wrapPtr op env (assignArgs op env.args_init p) z := by
    rw [← hodef]; rfl
  have hop0 : o.op = op := by rw [← hodef]; rfl
  have hargs : o.args_ = assignArgs op env.args_init p := by rw [← hodef]; rfl
  have hs_eq : forwardCacheSize (set_tensor_parallel_param o param) =
      p.batch_size * p.seq_len * ((p.head_num * p.size_per_head) / p.tensor_para_size) := by
    show o.args_.batch_size_ * o.args_.seq_len_ * param.local_hidden_units_ = _
    rw [hloc, hargs]
    rfl
  have hhid : 0 ≤ p.head_num * p.size_per_head := mul_nonneg hh hp
  have hloc0 : 0 ≤ (p.head_num * p.size_per_head) / p.tensor_para_size :=
    Int.ediv_nonneg hhid (by omega)
  have hs0 : 0 ≤ forwardCacheSize (set_tensor_parallel_param o param) := by
    rw [hs_eq]; exact mul_nonneg (mul_nonneg hb hs) hloc0
  have hle : forwardCacheSize (set_tensor_parallel_param o param) ≤ o.sizes.cache_size := by
    rw [hs_eq, hsizes, ecs]
    exact local_cache_le _ _ _ _ hb hs ht
  have hm0 : 0 ≤ o.sizes.mem_cache_size := by rw [hsizes]; exact hz.2.2.2.2.1
  have hE : 0 < sizeofDataType op := by cases op <;> decide
  have hc0 : 0 ≤ o.sizes.cache_size := le_trans hs0 hle
  -- the layout of the four cache regions
  have eKm : ∀ i : Int, 0 ≤ i → i < p.decoder_layers → o.views.K_mem_cache_ i =
      (layout id op env (assignArgs op env.args_init p) z).from_tensor_1 + sizeofDataType op *
        (o.sizes.from_tensor_size + i * o.sizes.mem_cache_size * 2) := by
    intro i hi hil
    rw [hviews0, hsizes]
    exact (hVi i hi (by rw [eL]; exact hil)).1
  have eVm : ∀ i : Int, 0 ≤ i → i < p.decoder_layers → o.views.V_mem_cache_ i =
      (layout id op env (assignArgs op env.args_init p) z).from_tensor_1 + sizeofDataType op *
        (o.sizes.from_tensor_size + i * o.sizes.mem_cache_size * 2 +
          o.sizes.mem_cache_size) := by
    intro i hi hil
    rw [hviews0, hsizes]
    exact (hVi i hi (by rw [eL]; exact hil)).2
  have eK0 : o.views.K_cache_0 =
      (layout id op env (assignArgs op env.args_init p) z).from_tensor_1 + sizeofDataType op *
        (o.sizes.from_tensor_size + (p.decoder_layers - 1) * o.sizes.mem_cache_size * 2 +
          o.sizes.mem_cache_size) + sizeofDataType op *
        (o.sizes.mem_cache_size + 0 * o.sizes.cache_size * p.decoder_layers) := by
    rw [hviews0, hsizes]
    exact congrArg Views.K_cache_0 hV
  have eV0 : o.views.V_cache_0 =
      (layout id op env (assignArgs op env.args_init p) z).from_tensor_1 + sizeofDataType op *
        (o.sizes.from_tensor_size + (p.decoder_layers - 1) * o.sizes.mem_cache_size * 2 +
          o.sizes.mem_cache_size) + sizeofDataType op *
        (o.sizes.mem_cache_size + 1 * o.sizes.cache_size * p.decoder_layers) := by
    rw [hviews0, hsizes]
    exact congrArg Views.V_cache_0 hV
  have hviews : (set_tensor_parallel_param o param).views = o.views := rfl
  have hop : (set_tensor_parallel_param o param).op = op := hop0
  have hsz : (set_tensor_parallel_param o param).sizes = o.sizes := rfl
  refine ⟨⟨by rw [hsizes]; exact ecs, hs_eq⟩, ?_, ?_, ?_⟩
  · intro t ht1 ht2 c hc hd
    rw [callsAt_forward D env _ dp d0 t ht1 ht2] at hc
    have hmem : c ∈ (stepCalls env (set_tensor_parallel_param o param) dp
        (trgLenBounds (set_tensor_parallel_param o param).args_.batch_size_ dp).1
        (trgLenBounds (set_tensor_parallel_param o param).args_.batch_size_ dp).2
        (stateAt D env (set_tensor_parallel_param o param) dp d0
          (t - 1)).word_ids_buf_ t).filter Call.isDecoderLayer :=
      List.mem_filter.2 ⟨hc, hd⟩
    rw [stepCalls_filter_decoder] at hmem
    obtain ⟨l, hl, hcl⟩ := layerLoop_mem env _ t _ _ c hmem
    rw [List.mem_range] at hl
    have hl' : (l : Int) < p.decoder_layers := by
      have : (set_tensor_parallel_param o param).args_.decoder_layers_ =
          p.decoder_layers := by
        show o.args_.decoder_layers_ = _
        rw [hargs]
        rfl
      rw [this] at hl
      omega
    refine ⟨l, hl', ?_⟩
    simp only [layerCalls, List.mem_cons, List.mem_singleton, List.not_mem_nil, or_false] at hcl
    rcases hcl with rfl | rfl
    · exact Or.inl rfl
    · exact Or.inr rfl
  · intro l hl0 hl1
    have h1 : (l + 1) * forwardCacheSize (set_tensor_parallel_param o param) ≤
        p.decoder_layers * forwardCacheSize (set_tensor_parallel_param o param) :=
      mul_le_mul_of_nonneg_right (by omega) hs0
    have h2 : p.decoder_layers * forwardCacheSize (set_tensor_parallel_param o param) ≤
        p.decoder_layers * o.sizes.cache_size :=
      mul_le_mul_of_nonneg_left hle (by omega)
    have h3 : 0 ≤ l * forwardCacheSize (set_tensor_parallel_param o param) :=
      mul_nonneg hl0 hs0
    have h4 := le_trans h1 h2
    have e1 : (l + 1) * forwardCacheSize (set_tensor_parallel_param o param) =
        l * forwardCacheSize (set_tensor_parallel_param o param) +
          forwardCacheSize (set_tensor_parallel_param o param) := by ring
    have e2 : o.sizes.cache_size * p.decoder_layers =
        p.decoder_layers * o.sizes.cache_size := by ring
    refine ⟨by rw [← ecs, ← hsizes]; exact h4, ?_⟩
    simp only [selfKView, selfVView, Extent.stop, hviews, hop, e2]
    rw [e1] at h4
    generalize forwardCacheSize (set_tensor_parallel_param o param) = s at hs0 h3 h4 ⊢
    generalize l * s = X at h3 h4 ⊢
    generalize p.decoder_layers * o.sizes.cache_size = LC at h4 ⊢
    generalize o.views.K_cache_0 = K0
    generalize o.views.V_cache_0 = V0
    cases op <;> simp only [sizeofDataType] <;> omega
  · intro l l' hl0 hl1 hl0' hl1'
    have hX : 0 ≤ l * forwardCacheSize (set_tensor_parallel_param o param) :=
      mul_nonneg hl0 hs0
    have hX' : 0 ≤ l' * forwardCacheSize (set_tensor_parallel_param o param) :=
      mul_nonneg hl0' hs0
    have hXL : l * forwardCacheSize (set_tensor_parallel_param o param) +
        forwardCacheSize (set_tensor_parallel_param o param) ≤
          o.sizes.cache_size * p.decoder_layers := by
      have h1 : (l + 1) * forwardCacheSize (set_tensor_parallel_param o param) ≤
          p.decoder_layers * forwardCacheSize (set_tensor_parallel_param o param) :=
        mul_le_mul_of_nonneg_right (by omega) hs0
      have h2 : p.decoder_layers * forwardCacheSize (set_tensor_parallel_param o param) ≤
          p.decoder_layers * o.sizes.cache_size :=
        mul_le_mul_of_nonneg_left hle (by omega)
      have e1 : (l + 1) * forwardCacheSize (set_tensor_parallel_param o param) =
          l * forwardCacheSize (set_tensor_parallel_param o param) +
            forwardCacheSize (set_tensor_parallel_param o param) := by ring
      have e2 : o.sizes.cache_size * p.decoder_layers =
          p.decoder_layers * o.sizes.cache_size := by ring
      rw [e2, ← e1]
      exact le_trans h1 h2
    have hXX : l < l' →
        l * forwardCacheSize (set_tensor_parallel_param o param) +
        forwardCacheSize (set_tensor_parallel_param o param) ≤
          l' * forwardCacheSize (set_tensor_parallel_param o param) := by
      intro hlt
      have : (l + 1) * forwardCacheSize (set_tensor_parallel_param o param) ≤
          l' * forwardCacheSize (set_tensor_parallel_param o param) :=
        mul_le_mul_of_nonneg_right (by omega) hs0
      have e1 : (l + 1) * forwardCacheSize (set_tensor_parallel_param o param) =
          l * forwardCacheSize (set_tensor_parallel_param o param) +
            forwardCacheSize (set_tensor_parallel_param o param) := by ring
      rw [← e1]
      exact this
    have hA : 0 ≤ l * o.sizes.mem_cache_size := mul_nonneg hl0 hm0
    have hA' : 0 ≤ l' * o.sizes.mem_cache_size := mul_nonneg hl0' hm0
    have hAB : l * o.sizes.mem_cache_size ≤ (p.decoder_layers - 1) * o.sizes.mem_cache_size :=
      mul_le_mul_of_nonneg_right (by omega) hm0
    have hAA : l < l' → l * o.sizes.mem_cache_size + o.sizes.mem_cache_size ≤
        l' * o.sizes.mem_cache_size := by
      intro hlt
      have : (l + 1) * o.sizes.mem_cache_size ≤ l' * o.sizes.mem_cache_size :=
        mul_le_mul_of_nonneg_right (by omega) hm0
      have e1 : (l + 1) * o.sizes.mem_cache_size =
          l * o.sizes.mem_cache_size + o.sizes.mem_cache_size := by ring
      rw [← e1]
      exact this
    simp only [selfKView, selfVView, memKView, memVView, Extent.before, Extent.stop, hviews,
      hop, hsz, eK0, eV0, eKm l hl0 hl1, eVm l hl0 hl1, eKm l' hl0' hl1', eVm l' hl0' hl1',
      one_mul, zero_mul, add_zero]
    generalize forwardCacheSize (set_tensor_parallel_param o param) = s
      at hs0 hX hX' hXL hXX ⊢
    generalize l * s = X at hX hXL hXX ⊢
    generalize l' * s = X' at hX' hXX ⊢
    generalize o.sizes.cache_size * p.decoder_layers = CL at hXL ⊢
    generalize o.sizes.mem_cache_size = m at hm0 hA hA' hAB hAA ⊢
    generalize l * m = A at hA hAB hAA ⊢
    generalize l' * m = A' at hA' hAA ⊢
    generalize (p.decoder_layers - 1) * m = B at hAB ⊢
    generalize (layout id op env (assignArgs op env.args_init p) z).from_tensor_1 = F1
    generalize o.sizes.from_tensor_size = F
    cases op <;> simp only [sizeofDataType] <;>
    · refine ⟨by omega, by omega, by omega, by omega, by omega, by omega, by omega, ?_⟩
      intro hlt
      have := hXX hlt
      have := hAA hlt
      refine ⟨by omega, by omega, by omega⟩

/-- C15, amended, at the FP16 object for two shards and nine hidden units:
the local width is 4, `cache_size` is 40 in `forward` and 45 in the
constructor. -/
theorem C15_cache_views_witness :
    (1 ≤ shardedParams.tensor_para_size ∧ 0 ≤ shardedParams.batch_size ∧
      0 ≤ shardedParams.seq_len ∧ 0 ≤ shardedParams.head_num ∧
      0 ≤ shardedParams.size_per_head ∧ 0 ≤ shardedParams.vocab_size ∧
      0 ≤ shardedParams.memory_max_seq_len ∧ IntSizesFit .FP16 shardedParams ∧
      (4 : Int) = (shardedParams.head_num * shardedParams.size_per_head) /
        shardedParams.tensor_para_size ∧
      construct .FP16 (demoEnv true) shardedParams = .ok shardedBase ∧
      allocSum .FP16 (demoEnv true) shardedBase.sizes
        (datatypeBufSum shardedBase.args_ shardedBase.sizes) < 9223372036854775808) ∧
    forwardCacheSize shardedObject = 40 ∧
    shardedBase.sizes.cache_size = 45 ∧
    (
    (shardedBase.sizes.cache_size =
        (shardedParams.batch_size * shardedParams.seq_len * (shardedParams.head_num * shardedParams.size_per_head)) / shardedParams.tensor_para_size ∧
      forwardCacheSize shardedObject =
        shardedParams.batch_size * shardedParams.seq_len * ((shardedParams.head_num * shardedParams.size_per_head) / shardedParams.tensor_para_size)) ∧
    (∀ t : Nat, 1 ≤ t →
      t ≤ (forward idleDevice (demoEnv true) shardedObject plainDecodingParam ()).steps →
      ∀ c ∈ callsAt (forward idleDevice (demoEnv true) shardedObject plainDecodingParam ()).log t,
        c.isDecoderLayer = true →
        ∃ l : Nat, (l : Int) < shardedParams.decoder_layers ∧
          (c = Call.decoder_init_layer l ∨
           c = Call.decoder_forward l ((l : Int) % 2) (1 - (l : Int) % 2)
            (selfKView shardedObject l).start
            (selfVView shardedObject l).start
            (memKView shardedObject l).start
            (memVView shardedObject l).start t)) ∧
    (∀ l : Int, 0 ≤ l → l < shardedParams.decoder_layers →
      (l + 1) * forwardCacheSize shardedObject ≤
        shardedParams.decoder_layers *
          ((shardedParams.batch_size * shardedParams.seq_len * (shardedParams.head_num * shardedParams.size_per_head)) / shardedParams.tensor_para_size) ∧
      shardedBase.views.K_cache_0 ≤ (selfKView shardedObject l).start ∧
      (selfKView shardedObject l).stop ≤
        shardedBase.views.K_cache_0 + sizeofDataType .FP16 * (shardedBase.sizes.cache_size * shardedParams.decoder_layers) ∧
      shardedBase.views.V_cache_0 ≤ (selfVView shardedObject l).start ∧
      (selfVView shardedObject l).stop ≤
        shardedBase.views.V_cache_0 + sizeofDataType .FP16 * (shardedBase.sizes.cache_size * shardedParams.decoder_layers)) ∧
    (∀ l l' : Int, 0 ≤ l → l < shardedParams.decoder_layers → 0 ≤ l' → l' < shardedParams.decoder_layers →
      0 ≤ (selfKView shardedObject l).bytes ∧
      0 ≤ (selfVView shardedObject l).bytes ∧
      0 ≤ (memKView shardedObject l).bytes ∧
      0 ≤ (memVView shardedObject l).bytes ∧
      (memKView shardedObject l).before
        (memVView shardedObject l) ∧
      (memVView shardedObject l).before
        (selfKView shardedObject l') ∧
      (selfKView shardedObject l).before
        (selfVView shardedObject l') ∧
      (l < l' →
        (memVView shardedObject l).before
          (memKView shardedObject l') ∧
        (selfKView shardedObject l).before
          (selfKView shardedObject l') ∧
        (selfVView shardedObject l).before
          (selfVView shardedObject l')))) :=
  ⟨⟨by decide, by decide, by decide, by decide, by decide, by decide, by decide,
      by unfold IntSizesFit; decide, by decide, construct_constructed _ _ _ _, by decide⟩,
    by decide, by decide,
    C15_cache_views idleDevice .FP16 (demoEnv true) shardedParams
      { local_hidden_units_ := 4 } plainDecodingParam ()
      (by decide) (by decide) (by decide) (by decide) (by decide) (by decide) (by decide)
      (by unfold IntSizesFit; decide) (by decide) shardedBase (construct_constructed _ _ _ _)
      (by decide)⟩

/-! ### The object after `forward` -/

/-- C14, at step 3 of a run with two layers, both owned: layer 0 goes from
slot 0 to slot 1, layer 1 from slot 1 to slot 0, and the final normalisation
reads slot 0. -/
theorem C14_rotating_slots_witness :
    (1 ≤ topkObject.args_.decoder_layers_ ∧
      (∀ l : Nat, (l : Int) < topkObject.args_.decoder_layers_ →
        (demoEnv true).is_valid topkObject.l_parallel_param_ (l : Int) = true) ∧
      3 ≤ (forward idleDevice (demoEnv true) topkObject plainDecodingParam ()).steps) ∧
    (callsAt (forward idleDevice (demoEnv true) topkObject plainDecodingParam ()).log 3).filter
        Call.isLayerNorm = [Call.t5_layer_norm (some 0)] ∧
    (
    (∃ w, (callsAt (forward idleDevice (demoEnv true) topkObject plainDecodingParam ()).log 3).filter Call.isEmbedding =
      [Call.words_embeddings_kernel_launcher 0 w]) ∧
    (callsAt (forward idleDevice (demoEnv true) topkObject plainDecodingParam ()).log 3).filter Call.isDecoderLayer =
      (List.range topkObject.args_.decoder_layers_.toNat).flatMap (fun l =>
        [Call.decoder_init_layer l,
         Call.decoder_forward l ((l : Int) % 2) (1 - (l : Int) % 2)
          (topkObject.views.K_cache_0 + sizeofDataType topkObject.op * (l * forwardCacheSize topkObject))
          (topkObject.views.V_cache_0 + sizeofDataType topkObject.op * (l * forwardCacheSize topkObject))
          (topkObject.views.K_mem_cache_ l) (topkObject.views.V_mem_cache_ l) 3]) ∧
    (∀ c ∈ callsAt (forward idleDevice (demoEnv true) topkObject plainDecodingParam ()).log 3, c.isLayerNorm = true →
      c = Call.t5_layer_norm (some (topkObject.args_.decoder_layers_ % 2))) ∧
    (((0 : Nat) : Int) % 2 = 0 ∧
      ∀ l : Nat, (((l : Int) % 2 = 0 ∨ (l : Int) % 2 = 1) ∧
        1 - (l : Int) % 2 ≠ (l : Int) % 2 ∧
        ((l + 1 : Nat) : Int) % 2 = 1 - (l : Int) % 2))) :=
  ⟨⟨by decide, fun _ _ => rfl, by decide⟩, by decide,
    C14_rotating_slots idleDevice (demoEnv true) topkObject plainDecodingParam ()
      (by decide) (fun _ _ => rfl) 3 (by decide) (by decide)⟩

end T5Sampling
